import Mathlib

/-!
# cv-backend: the request handlers of `src/server.js`

A shallow embedding of the Express handlers of the CV backend.

* A JavaScript object (a parsed JSON body, a store row, a response object) is the list of its
  own enumerable properties, in the order `for (const key in obj)` visits them.
* The record store (`pool.query`) is an external collaborator: a handler is a function of an
  arbitrary store `Store σ`, and its `Outcome` records the reply, the statements that were
  sent to the store (in order) and the store state it leaves behind.
* JavaScript built-ins whose definition is not part of the repository (`toLowerCase`,
  `parseInt`, `parseFloat`) are taken as parameters (`Builtins`), so every theorem holds
  whatever they compute; `refBuiltins` is used for concrete runs only.
* `req.body` is the object produced by `express.json()` (`{}` when the request has none).
* Claims about the tables themselves (migration of expenses, recurring expenses, income) are
  stated on `sqlStore`, which gives the statements of the finance handlers their SQL meaning
  on lists of rows; `LOWER` and `CURRENT_DATE` are parameters of it (`SqlEngine`), and what a
  handler reads from `new Date()` is a parameter of the handler (`Clock`).
* Numbers are integers: the rounding of doubles is not modelled.
-/

namespace CvBackend

/-! ## JavaScript values and objects -/

/-- A JavaScript value: what a parsed JSON body, a query parameter or a store column holds.
`num` is an integer-valued number and `nan` is `NaN`. `composite` stands for every other value
that is only passed around (an array, an object, a non-integer number that is not zero): it is
truthy and is represented by its string conversion. -/
inductive Val where
  | undefined
  | null
  | bool (b : Bool)
  | num (n : Int)
  | nan
  | str (s : String)
  | composite (asString : String)
  deriving DecidableEq, Repr

/-- JavaScript truthiness (`if (v)`, `!v`, `v || w`). -/
def Val.truthy : Val → Bool
  | .undefined => false
  | .null => false
  | .bool b => b
  | .num n => n != 0
  | .nan => false
  | .str s => s != ""
  | .composite _ => true

/-- The JavaScript expression `a || b`. -/
def Val.or (a b : Val) : Val := if a.truthy then a else b

/-- String conversion of a value, as done by a template literal or a property access. -/
def Val.toJsString : Val → String
  | .undefined => "undefined"
  | .null => "null"
  | .bool b => if b then "true" else "false"
  | .num n => toString n
  | .nan => "NaN"
  | .str s => s
  | .composite t => t

/-- A JavaScript object: its own enumerable properties in `for ... in` order. -/
abbrev Obj := List (String × Val)

/-- Property read `obj[key]`: `undefined` when the object has no such property. -/
def Obj.get (o : Obj) (key : String) : Val :=
  match o with
  | [] => .undefined
  | (k, v) :: rest => if k = key then v else Obj.get rest key

/-- Property write `obj[key] = v`: overwrites an existing property, else adds one. -/
def Obj.set (o : Obj) (key : String) (v : Val) : Obj :=
  match o with
  | [] => [(key, v)]
  | (k, w) :: rest => if k = key then (k, v) :: rest else (k, w) :: Obj.set rest key v

/-- What a plain object inherits from `Object.prototype`: its methods and `__proto__`, all
truthy, represented by their string conversion. -/
def inheritedGet (key : String) : Val :=
  if key = "__proto__" then .composite "[object Object]"
  else if ["constructor", "hasOwnProperty", "isPrototypeOf", "propertyIsEnumerable",
      "toLocaleString", "toString", "valueOf", "__defineGetter__", "__defineSetter__",
      "__lookupGetter__", "__lookupSetter__"].contains key then
    .composite ("function " ++ (if key = "constructor" then "Object" else key) ++
      "() \x7b [native code] \x7d")
  else .undefined

/-- Property read `obj[key]` on a plain object (an object literal, a row of a query result)
with a key that the code does not fix, such as one taken from the request: an own property if
there is one, else what the object inherits. -/
def literalGet (o : Obj) (key : String) : Val :=
  if o.any (fun kv => kv.1 = key) then o.get key else inheritedGet key

/-- Property write `obj[key] = v` on a plain object with a key that the code does not fix: the
key `__proto__` reaches the setter of `Object.prototype` and creates no property; any other
key overwrites an existing property, else adds one. -/
def Obj.write (o : Obj) (key : String) (v : Val) : Obj :=
  if key = "__proto__" then o else o.set key v

/-- The built-ins the handlers call and the repository does not define. -/
structure Builtins where
  toLowerCase : String → String
  parseInt : String → Val
  parseFloat : Val → Val
  trim : String → String

/-- The expression `str.slice(0, -2)`: the string without its last two characters. -/
def sliceOffTwo (s : String) : String :=
  String.mk (s.data.take (s.data.length - 2))

/-- The expression `str.endsWith(suffix)`. -/
def endsWith (s suffix : String) : Bool :=
  suffix.data.isSuffixOf s.data

/-- Removes the first occurrence of `pat` from a list of characters, scanning left to right. -/
def removeFirst (pat : List Char) : List Char → List Char
  | [] => []
  | c :: cs => if pat.isPrefixOf (c :: cs) then (c :: cs).drop pat.length
               else c :: removeFirst pat cs

/-- The expression `str.replace(pat, "")` for a string pattern: only the first occurrence of
`pat` is removed (an empty pattern matches at position 0 and removes nothing). -/
def replaceFirstWithEmpty (s pat : String) : String :=
  String.mk (removeFirst pat.data s.data)

/-! ## The record store and handler outcomes -/

/-- A parameterised statement: the SQL text and the values bound to `$1, $2, ...`. -/
structure Stmt where
  text : String
  params : List Val
  deriving DecidableEq, Repr

/-- What `pool.query` resolves to. -/
structure QueryResult where
  rows : List Obj
  rowCount : Nat
  deriving DecidableEq, Repr

/-- The record store: `query s stmt` is the result of the statement in state `s` (`none` when
`pool.query` rejects, e.g. on malformed SQL) and the state afterwards. -/
structure Store (σ : Type) where
  query : σ → Stmt → Option QueryResult × σ

/-- A field of a JSON response. -/
inductive Payload where
  | text (s : String)
  | val (v : Val)
  | obj (o : Obj)
  | rows (rs : List Obj)
  | finance (income : Payload) (expenses : List Obj)
  deriving DecidableEq, Repr

/-- The response `res.status(status).json(body)`. -/
structure Reply where
  status : Nat
  body : List (String × Payload)
  deriving DecidableEq, Repr

/-- The result of running a handler: the reply, the statements sent to the store in order, and
the store state afterwards. -/
structure Outcome (σ : Type) where
  reply : Reply
  issued : List Stmt
  final : σ

/-- The response `res.status(status).json({ error: msg })`. -/
def errorReply (status : Nat) (msg : String) : Reply :=
  ⟨status, [("error", .text msg)]⟩

/-- The expression `result.rows[0]` placed in a response. -/
def firstRow (rows : List Obj) : Payload :=
  match rows with
  | [] => .val .undefined
  | r :: _ => .obj r

/-- One `await pool.query(text, params)` inside a `try` block: the statement is logged; if the
store rejects, the `catch` block replies `onReject`, otherwise the handler continues with `k`. -/
def awaitQuery {σ : Type} (db : Store σ) (stmt : Stmt) (s : σ) (log : List Stmt)
    (onReject : Reply) (k : QueryResult → σ → List Stmt → Outcome σ) : Outcome σ :=
  match db.query s stmt with
  | (none, s1) => ⟨onReject, log ++ [stmt], s1⟩
  | (some r, s1) => k r s1 (log ++ [stmt])

/-- The check `["en", "es", "it"].includes(lang)`. -/
def validLang (lang : String) : Bool := ["en", "es", "it"].contains lang

/-- The reply every update handler gives for a language outside en, es, it. -/
def invalidLangReply : Reply :=
  errorReply 400 "❌ Idioma no válido. Debe ser 'en', 'es' o 'it'."

/-- The loop state of the dynamic UPDATE builders: `updateQuery`, `values`, `counter`. -/
structure Build where
  updateQuery : String
  values : List Val
  counter : Nat
  deriving DecidableEq, Repr

/-- The loop body shared by the builders: `updateQuery += column = $counter, ` followed by
`values.push(v); counter++`. -/
def Build.assign (b : Build) (column : String) (v : Val) : Build :=
  ⟨b.updateQuery ++ (column ++ " = $" ++ toString b.counter ++ ", "),
   b.values ++ [v], b.counter + 1⟩

/-- The statement after the loop: `updateQuery.slice(0, -2) + " WHERE id = $counter RETURNING *;"`
with `values.push(id)`. -/
def Build.finish (b : Build) (id : Val) : Stmt :=
  ⟨sliceOffTwo b.updateQuery ++ (" WHERE id = $" ++ toString b.counter ++ " RETURNING *;"),
   b.values ++ [id]⟩

/-! ## `PUT /cv/experience/:id/:lang` -/

/-- The `for (const key in updatedFields)` loop of the experience handler: keys outside
company, role, duration, description are skipped. -/
def experienceLoop (lang : String) : Obj → Build → Build
  | [], b => b
  | (key, v) :: rest, b =>
    if ["company", "role", "duration", "description"].contains key then
      experienceLoop lang rest (b.assign (key ++ "_" ++ lang) v)
    else
      experienceLoop lang rest b

/-- The handler `app.put("/cv/experience/:id/:lang")`. -/
def putExperience {σ : Type} (js : Builtins) (db : Store σ) (idParam langParam : String)
    (body : Obj) (s : σ) : Outcome σ :=
  let experienceId := js.parseInt idParam
  let lang := js.toLowerCase langParam
  let updatedFields := body
  if !validLang lang then ⟨invalidLangReply, [], s⟩
  else if updatedFields.length == 0 then
    ⟨errorReply 400 "❌ No se proporcionaron datos para actualizar.", [], s⟩
  else
    awaitQuery db ⟨"SELECT * FROM experience WHERE id = $1", [experienceId]⟩ s []
      (errorReply 500 "❌ Error interno del servidor.") fun checkExperience s1 log1 =>
    if checkExperience.rows.length == 0 then
      ⟨errorReply 404 "❌ No se encontró la experiencia con el ID proporcionado.", log1, s1⟩
    else
      let b := experienceLoop lang updatedFields ⟨"UPDATE experience SET ", [], 1⟩
      if b.values.length == 0 then
        ⟨errorReply 400 "❌ No se proporcionaron campos válidos para actualizar.", log1, s1⟩
      else
        awaitQuery db (b.finish experienceId) s1 log1
          (errorReply 500 "❌ Error interno del servidor.") fun updatedExperience s2 log2 =>
        ⟨⟨200, [("message", .text ("✅ Experiencia con ID " ++ experienceId.toJsString ++
                    " actualizada en el idioma " ++ lang)),
                ("updatedExperience", firstRow updatedExperience.rows)]⟩, log2, s2⟩

/-! ## `PUT /cv/education/:id/:lang` -/

/-- The reply of the builders that reject an unknown key. -/
def invalidFieldReply (key : String) : Reply :=
  errorReply 400 ("❌ El campo '" ++ key ++ "' no es válido para actualizar.")

/-- The `for (const key in updatedFields)` loop of the education handler: `duration` is
written as is, `institution` and `degree` to the column of the language, and any other key
makes the handler return (`Except.error key`). -/
def educationLoop (lang : String) : Obj → Build → Except String Build
  | [], b => .ok b
  | (key, v) :: rest, b =>
    if key = "duration" then
      educationLoop lang rest (b.assign key v)
    else if ["institution", "degree"].contains key then
      educationLoop lang rest (b.assign (key ++ "_" ++ lang) v)
    else
      .error key

/-- The handler `app.put("/cv/education/:id/:lang")`. -/
def putEducation {σ : Type} (js : Builtins) (db : Store σ) (idParam langParam : String)
    (body : Obj) (s : σ) : Outcome σ :=
  let educationId := js.parseInt idParam
  let lang := js.toLowerCase langParam
  let updatedFields := body
  if !validLang lang then ⟨invalidLangReply, [], s⟩
  else if updatedFields.length == 0 then
    ⟨errorReply 400 "❌ No se proporcionaron datos para actualizar.", [], s⟩
  else
    awaitQuery db ⟨"SELECT * FROM education WHERE id = $1", [educationId]⟩ s []
      (errorReply 500 "❌ Error interno del servidor.") fun checkEducation s1 log1 =>
    if checkEducation.rows.length == 0 then
      ⟨errorReply 404 "❌ No se encontró la educación con el ID proporcionado.", log1, s1⟩
    else
      match educationLoop lang updatedFields ⟨"UPDATE education SET ", [], 1⟩ with
      | .error key => ⟨invalidFieldReply key, log1, s1⟩
      | .ok b =>
        if b.values.length == 0 then
          ⟨errorReply 400 "❌ No se proporcionaron campos válidos para actualizar.", log1, s1⟩
        else
          awaitQuery db (b.finish educationId) s1 log1
            (errorReply 500 "❌ Error interno del servidor.") fun updatedEducation s2 log2 =>
          ⟨⟨200, [("message", .text ("✅ Educación con ID " ++ educationId.toJsString ++
                      " actualizada en el idioma " ++ lang)),
                  ("updatedEducation", firstRow updatedEducation.rows)]⟩, log2, s2⟩

/-! ## `PUT /cv/skills/:id/:lang` -/

/-- The `for (const key in updatedFields)` loop of the skills handler. -/
def skillsLoop (lang : String) : Obj → Build → Except String Build
  | [], b => .ok b
  | (key, v) :: rest, b =>
    if key = "skills" then
      skillsLoop lang rest (b.assign key v)
    else if key = "category" then
      skillsLoop lang rest (b.assign (key ++ "_" ++ lang) v)
    else
      .error key

/-- The handler `app.put("/cv/skills/:id/:lang")`. It has no check for an empty body. -/
def putSkills {σ : Type} (js : Builtins) (db : Store σ) (idParam langParam : String)
    (body : Obj) (s : σ) : Outcome σ :=
  let skillId := js.parseInt idParam
  let lang := js.toLowerCase langParam
  let updatedFields := body
  if !validLang lang then ⟨invalidLangReply, [], s⟩
  else
    awaitQuery db ⟨"SELECT * FROM skills WHERE id = $1", [skillId]⟩ s []
      (errorReply 500 "❌ Error interno del servidor.") fun checkSkill s1 log1 =>
    if checkSkill.rows.length == 0 then
      ⟨errorReply 404 "❌ No se encontró la habilidad con el ID proporcionado.", log1, s1⟩
    else
      match skillsLoop lang updatedFields ⟨"UPDATE skills SET ", [], 1⟩ with
      | .error key => ⟨invalidFieldReply key, log1, s1⟩
      | .ok b =>
        awaitQuery db (b.finish skillId) s1 log1
          (errorReply 500 "❌ Error interno del servidor.") fun updatedSkill s2 log2 =>
        ⟨⟨200, [("message", .text ("✅ Habilidad con ID " ++ skillId.toJsString ++
                    " actualizada en " ++ lang)),
                ("updatedSkill", firstRow updatedSkill.rows)]⟩, log2, s2⟩

/-! ## `PUT /cv/languages/:id/:lang` -/

/-- The `for (const key in updatedFields)` loop of the languages handler. -/
def languagesLoop (lang : String) : Obj → Build → Except String Build
  | [], b => .ok b
  | (key, v) :: rest, b =>
    if ["language", "level"].contains key then
      languagesLoop lang rest (b.assign (key ++ "_" ++ lang) v)
    else
      .error key

/-- The handler `app.put("/cv/languages/:id/:lang")`. It has no check for an empty body. -/
def putLanguages {σ : Type} (js : Builtins) (db : Store σ) (idParam langParam : String)
    (body : Obj) (s : σ) : Outcome σ :=
  let languageId := js.parseInt idParam
  let lang := js.toLowerCase langParam
  let updatedFields := body
  if !validLang lang then ⟨invalidLangReply, [], s⟩
  else
    awaitQuery db ⟨"SELECT * FROM languages WHERE id = $1", [languageId]⟩ s []
      (errorReply 500 "❌ Error interno del servidor.") fun checkLanguage s1 log1 =>
    if checkLanguage.rows.length == 0 then
      ⟨errorReply 404 "❌ No se encontró el idioma con el ID proporcionado.", log1, s1⟩
    else
      match languagesLoop lang updatedFields ⟨"UPDATE languages SET ", [], 1⟩ with
      | .error key => ⟨invalidFieldReply key, log1, s1⟩
      | .ok b =>
        awaitQuery db (b.finish languageId) s1 log1
          (errorReply 500 "❌ Error interno del servidor.") fun updatedLanguage s2 log2 =>
        ⟨⟨200, [("message", .text ("✅ Idioma con ID " ++ languageId.toJsString ++
                    " actualizado en " ++ lang)),
                ("updatedLanguage", firstRow updatedLanguage.rows)]⟩, log2, s2⟩

/-! ## `PUT /cv/projects/:id/:lang` -/

/-- The handler `app.put("/cv/projects/:id/:lang")`: the language is checked as it comes in the
path, and one fixed statement binds `name`, `description`, `technologies` and `link` of the
body (`undefined` when the body lacks them). -/
def putProjects {σ : Type} (db : Store σ) (idParam langParam : String)
    (body : Obj) (s : σ) : Outcome σ :=
  let id := Val.str idParam
  let lang := langParam
  let name := body.get "name"
  let description := body.get "description"
  let technologies := body.get "technologies"
  let link := body.get "link"
  if !validLang lang then ⟨invalidLangReply, [], s⟩
  else
    awaitQuery db
      ⟨"UPDATE projects \n             SET name_" ++ lang ++ " = $1, \n                 description_" ++ lang ++ " = $2,\n                 technologies = $3, \n                 link = $4\n             WHERE id = $5\n             RETURNING *",
       [name, description, technologies, link, id]⟩ s []
      (errorReply 500 "❌ Error al actualizar el proyecto en la base de datos.")
      fun updatedProject s1 log1 =>
    if updatedProject.rowCount == 0 then
      ⟨errorReply 404 "❌ Proyecto no encontrado.", log1, s1⟩
    else
      ⟨⟨200, [("message", .text ("✅ Proyecto actualizado correctamente en " ++ lang ++
                  ", incluyendo technologies y link.")),
              ("project", firstRow updatedProject.rows)]⟩, log1, s1⟩

/-! ## `PUT /cv/contact/:lang` and `PUT /cv/profile/:lang` -/

/-- The loop `for (const key of fieldsToUpdate)` of the contact handler: one UPDATE of the
dictionary per field of the body that is truthy; `k` is the rest of the `try` block. -/
def contactLoop {σ : Type} (db : Store σ) (lang : String) (updatedFields : Obj) :
    List String → σ → List Stmt → (σ → List Stmt → Outcome σ) → Outcome σ
  | [], s, log, k => k s log
  | key :: rest, s, log, k =>
    if (updatedFields.get key).truthy then
      awaitQuery db ⟨"UPDATE dictionary SET " ++ lang ++ " = $1 WHERE key = $2",
          [updatedFields.get key, .str key]⟩ s log
        (errorReply 500 "❌ Error interno del servidor.")
        fun _ s1 log1 => contactLoop db lang updatedFields rest s1 log1 k
    else
      contactLoop db lang updatedFields rest s log k

/-- The handler `app.put("/cv/contact/:lang")`. -/
def putContact {σ : Type} (js : Builtins) (db : Store σ) (langParam : String)
    (body : Obj) (s : σ) : Outcome σ :=
  let lang := js.toLowerCase langParam
  let updatedFields := body
  if !validLang lang then ⟨invalidLangReply, [], s⟩
  else
    contactLoop db lang updatedFields ["email", "phone", "address"] s [] fun s1 log1 =>
    awaitQuery db
      ⟨"SELECT key, en, es, it FROM dictionary WHERE key IN ('email', 'phone', 'address')", []⟩
      s1 log1 (errorReply 500 "❌ Error interno del servidor.") fun updatedContact s2 log2 =>
    ⟨⟨200, [("message", .text ("✅ Datos de contacto actualizados en el idioma " ++ lang)),
            ("updatedContact", .rows updatedContact.rows)]⟩, log2, s2⟩

/-- The handler `app.put("/cv/profile/:lang")`: the language is checked as it comes in the
path. -/
def putProfile {σ : Type} (db : Store σ) (langParam : String)
    (body : Obj) (s : σ) : Outcome σ :=
  let lang := langParam
  let updatedFields := body
  if !validLang lang then ⟨invalidLangReply, [], s⟩
  else
    awaitQuery db ⟨"SELECT * FROM dictionary WHERE key = 'profile_description'", []⟩ s []
      (errorReply 500 "❌ Error al actualizar el perfil en la base de datos.")
      fun checkProfile s1 log1 =>
    if checkProfile.rows.length == 0 then
      ⟨errorReply 404 "❌ No se encontró la descripción del perfil en la base de datos.",
        log1, s1⟩
    else
      awaitQuery db
        ⟨"UPDATE dictionary SET " ++ lang ++ " = $1 WHERE key = 'profile_description' RETURNING *;",
         [updatedFields.get "profile_description"]⟩ s1 log1
        (errorReply 500 "❌ Error al actualizar el perfil en la base de datos.")
        fun _ s2 log2 =>
      awaitQuery db
        ⟨"SELECT key, en, es, it FROM dictionary WHERE key = 'profile_description'", []⟩ s2 log2
        (errorReply 500 "❌ Error al actualizar el perfil en la base de datos.")
        fun updatedProfile s3 log3 =>
      ⟨⟨200, [("message", .text ("✅ Perfil actualizado en el idioma " ++ lang)),
              ("updatedProfile", firstRow updatedProfile.rows)]⟩, log3, s3⟩

/-! ## The expense update handlers -/

/-- The statement after the loop of the expense builders:
`updateQuery.slice(0, -2) + " WHERE id = $counter AND month_year = $(counter + 1) RETURNING *;"`
with `values.push(id, monthYearKey)`. -/
def Build.finishExpense (b : Build) (id : Val) (monthYearKey : String) : Stmt :=
  ⟨sliceOffTwo b.updateQuery ++ (" WHERE id = $" ++ toString b.counter ++
      " AND month_year = $" ++ toString (b.counter + 1) ++ " RETURNING *;"),
   b.values ++ [id, .str monthYearKey]⟩

/-- One `if (field) { ... }` block of the fixed-field expense builder. -/
def Build.assignIf (b : Build) (column : String) (field : Val) (bound : Val) : Build :=
  if field.truthy then b.assign column bound else b

/-- The five `if` blocks of `app.put("/finance/:month/:year/expenses/:id")`: a field of the
body is assigned when its value is truthy; `amount` is bound as `parseFloat(amount)`. -/
def expenseFields (js : Builtins) (body : Obj) : Build :=
  let name := body.get "name"
  let category := body.get "category"
  let amount := body.get "amount"
  let currency := body.get "currency"
  let status := body.get "status"
  (((((Build.mk "UPDATE expenses SET " [] 1).assignIf "name" name name).assignIf
    "category" category category).assignIf "amount" amount (js.parseFloat amount)).assignIf
    "currency" currency currency).assignIf "status" status status

/-- The reply of the expense handlers when the expense is not in the month. -/
def expenseNotFound (id month year : String) : Reply :=
  errorReply 404 ("❌ No se encontró el gasto con ID " ++ id ++ " para " ++ month ++ " " ++
    year ++ ".")

/-- The handler `app.put("/finance/:month/:year/expenses/:id")`. -/
def putExpense {σ : Type} (js : Builtins) (db : Store σ) (month year idParam : String)
    (body : Obj) (s : σ) : Outcome σ :=
  let id := Val.str idParam
  let monthYearKey := year ++ "-" ++ js.toLowerCase month
  awaitQuery db ⟨"SELECT * FROM expenses WHERE id = $1 AND month_year = $2",
      [id, .str monthYearKey]⟩ s []
    (errorReply 500 "❌ Error al actualizar el gasto en la base de datos.")
    fun checkExpense s1 log1 =>
  if checkExpense.rows.length == 0 then
    ⟨expenseNotFound idParam month year, log1, s1⟩
  else
    awaitQuery db ((expenseFields js body).finishExpense id monthYearKey) s1 log1
      (errorReply 500 "❌ Error al actualizar el gasto en la base de datos.")
      fun updatedExpense s2 log2 =>
    ⟨⟨200, [("message", .text "✅ Gasto actualizado correctamente"),
            ("updatedExpense", firstRow updatedExpense.rows)]⟩, log2, s2⟩

/-- The `for (const key in updatedFields)` loop of the expense status handler: every key of
the body is written into the statement text. -/
def expenseStatusLoop : Obj → Build → Build
  | [], b => b
  | (key, v) :: rest, b => expenseStatusLoop rest (b.assign key v)

/-- The handler `app.put("/finance/expenses/:month/:year/:id")`. -/
def putExpenseStatus {σ : Type} (js : Builtins) (db : Store σ) (month year idParam : String)
    (body : Obj) (s : σ) : Outcome σ :=
  let updatedFields := body
  let expenseId := js.parseInt idParam
  let monthYearKey := year ++ "-" ++ js.toLowerCase month
  awaitQuery db ⟨"SELECT * FROM expenses WHERE id = $1 AND month_year = $2",
      [expenseId, .str monthYearKey]⟩ s []
    (errorReply 500 "❌ Error al actualizar el gasto en la base de datos.")
    fun checkExpense s1 log1 =>
  if checkExpense.rows.length == 0 then
    ⟨expenseNotFound expenseId.toJsString month year, log1, s1⟩
  else
    awaitQuery db
      ((expenseStatusLoop updatedFields ⟨"UPDATE expenses SET ", [], 1⟩).finishExpense
        expenseId monthYearKey) s1 log1
      (errorReply 500 "❌ Error al actualizar el gasto en la base de datos.")
      fun updatedExpense s2 log2 =>
    ⟨⟨200, [("message", .text ("✅ Gasto con ID " ++ expenseId.toJsString ++
                " actualizado correctamente")),
            ("updatedExpense", firstRow updatedExpense.rows)]⟩, log2, s2⟩

/-! ## `filterByLanguage` and `GET /cv` -/

/-- The inner loop of `filterByLanguage` in non-dictionary mode:
`for (const key in row) if (key.endsWith("_" + lang)) newItem[key.replace("_" + lang, "")] = row[key]`.
The first argument is the part of `row` still to visit. -/
def filterRow (lang : String) : Obj → Obj → Obj → Obj
  | [], _, newItem => newItem
  | (key, _) :: rest, row, newItem =>
    if endsWith key ("_" ++ lang) then
      filterRow lang rest row
        (newItem.write (replaceFirstWithEmpty key ("_" ++ lang)) (row.get key))
    else
      filterRow lang rest row newItem

/-- The function `filterByLanguage(rows, lang, isDictionary)`. In dictionary mode `row[lang]`
is read with a key the caller chooses, so an inherited property is found as well. -/
def filterByLanguage (rows : List Obj) (lang : String) (isDictionary : Bool) : List Obj :=
  rows.map fun row =>
    if isDictionary then
      [("key", row.get "key"), ("text", (literalGet row lang).or (row.get "en"))]
    else
      filterRow lang row row []

/-- The `dictionary` object of `GET /cv`:
`dictionaryRows.rows.forEach(item => { dictionary[item.key] = item[lang] || item["en"]; })`. -/
def buildDictionary (rows : List Obj) (lang : String) : Obj :=
  rows.foldl (fun dictionary item =>
    dictionary.write (item.get "key").toJsString
      ((literalGet item lang).or (item.get "en"))) []

/-- The expression `incomeQuery.rows[0] || { amount: 0, currency: "EUR" }`. -/
def incomeOrDefault (rows : List Obj) : Payload :=
  match rows with
  | [] => .obj [("amount", .num 0), ("currency", .str "EUR")]
  | r :: _ => .obj r

/-- The reply of `GET /cv` when a query is rejected: the message is under `message`. -/
def getCvFailed : Reply :=
  ⟨500, [("message", .text "❌ Error al obtener los datos del CV.")]⟩

/-- The handler `app.get("/cv")`. `queryLang` is `req.query.lang` (`undefined` when the
parameter is absent) and `currentMonthYear` is `new Date().toISOString().slice(0, 7)`. The
language is written into the five SELECT texts without any check. -/
def getCv {σ : Type} (db : Store σ) (queryLang : Val) (currentMonthYear : String)
    (s : σ) : Outcome σ :=
  let lang := (queryLang.or (.str "en")).toJsString
  awaitQuery db ⟨"\n            SELECT id, \n                   company_" ++ lang ++ " AS company, \n                   role_" ++ lang ++ " AS role, \n                   duration_" ++ lang ++ " AS duration, \n                   description_" ++ lang ++ " AS description\n            FROM experience\n        ", []⟩
    s [] getCvFailed fun experience s1 log1 =>
  awaitQuery db ⟨"\n            SELECT id, \n                   institution_" ++ lang ++ " AS institution, \n                   degree_" ++ lang ++ " AS degree, \n                   duration \n            FROM education\n        ", []⟩
    s1 log1 getCvFailed fun education s2 log2 =>
  awaitQuery db ⟨"\n            SELECT id, \n                   name_" ++ lang ++ " AS name, \n                   description_" ++ lang ++ " AS description, \n                   technologies, \n                   link \n            FROM projects\n        ", []⟩
    s2 log2 getCvFailed fun projects s3 log3 =>
  awaitQuery db ⟨"\n            SELECT id, \n                   category_" ++ lang ++ " AS category, \n                   skills \n            FROM skills\n        ", []⟩
    s3 log3 getCvFailed fun skills s4 log4 =>
  awaitQuery db ⟨"\n            SELECT id, \n                   language_" ++ lang ++ " AS language, \n                   level_" ++ lang ++ " AS level \n            FROM languages\n        ", []⟩
    s4 log4 getCvFailed fun languages s5 log5 =>
  awaitQuery db ⟨"SELECT * FROM dictionary", []⟩ s5 log5 getCvFailed fun dictionaryRows s6 log6 =>
  awaitQuery db ⟨"SELECT * FROM income WHERE month_year = $1", [.str currentMonthYear]⟩
    s6 log6 getCvFailed fun incomeQuery s7 log7 =>
  awaitQuery db ⟨"SELECT * FROM expenses WHERE month_year = $1", [.str currentMonthYear]⟩
    s7 log7 getCvFailed fun expensesQuery s8 log8 =>
  ⟨⟨200, [("experience", .rows experience.rows),
          ("education", .rows education.rows),
          ("projects", .rows projects.rows),
          ("skills", .rows skills.rows),
          ("languages", .rows languages.rows),
          ("dictionary", .obj (buildDictionary dictionaryRows.rows lang)),
          ("finance", .finance (incomeOrDefault incomeQuery.rows) expensesQuery.rows)]⟩,
    log8, s8⟩

/-! ## The finance handlers: migration of expenses, income, expense creation -/

/-- The length of a string in UTF-16 code units, which is what `str.length` counts. -/
def utf16Length (s : String) : Nat :=
  s.data.foldl (fun n c => n + (if c.toNat < 65536 then 1 else 2)) 0

/-- The expression `str.padStart(2, "0")`. -/
def padStart2 (s : String) : String :=
  String.mk (List.replicate (2 - utf16Length s) '0') ++ s

/-- The expression `x - 1` (also `x -= 1`) for a number `x`, such as `parseInt` returns: `NaN`
stays `NaN`. -/
def Val.minusOne : Val → Val
  | .num n => .num (n - 1)
  | _ => .nan

/-- The object literal `monthMapping` of the migrate-expenses handler, in source order. The
Spanish block has nine entries: it has no `marzo`, `agosto` (both also Italian, listed
there) and no `diciembre`. -/
def monthMapping : Obj :=
  [("enero", .str "01"), ("febrero", .str "02"), ("abril", .str "04"),
   ("mayo", .str "05"), ("junio", .str "06"), ("julio", .str "07"),
   ("septiembre", .str "09"), ("octubre", .str "10"), ("noviembre", .str "11"),
   ("gennaio", .str "01"), ("febbraio", .str "02"), ("marzo", .str "03"),
   ("aprile", .str "04"), ("maggio", .str "05"), ("giugno", .str "06"),
   ("luglio", .str "07"), ("agosto", .str "08"), ("settembre", .str "09"),
   ("ottobre", .str "10"), ("novembre", .str "11"), ("dicembre", .str "12"),
   ("january", .str "01"), ("february", .str "02"), ("march", .str "03"),
   ("april", .str "04"), ("may", .str "05"), ("june", .str "06"),
   ("july", .str "07"), ("august", .str "08"), ("september", .str "09"),
   ("october", .str "10"), ("november", .str "11"), ("december", .str "12")]

/-- The key of the previous month computed by the migrate-expenses handler from the `:year`
parameter and `currentMonthNum`: `parseInt` of both, the month decremented, and December of
the previous year when the decrement gives 0. -/
def previousMonthYearKey (js : Builtins) (year : String) (currentMonthNum : Val) : String :=
  let prevYear := js.parseInt year
  let prevMonthNum := (js.parseInt currentMonthNum.toJsString).minusOne
  let prevYear := if prevMonthNum = .num 0 then prevYear.minusOne else prevYear
  let prevMonthNum := if prevMonthNum = .num 0 then Val.num 12 else prevMonthNum
  let prevMonthStr := padStart2 prevMonthNum.toJsString
  prevYear.toJsString ++ "-" ++ prevMonthStr

/-- The key of the requested month in the migrate-expenses handler: the `:year` parameter as
given, a dash, and `currentMonthNum`. -/
def currentMonthYearKey (year : String) (currentMonthNum : Val) : String :=
  year ++ "-" ++ currentMonthNum.toJsString

/-- The loop `for (const expense of pendingExpenses.rows)` of the migrate-expenses handler:
the same UPDATE is sent once per pending row; `k` is the rest of the `try` block. -/
def migrateLoop {σ : Type} (db : Store σ) (update : Stmt) :
    List Obj → σ → List Stmt → (σ → List Stmt → Outcome σ) → Outcome σ
  | [], s, log, k => k s log
  | _ :: rest, s, log, k =>
    awaitQuery db update s log
      (errorReply 500 "❌ Error al trasladar los gastos en la base de datos.")
      fun _ s1 log1 => migrateLoop db update rest s1 log1 k

/-- The handler `app.post("/finance/:month/:year/migrate-expenses")`. -/
def postMigrateExpenses {σ : Type} (js : Builtins) (db : Store σ) (month year : String)
    (s : σ) : Outcome σ :=
  let currentMonthNum := literalGet monthMapping (js.toLowerCase month)
  if !currentMonthNum.truthy then
    ⟨errorReply 400 "❌ Mes inválido en la solicitud.", [], s⟩
  else
    let prevMonthYearKey := previousMonthYearKey js year currentMonthNum
    let currentMonthYearKey := currentMonthYearKey year currentMonthNum
    awaitQuery db
      ⟨"SELECT * FROM expenses WHERE month_year = $1 AND LOWER(status) = 'pending'",
       [.str prevMonthYearKey]⟩ s []
      (errorReply 500 "❌ Error al trasladar los gastos en la base de datos.")
      fun pendingExpenses s1 log1 =>
    if pendingExpenses.rows.length == 0 then
      ⟨⟨200, [("message", .text "✅ No hay gastos pendientes para trasladar.")]⟩, log1, s1⟩
    else
      migrateLoop db
        ⟨"UPDATE expenses\n                 SET month_year = $1\n                 WHERE month_year = $2 AND LOWER(status) = 'pending'",
         [.str currentMonthYearKey, .str prevMonthYearKey]⟩
        pendingExpenses.rows s1 log1 fun s2 log2 =>
      ⟨⟨200, [("message", .text ("✅ Gastos pendientes trasladados de " ++ prevMonthYearKey ++
                  " a " ++ currentMonthYearKey ++ "."))]⟩, log2, s2⟩

/-- What the handlers read from `new Date()`: `getFullYear()`, `getMonth()` (0 to 11) and
`toISOString().split("T")[0]`. -/
structure Clock where
  fullYear : Int
  month : Nat
  isoDate : String

/-- The `monthYearKey` of the migrate-recurring handler:
`year + "-" + String(now.getMonth() + 1).padStart(2, "0")`. -/
def Clock.monthYearKey (now : Clock) : String :=
  toString now.fullYear ++ "-" ++ padStart2 (toString (now.month + 1))

/-- The loop `for (const item of recurring)` of the migrate-recurring handler, with the
counter `inserted`; `k` is the rest of the `try` block. -/
def recurringLoop {σ : Type} (db : Store σ) (monthYearKey today : String) :
    List Obj → Nat → σ → List Stmt → (Nat → σ → List Stmt → Outcome σ) → Outcome σ
  | [], inserted, s, log, k => k inserted s log
  | item :: rest, inserted, s, log, k =>
    if !(item.get "title").truthy || !(item.get "amount").truthy ||
        !(item.get "category").truthy || !(item.get "currency").truthy then
      recurringLoop db monthYearKey today rest inserted s log k
    else
      awaitQuery db ⟨"SELECT * FROM expenses WHERE name = $1 AND month_year = $2",
          [item.get "title", .str monthYearKey]⟩ s log
        (errorReply 500 "❌ Error interno al migrar gastos recurrentes.")
        fun existing s1 log1 =>
      if existing.rows.length == 0 then
        awaitQuery db
          ⟨"INSERT INTO expenses \n             (name, amount, category, currency, date_added, status, month_year) \n             VALUES ($1, $2, $3, $4, $5, $6, $7)",
           [item.get "title", item.get "amount", item.get "category", item.get "currency",
            .str today, .str "pending", .str monthYearKey]⟩ s1 log1
          (errorReply 500 "❌ Error interno al migrar gastos recurrentes.")
          fun _ s2 log2 => recurringLoop db monthYearKey today rest (inserted + 1) s2 log2 k
      else
        recurringLoop db monthYearKey today rest inserted s1 log1 k

/-- The handler `app.post("/finance/migrate-recurring-expenses")`. `recurring` is what the
provider returns for the recurring templates with `active = true` (`none`: it returns an
error, which the handler throws). -/
def postMigrateRecurring {σ : Type} (db : Store σ) (now : Clock)
    (recurring : Option (List Obj)) (s : σ) : Outcome σ :=
  let monthYearKey := now.monthYearKey
  let today := now.isoDate
  match recurring with
  | none => ⟨errorReply 500 "❌ Error interno al migrar gastos recurrentes.", [], s⟩
  | some items =>
    recurringLoop db monthYearKey today items 0 s [] fun inserted s1 log1 =>
    ⟨⟨200, [("message", .text "🧾 Migración completa"),
            ("inserted", .val (.num inserted))]⟩, log1, s1⟩

/-- The handler `app.put("/finance/:month/:year/income")`. -/
def putIncome {σ : Type} (db : Store σ) (month year : String) (body : Obj) (s : σ) :
    Outcome σ :=
  let amount := body.get "amount"
  let currency := body.get "currency"
  let monthYearKey := year ++ "-" ++ padStart2 month
  awaitQuery db ⟨"SELECT * FROM income WHERE month_year = $1", [.str monthYearKey]⟩ s []
    (errorReply 500 "❌ Error al actualizar la entrada mensual en la base de datos.")
    fun checkIncome s1 log1 =>
  awaitQuery db
    (if checkIncome.rows.length > 0 then
      ⟨"UPDATE income SET amount = $1, currency = $2 WHERE month_year = $3 RETURNING *",
       [amount, currency, .str monthYearKey]⟩
    else
      ⟨"INSERT INTO income (month_year, amount, currency) VALUES ($1, $2, $3) RETURNING *",
       [.str monthYearKey, amount, currency]⟩) s1 log1
    (errorReply 500 "❌ Error al actualizar la entrada mensual en la base de datos.")
    fun _ s2 log2 =>
  awaitQuery db ⟨"SELECT * FROM income WHERE month_year = $1", [.str monthYearKey]⟩ s2 log2
    (errorReply 500 "❌ Error al actualizar la entrada mensual en la base de datos.")
    fun updatedIncome s3 log3 =>
  ⟨⟨200, [("message", .text ("✅ Entrada mensual actualizada para " ++ monthYearKey)),
          ("income", firstRow updatedIncome.rows)]⟩, log3, s3⟩

/-- The handler `app.post("/finance/:month/:year/expenses")`. The month of the path is
lower-cased and written into the key as it is: no month table is consulted. -/
def postExpense {σ : Type} (js : Builtins) (db : Store σ) (month year : String)
    (body : Obj) (s : σ) : Outcome σ :=
  let name := body.get "name"
  let category := body.get "category"
  let amount := body.get "amount"
  let currency := body.get "currency"
  let status := body.get "status"
  let monthYearKey := year ++ "-" ++ js.toLowerCase month
  if !name.truthy || !category.truthy || !amount.truthy || !currency.truthy then
    ⟨errorReply 400 "❌ Faltan datos obligatorios para agregar el gasto.", [], s⟩
  else
    awaitQuery db
      ⟨"INSERT INTO expenses (month_year, name, category, amount, currency, status, date_added) \n            VALUES ($1, $2, $3, $4, $5, $6, CURRENT_DATE) \n            RETURNING *",
       [.str monthYearKey, name, category, js.parseFloat amount, currency,
        status.or (.str "pending")]⟩ s []
      (errorReply 500 "❌ Error al guardar el gasto en la base de datos.")
      fun newExpense s1 log1 =>
    ⟨⟨200, [("message", .text ("✅ Gasto agregado correctamente a " ++ monthYearKey)),
            ("newExpense", firstRow newExpense.rows)]⟩, log1, s1⟩

/-! ## `updateExchangeRates` and `POST /exchange-rates` -/

/-- What the call of the rate provider gives: the `fetch` (or reading its body) rejects, the
response is not OK, the body has no truthy `rates`, or `Object.entries(data.rates)`. -/
inductive FetchResult where
  | rejected
  | notOk
  | noRates
  | rates (entries : Obj)
  deriving DecidableEq, Repr

/-- The rate provider: an arbitrary behaviour, with a state of its own. -/
structure Provider (π : Type) where
  fetch : π → FetchResult × π

/-- Why the `try` block of `updateExchangeRates` is left by an exception: the store rejects a
statement, `rows[0]` is undefined, the fetch rejects, or one of the two
`throw new Error(...)`. -/
inductive Failure where
  | storeRejected
  | noFirstRow
  | fetchRejected
  | apiNotOk
  | ratesMissing
  deriving DecidableEq, Repr

/-- A run of `updateExchangeRates`: the exception it ends with if any, the statements sent to
the store, the number of outbound fetches, and the states of store and provider. -/
structure RatesRun (σ π : Type) where
  thrown : Option Failure
  issued : List Stmt
  fetches : Nat
  final : σ
  provider : π

/-- The loop `for (const [currency, rate] of Object.entries(data.rates))`: one upsert per
entry, bound to the currency, the rate and today. -/
def upsertLoop {σ : Type} (db : Store σ) (today : String) :
    Obj → σ → List Stmt → Option Failure × List Stmt × σ
  | [], s, log => (none, log, s)
  | (currency, rate) :: rest, s, log =>
    match db.query s
      ⟨"INSERT INTO exchange_rates (currency, rate, last_updated) \n                VALUES ($1, $2, $3) \n                ON CONFLICT (currency) \n                DO UPDATE SET rate = EXCLUDED.rate, last_updated = EXCLUDED.last_updated",
       [.str currency, rate, .str today]⟩ with
    | (none, s1) =>
      (some .storeRejected, log ++
        [⟨"INSERT INTO exchange_rates (currency, rate, last_updated) \n                VALUES ($1, $2, $3) \n                ON CONFLICT (currency) \n                DO UPDATE SET rate = EXCLUDED.rate, last_updated = EXCLUDED.last_updated",
          [.str currency, rate, .str today]⟩], s1)
    | (some _, s1) =>
      upsertLoop db today rest s1 (log ++
        [⟨"INSERT INTO exchange_rates (currency, rate, last_updated) \n                VALUES ($1, $2, $3) \n                ON CONFLICT (currency) \n                DO UPDATE SET rate = EXCLUDED.rate, last_updated = EXCLUDED.last_updated",
          [.str currency, rate, .str today]⟩])

/-- The `try` block of `updateExchangeRates`. `today` is
`new Date().toISOString().split("T")[0]`. -/
def updateExchangeRatesTry {σ π : Type} (db : Store σ) (api : Provider π) (today : String)
    (s : σ) (p : π) : RatesRun σ π :=
  match db.query s
    ⟨"SELECT MAX(last_updated)::TEXT AS last_updated FROM exchange_rates", []⟩ with
  | (none, s1) =>
    ⟨some .storeRejected,
     [⟨"SELECT MAX(last_updated)::TEXT AS last_updated FROM exchange_rates", []⟩], 0, s1, p⟩
  | (some checkUpdate, s1) =>
    match checkUpdate.rows with
    | [] =>
      ⟨some .noFirstRow,
       [⟨"SELECT MAX(last_updated)::TEXT AS last_updated FROM exchange_rates", []⟩], 0, s1, p⟩
    | row :: _ =>
      let lastUpdated := row.get "last_updated"
      if lastUpdated = .str today then
        ⟨none, [⟨"SELECT MAX(last_updated)::TEXT AS last_updated FROM exchange_rates", []⟩],
         0, s1, p⟩
      else
        match api.fetch p with
        | (.rejected, p1) =>
          ⟨some .fetchRejected,
           [⟨"SELECT MAX(last_updated)::TEXT AS last_updated FROM exchange_rates", []⟩],
           1, s1, p1⟩
        | (.notOk, p1) =>
          ⟨some .apiNotOk,
           [⟨"SELECT MAX(last_updated)::TEXT AS last_updated FROM exchange_rates", []⟩],
           1, s1, p1⟩
        | (.noRates, p1) =>
          ⟨some .ratesMissing,
           [⟨"SELECT MAX(last_updated)::TEXT AS last_updated FROM exchange_rates", []⟩],
           1, s1, p1⟩
        | (.rates entries, p1) =>
          match upsertLoop db today entries s1
            [⟨"SELECT MAX(last_updated)::TEXT AS last_updated FROM exchange_rates", []⟩] with
          | (thrown, log, s2) => ⟨thrown, log, 1, s2, p1⟩

/-- The function `updateExchangeRates`: its `catch` block logs the exception and returns, so
the promise it returns never rejects. -/
def updateExchangeRates {σ π : Type} (db : Store σ) (api : Provider π) (today : String)
    (s : σ) (p : π) : RatesRun σ π :=
  match updateExchangeRatesTry db api today s p with
  | ⟨_, issued, fetches, final, provider⟩ => ⟨none, issued, fetches, final, provider⟩

/-- The handler `app.post("/exchange-rates")`: the reply, and the run it awaited. -/
def postExchangeRates {σ π : Type} (db : Store σ) (api : Provider π) (today : String)
    (s : σ) (p : π) : Reply × RatesRun σ π :=
  match (updateExchangeRates db api today s p).thrown with
  | none =>
    (⟨200, [("message", .text "✅ Tasas de cambio actualizadas correctamente.")]⟩,
     updateExchangeRates db api today s p)
  | some _ =>
    (errorReply 500 "❌ Error al actualizar las tasas de cambio.",
     updateExchangeRates db api today s p)

/-! ## The delete handlers of the CV entities -/

/-- The handler `app.delete("/cv/experience/:id")`; the id is bound as it comes in the path. -/
def deleteExperience {σ : Type} (db : Store σ) (idParam : String) (s : σ) : Outcome σ :=
  let id := Val.str idParam
  awaitQuery db ⟨"SELECT * FROM experience WHERE id = $1", [id]⟩ s []
    (errorReply 500 "❌ Error al eliminar la experiencia en la base de datos.")
    fun checkExperience s1 log1 =>
  if checkExperience.rows.length == 0 then
    ⟨errorReply 404 ("❌ No se encontró la experiencia con ID " ++ id.toJsString ++ "."),
     log1, s1⟩
  else
    awaitQuery db ⟨"DELETE FROM experience WHERE id = $1", [id]⟩ s1 log1
      (errorReply 500 "❌ Error al eliminar la experiencia en la base de datos.")
      fun _ s2 log2 =>
    ⟨⟨200, [("message", .text ("✅ Experiencia con ID " ++ id.toJsString ++
        " eliminada correctamente."))]⟩, log2, s2⟩

/-- The handler `app.delete("/cv/education/:id")`. -/
def deleteEducation {σ : Type} (db : Store σ) (idParam : String) (s : σ) : Outcome σ :=
  let id := Val.str idParam
  awaitQuery db ⟨"SELECT * FROM education WHERE id = $1", [id]⟩ s []
    (errorReply 500 "❌ Error al eliminar la educación en la base de datos.")
    fun checkData s1 log1 =>
  if checkData.rows.length == 0 then
    ⟨errorReply 404 ("❌ No se encontró la educación con ID " ++ id.toJsString ++ "."),
     log1, s1⟩
  else
    awaitQuery db ⟨"DELETE FROM education WHERE id = $1", [id]⟩ s1 log1
      (errorReply 500 "❌ Error al eliminar la educación en la base de datos.")
      fun _ s2 log2 =>
    ⟨⟨200, [("message", .text ("✅ Educación con ID " ++ id.toJsString ++
        " eliminada correctamente."))]⟩, log2, s2⟩

/-- The handler `app.delete("/cv/projects/:id")`: one DELETE with `RETURNING *`, and 404 when
it affected no row. -/
def deleteProjects {σ : Type} (db : Store σ) (idParam : String) (s : σ) : Outcome σ :=
  let id := Val.str idParam
  awaitQuery db ⟨"DELETE FROM projects WHERE id = $1 RETURNING *", [id]⟩ s []
    (errorReply 500 "❌ Error al eliminar el proyecto en la base de datos.")
    fun deletedProject s1 log1 =>
  if deletedProject.rowCount == 0 then
    ⟨errorReply 404 "❌ Proyecto no encontrado.", log1, s1⟩
  else
    ⟨⟨200, [("message", .text "✅ Proyecto eliminado correctamente.")]⟩, log1, s1⟩

/-- The handler `app.delete("/cv/skills/:id")`: one DELETE, whose result is not looked at. -/
def deleteSkills {σ : Type} (js : Builtins) (db : Store σ) (idParam : String) (s : σ) :
    Outcome σ :=
  let skillId := js.parseInt idParam
  awaitQuery db ⟨"DELETE FROM skills WHERE id = $1", [skillId]⟩ s []
    (errorReply 500 "❌ No se pudo eliminar la habilidad.")
    fun _ s1 log1 =>
  ⟨⟨200, [("message", .text ("✅ Habilidad con ID " ++ skillId.toJsString ++
      " eliminada."))]⟩, log1, s1⟩

/-! ## `POST /cv/experience` -/

/-- The array `requiredFields` of the experience creation. -/
def requiredFields : List String :=
  ["company_en", "company_es", "company_it",
   "role_en", "role_es", "role_it",
   "duration_en", "duration_es", "duration_it",
   "description_en", "description_es", "description_it"]

/-- The outcome of the loop over `requiredFields`: no field is refused, a field is refused, or
the test itself throws. -/
inductive FieldCheck where
  | passed
  | refused (field : String)
  | typeError (field : String)
  deriving DecidableEq, Repr

/-- The loop `for (const field of requiredFields)` with the test
`!newExperience[field] || newExperience[field].trim() === ""`: a falsy value or a string that
trims to nothing refuses the field; a truthy value that is not a string has no `trim` method,
and calling it throws a TypeError. -/
def checkRequired (js : Builtins) (newExperience : Obj) : List String → FieldCheck
  | [] => .passed
  | field :: rest =>
    if !(newExperience.get field).truthy then .refused field
    else
      match newExperience.get field with
      | .str t => if js.trim t = "" then .refused field
                  else checkRequired js newExperience rest
      | _ => .typeError field

/-- The handler `app.post("/cv/experience")`. The loop over the required fields runs before
the `try` block: when it throws, the handler ends without a reply (`none`). -/
def postExperience {σ : Type} (js : Builtins) (db : Store σ) (body : Obj) (s : σ) :
    Option (Outcome σ) :=
  let newExperience := body
  match checkRequired js newExperience requiredFields with
  | .refused field =>
    some ⟨errorReply 400 ("❌ El campo '" ++ field ++ "' es obligatorio."), [], s⟩
  | .typeError _ => none
  | .passed =>
    some (awaitQuery db
      ⟨"\n            INSERT INTO experience (\n                company_en, company_es, company_it,\n                role_en, role_es, role_it,\n                duration_en, duration_es, duration_it,\n                description_en, description_es, description_it\n            ) VALUES ($1, $2, $3, $4, $5, $6, $7, $8, $9, $10, $11, $12)\n            RETURNING *;\n        ",
       [newExperience.get "company_en", newExperience.get "company_es",
        newExperience.get "company_it",
        newExperience.get "role_en", newExperience.get "role_es", newExperience.get "role_it",
        newExperience.get "duration_en", newExperience.get "duration_es",
        newExperience.get "duration_it",
        newExperience.get "description_en", newExperience.get "description_es",
        newExperience.get "description_it"]⟩ s []
      (errorReply 500 "❌ Error al insertar la experiencia en la base de datos.")
      fun newExp s1 log1 =>
      ⟨⟨200, [("message", .text "✅ Nueva experiencia agregada correctamente."),
              ("experience", firstRow newExp.rows)]⟩, log1, s1⟩)

/-! ## The other finance handlers: listing, income deletion, expense deletion -/

/-- The handler `app.get("/finance/:month/:year")` registered first (line 855), which is the
one that answers: the second registration of the same path (line 941) is never reached. The key
is the year, a dash and the month padded to two characters. -/
def getFinance {σ : Type} (db : Store σ) (month year : String) (s : σ) : Outcome σ :=
  let monthYearKey := year ++ "-" ++ padStart2 month
  awaitQuery db ⟨"SELECT * FROM income WHERE month_year = $1", [.str monthYearKey]⟩ s []
    (errorReply 500 "Error al obtener datos financieros.") fun incomeQuery s1 log1 =>
  awaitQuery db ⟨"SELECT * FROM expenses WHERE month_year = $1", [.str monthYearKey]⟩ s1 log1
    (errorReply 500 "Error al obtener datos financieros.") fun expensesQuery s2 log2 =>
  ⟨⟨200, [("income", incomeOrDefault incomeQuery.rows),
          ("expenses", .rows expensesQuery.rows)]⟩, log2, s2⟩

/-- The handler `app.delete("/finance/:month/:year/income")`. The key is the year, a dash and
the lower-cased month; the 404 reply carries its text under `message`. -/
def deleteIncome {σ : Type} (js : Builtins) (db : Store σ) (month year : String) (s : σ) :
    Outcome σ :=
  let monthYearKey := year ++ "-" ++ js.toLowerCase month
  awaitQuery db ⟨"SELECT * FROM income WHERE month_year = $1", [.str monthYearKey]⟩ s []
    (errorReply 500 "❌ Error al eliminar la entrada mensual en la base de datos.")
    fun checkIncome s1 log1 =>
  if checkIncome.rows.length == 0 then
    ⟨⟨404, [("message", .text "❌ No hay datos de ingreso para este mes y año.")]⟩, log1, s1⟩
  else
    awaitQuery db ⟨"DELETE FROM income WHERE month_year = $1", [.str monthYearKey]⟩ s1 log1
      (errorReply 500 "❌ Error al eliminar la entrada mensual en la base de datos.")
      fun _ s2 log2 =>
    ⟨⟨200, [("message", .text "✅ Entrada mensual eliminada correctamente.")]⟩, log2, s2⟩

/-- The handler `app.delete("/finance/:month/:year/expenses/:id")`. -/
def deleteExpense {σ : Type} (js : Builtins) (db : Store σ) (month year idParam : String)
    (s : σ) : Outcome σ :=
  let expenseId := js.parseInt idParam
  let monthYearKey := year ++ "-" ++ js.toLowerCase month
  awaitQuery db ⟨"SELECT * FROM expenses WHERE id = $1 AND month_year = $2",
      [expenseId, .str monthYearKey]⟩ s []
    (errorReply 500 "❌ Error al eliminar el gasto en la base de datos.")
    fun checkExpense s1 log1 =>
  if checkExpense.rows.length == 0 then
    ⟨expenseNotFound expenseId.toJsString month year, log1, s1⟩
  else
    awaitQuery db ⟨"DELETE FROM expenses WHERE id = $1 AND month_year = $2",
        [expenseId, .str monthYearKey]⟩ s1 log1
      (errorReply 500 "❌ Error al eliminar el gasto en la base de datos.")
      fun _ s2 log2 =>
    ⟨⟨200, [("message", .text ("✅ Gasto con ID " ++ expenseId.toJsString ++
        " eliminado correctamente."))]⟩, log2, s2⟩

/-! ## The update contract in the words of the specification

The definitions of this section are not translated from the code: they state what the
specification says about the partial-update builder, and the theorems compare the handlers
with them. -/

/-- The entities whose update handler builds its statement from the keys of the body. -/
inductive Entity where
  | experience
  | education
  | skills
  | languages
  deriving DecidableEq, Repr

/-- The table of an entity. -/
def Entity.table : Entity → String
  | .experience => "experience"
  | .education => "education"
  | .skills => "skills"
  | .languages => "languages"

/-- The localized logical fields of an entity (stored once per language). -/
def Entity.localizedFields : Entity → List String
  | .experience => ["company", "role", "duration", "description"]
  | .education => ["institution", "degree"]
  | .skills => ["category"]
  | .languages => ["language", "level"]

/-- The language-invariant fields of an entity (stored once). -/
def Entity.invariantFields : Entity → List String
  | .experience => []
  | .education => ["duration"]
  | .skills => ["skills"]
  | .languages => []

/-- A key of the patch is recognised when it is a localized or an invariant field. -/
def Entity.recognised (e : Entity) (key : String) : Bool :=
  e.invariantFields.contains key || e.localizedFields.contains key

/-- The target column of a recognised key: the key itself for an invariant field, and
`key_lang` for a localized one. -/
def Entity.column (e : Entity) (lang key : String) : String :=
  if e.invariantFields.contains key then key else key ++ "_" ++ lang

/-- The update handler of an entity. -/
def Entity.handler {σ : Type} (e : Entity) (js : Builtins) (db : Store σ)
    (idParam langParam : String) (body : Obj) (s : σ) : Outcome σ :=
  match e with
  | .experience => putExperience js db idParam langParam body s
  | .education => putEducation js db idParam langParam body s
  | .skills => putSkills js db idParam langParam body s
  | .languages => putLanguages js db idParam langParam body s

/-- The fetch-before-update statement of an entity. -/
def Entity.check (e : Entity) (id : Val) : Stmt :=
  ⟨"SELECT * FROM " ++ e.table ++ " WHERE id = $1", [id]⟩

/-- The text `c1 = $n, c2 = $(n+1), ...` assigning the columns to consecutive placeholders. -/
def setClause : List String → Nat → String
  | [], _ => ""
  | [c], n => c ++ " = $" ++ toString n
  | c :: d :: cs, n => c ++ " = $" ++ toString n ++ ", " ++ setClause (d :: cs) (n + 1)

/-- The statement text `UPDATE table SET c1 = $1, ..., ck = $k WHERE id = $(k+1) RETURNING *;`. -/
def renderUpdate (table : String) (columns : List String) : String :=
  "UPDATE " ++ table ++ " SET " ++ setClause columns 1 ++
    " WHERE id = $" ++ toString (columns.length + 1) ++ " RETURNING *;"

/-- The effect of `SET c1 = $1, ..., ck = $k` on a stored row: column `ci` takes the value
bound to `$i`, every other column keeps its value. -/
def applyAssignments (row : Obj) (columns : List String) (params : List Val) : Obj :=
  (columns.zip params).foldl (fun r cv => r.set cv.1 cv.2) row

/-- The keys of a body that an entity recognises, in body order. -/
def Entity.recognisedKeys (e : Entity) (body : Obj) : List String :=
  (body.map Prod.fst).filter e.recognised

/-- The assignments the contract prescribes for a body: one per recognised key, in body
order, to the target column of the key. -/
def Entity.assignments (e : Entity) (lang : String) (body : Obj) : List (String × Val) :=
  (body.filter fun kv => e.recognised kv.1).map fun kv => (e.column lang kv.1, kv.2)

/-- The first key of a body that the entity does not recognise. -/
def Entity.firstUnrecognised (e : Entity) (body : Obj) : Option String :=
  (body.find? fun kv => !e.recognised kv.1).map Prod.fst

/-- The fields of the fixed-field expense update that a body supplies with a truthy value. -/
def expenseSuppliedFields (body : Obj) : List String :=
  ["name", "category", "amount", "currency", "status"].filter fun k => (body.get k).truthy

/-- The text a dictionary entry shows in a language: the value of the language column, or the
`en` value when that column is empty or absent. -/
def dictionaryText (row : Obj) (lang : String) : Val :=
  match row.get lang with
  | .undefined => row.get "en"
  | .null => row.get "en"
  | .str s => if s = "" then row.get "en" else .str s
  | v => v

/-- A store column that holds text, or nothing. -/
def Val.isTextOrAbsent : Val → Bool
  | .undefined => true
  | .null => true
  | .str _ => true
  | _ => false

/-- The text the loop of a builder appends for the columns, from placeholder `n` on. -/
def pieces : List String → Nat → String
  | [], _ => ""
  | c :: cs, n => (c ++ " = $" ++ toString n ++ ", ") ++ pieces cs (n + 1)

/-- The loop of a builder run on a list of (column, value) assignments. -/
def assignAll (b : Build) : List (String × Val) → Build
  | [] => b
  | a :: rest => assignAll (b.assign a.1 a.2) rest

/-- The statement a builder produces for a body: the loop over the prescribed assignments,
then the closing step of the code (`Build.finish`). -/
def Entity.built (e : Entity) (lang : String) (body : Obj) (id : Val) : Stmt :=
  (assignAll ⟨"UPDATE " ++ e.table ++ " SET ", [], 1⟩ (e.assignments lang body)).finish id

/-! ## Reference built-ins and a reference store, for concrete runs -/

/-- Lower-casing of the ASCII letters; agrees with `toLowerCase` on ASCII strings. -/
def lowerAscii (s : String) : String := String.mk (s.data.map Char.toLower)

/-- The value of a list of decimal digits. -/
def digitsValue (cs : List Char) : Nat :=
  cs.foldl (fun n c => 10 * n + (c.toNat - 48)) 0

/-- Base-10 `parseInt` on a string that starts with decimal digits (the numeral is read, what
follows is ignored), `NaN` otherwise; signs, leading blanks and the rounding of numerals
beyond 2^53 are not modelled. -/
def parseDigits (s : String) : Val :=
  match s.data.takeWhile Char.isDigit with
  | [] => .nan
  | d :: ds => .num (digitsValue (d :: ds))

/-- Removal of the ASCII blanks at both ends; agrees with `trim` on ASCII strings. -/
def trimAscii (s : String) : String :=
  String.mk ((s.data.dropWhile Char.isWhitespace).reverse.dropWhile Char.isWhitespace).reverse

/-- Built-ins used for concrete runs. -/
def refBuiltins : Builtins where
  toLowerCase := lowerAscii
  parseInt := parseDigits
  parseFloat := fun v =>
    match v with
    | .num n => .num n
    | .str t => parseDigits t
    | _ => .nan
  trim := trimAscii

/-- A store holding the row addressed by every statement: each statement succeeds and returns
one row. -/
def presentStore : Store Unit where
  query := fun s _ => (some ⟨[[("id", .num 3)]], 1⟩, s)

/-- A store that, like PostgreSQL, rejects a statement whose text does not parse (here: the
texts cut by `slice(0, -2)` after an empty loop and the column of an unknown language) and
answers every other statement with one row. -/
def parsingStore (malformed : List String) : Store Unit where
  query := fun s stmt =>
    if malformed.contains stmt.text then (none, s) else (some ⟨[[("id", .num 3)]], 1⟩, s)

/-! ## A relational model of the store, for the finance tables

The store is PostgreSQL. For the claims that speak of the tables themselves, the statements
the finance handlers send are given their SQL meaning on two tables held as lists of rows.
Values are stored as they are bound and compared as they are stored; the tables have no
constraints, and the `id` the store assigns to a new row is not modelled. -/

/-- The two functions of the store that the statements use: `LOWER` and `CURRENT_DATE`. -/
structure SqlEngine where
  lower : String → String
  currentDate : String

/-- The tables `expenses` and `income`. -/
structure Tables where
  expenses : List Obj
  income : List Obj
  deriving DecidableEq, Repr

/-- The SQL comparison `column = $n`: never true on a null. -/
def sqlEq (column param : Val) : Bool :=
  decide (column = param) && decide (column ≠ .null) && decide (column ≠ .undefined)

/-- The SQL condition `LOWER(status) = 'pending'`. -/
def isPending (e : SqlEngine) (row : Obj) : Bool :=
  match row.get "status" with
  | .str t => decide (e.lower t = "pending")
  | _ => false

/-- The SQL condition `month_year = $n AND LOWER(status) = 'pending'`. -/
def pendingIn (e : SqlEngine) (key : Val) (row : Obj) : Bool :=
  sqlEq (row.get "month_year") key && isPending e row

/-- The result of a statement that returns rows. -/
def rowsResult (rows : List Obj) : QueryResult := ⟨rows, rows.length⟩

/-- The result of a statement that returns no rows and affected `n` of them. -/
def countResult (n : Nat) : QueryResult := ⟨[], n⟩

/-- The store: each statement text of the finance handlers with its meaning on the tables; any
other text, or a wrong number of parameters, is rejected. -/
def sqlStore (e : SqlEngine) : Store Tables where
  query := fun t stmt =>
    if stmt.text = "SELECT * FROM expenses WHERE month_year = $1 AND LOWER(status) = 'pending'"
    then
      match stmt.params with
      | [key] => (some (rowsResult (t.expenses.filter (pendingIn e key))), t)
      | _ => (none, t)
    else if stmt.text = "UPDATE expenses\n                 SET month_year = $1\n                 WHERE month_year = $2 AND LOWER(status) = 'pending'"
    then
      match stmt.params with
      | [new, old] =>
        (some (countResult (t.expenses.filter (pendingIn e old)).length),
         { t with expenses := t.expenses.map fun row =>
             if pendingIn e old row then row.set "month_year" new else row })
      | _ => (none, t)
    else if stmt.text = "SELECT * FROM expenses WHERE name = $1 AND month_year = $2" then
      match stmt.params with
      | [name, key] =>
        (some (rowsResult (t.expenses.filter fun row =>
          sqlEq (row.get "name") name && sqlEq (row.get "month_year") key)), t)
      | _ => (none, t)
    else if stmt.text = "INSERT INTO expenses \n             (name, amount, category, currency, date_added, status, month_year) \n             VALUES ($1, $2, $3, $4, $5, $6, $7)"
    then
      match stmt.params with
      | [name, amount, category, currency, dateAdded, status, key] =>
        (some (countResult 1),
         { t with expenses := t.expenses ++
             [[("name", name), ("amount", amount), ("category", category),
               ("currency", currency), ("date_added", dateAdded), ("status", status),
               ("month_year", key)]] })
      | _ => (none, t)
    else if stmt.text = "INSERT INTO expenses (month_year, name, category, amount, currency, status, date_added) \n            VALUES ($1, $2, $3, $4, $5, $6, CURRENT_DATE) \n            RETURNING *"
    then
      match stmt.params with
      | [key, name, category, amount, currency, status] =>
        (some (rowsResult
          [[("month_year", key), ("name", name), ("category", category), ("amount", amount),
            ("currency", currency), ("status", status), ("date_added", .str e.currentDate)]]),
         { t with expenses := t.expenses ++
             [[("month_year", key), ("name", name), ("category", category),
               ("amount", amount), ("currency", currency), ("status", status),
               ("date_added", .str e.currentDate)]] })
      | _ => (none, t)
    else if stmt.text = "SELECT * FROM income WHERE month_year = $1" then
      match stmt.params with
      | [key] =>
        (some (rowsResult (t.income.filter fun row => sqlEq (row.get "month_year") key)), t)
      | _ => (none, t)
    else if stmt.text = "UPDATE income SET amount = $1, currency = $2 WHERE month_year = $3 RETURNING *"
    then
      match stmt.params with
      | [amount, currency, key] =>
        (some (rowsResult ((t.income.filter fun row => sqlEq (row.get "month_year") key).map
          fun row => (row.set "amount" amount).set "currency" currency)),
         { t with income := t.income.map fun row =>
             if sqlEq (row.get "month_year") key then
               (row.set "amount" amount).set "currency" currency
             else row })
      | _ => (none, t)
    else if stmt.text = "INSERT INTO income (month_year, amount, currency) VALUES ($1, $2, $3) RETURNING *"
    then
      match stmt.params with
      | [key, amount, currency] =>
        (some (rowsResult [[("month_year", key), ("amount", amount), ("currency", currency)]]),
         { t with income := t.income ++
             [[("month_year", key), ("amount", amount), ("currency", currency)]] })
      | _ => (none, t)
    else if stmt.text = "DELETE FROM income WHERE month_year = $1" then
      match stmt.params with
      | [key] =>
        (some (countResult (t.income.filter fun row =>
          sqlEq (row.get "month_year") key).length),
         { t with income := t.income.filter fun row => !sqlEq (row.get "month_year") key })
      | _ => (none, t)
    else if stmt.text = "SELECT * FROM expenses WHERE month_year = $1" then
      match stmt.params with
      | [key] =>
        (some (rowsResult (t.expenses.filter fun row => sqlEq (row.get "month_year") key)), t)
      | _ => (none, t)
    else (none, t)

/-- The engine used for concrete runs: ASCII `LOWER` and a fixed date. -/
def refEngine : SqlEngine := ⟨lowerAscii, "2025-03-15"⟩

/-- The decimal numeral of a month number, padded to two digits. -/
def twoDigits (n : Nat) : String := padStart2 (toString n)

/-- The effect of the migration UPDATE on the expenses: the rows of month `old` whose status is
`pending` in any letter case get the month `new`. -/
def movePending (e : SqlEngine) (old new : String) (rows : List Obj) : List Obj :=
  rows.map fun row => if pendingIn e (.str old) row then row.set "month_year" (.str new) else row

/-- The names of the twelve months in Spanish, Italian and English, each with the number of
its month: the table the specification describes for the finance paths. -/
def calendarNames : List (String × Nat) :=
  [("enero", 1), ("febrero", 2), ("marzo", 3), ("abril", 4), ("mayo", 5), ("junio", 6),
   ("julio", 7), ("agosto", 8), ("septiembre", 9), ("octubre", 10), ("noviembre", 11),
   ("diciembre", 12),
   ("gennaio", 1), ("febbraio", 2), ("marzo", 3), ("aprile", 4), ("maggio", 5),
   ("giugno", 6), ("luglio", 7), ("agosto", 8), ("settembre", 9), ("ottobre", 10),
   ("novembre", 11), ("dicembre", 12),
   ("january", 1), ("february", 2), ("march", 3), ("april", 4), ("may", 5), ("june", 6),
   ("july", 7), ("august", 8), ("september", 9), ("october", 10), ("november", 11),
   ("december", 12)]

/-- A recurring template with a title, an amount, a category and a currency (each truthy). -/
def isComplete (item : Obj) : Bool :=
  (item.get "title").truthy && (item.get "amount").truthy &&
    (item.get "category").truthy && (item.get "currency").truthy

/-- Some expense of month `key` has the name `title`: the SQL condition
`name = $1 AND month_year = $2` holds of some row. -/
def isNamed (rows : List Obj) (title : Val) (key : String) : Bool :=
  rows.any fun row => sqlEq (row.get "name") title && sqlEq (row.get "month_year") (.str key)

/-- The expense row that materialises a template in month `key` on the day `today`. -/
def recurringRow (key today : String) (item : Obj) : Obj :=
  [("name", item.get "title"), ("amount", item.get "amount"),
   ("category", item.get "category"), ("currency", item.get "currency"),
   ("date_added", .str today), ("status", .str "pending"), ("month_year", .str key)]

/-- The rows added for a list of templates, given the expenses already there: a complete
template whose title names no expense of the month (those added before it included) adds its
row; any other template adds nothing. -/
def materialised (key today : String) : List Obj → List Obj → List Obj
  | _, [] => []
  | rows, item :: rest =>
    if isComplete item && !isNamed rows (item.get "title") key then
      recurringRow key today item ::
        materialised key today (rows ++ [recurringRow key today item]) rest
    else
      materialised key today rows rest

/-- The income table has at most one row per `month_year`. -/
def onePerMonth (income : List Obj) : Prop :=
  ∀ key : Val, (income.filter fun row => sqlEq (row.get "month_year") key).length ≤ 1

/-- The value the fixed-field expense update binds for a field: `parseFloat(amount)` for the
amount, the value of the body for the others. -/
def expenseBound (js : Builtins) (body : Obj) (field : String) : Val :=
  if field = "amount" then js.parseFloat (body.get "amount") else body.get field

/-- The statement text
`UPDATE expenses SET c1 = $1, ..., ck = $k WHERE id = $(k+1) AND month_year = $(k+2) RETURNING *;`. -/
def renderExpenseUpdate (columns : List String) : String :=
  "UPDATE expenses SET " ++ setClause columns 1 ++
    " WHERE id = $" ++ toString (columns.length + 1) ++
    " AND month_year = $" ++ toString (columns.length + 2) ++ " RETURNING *;"

/-- The body of an expense creation has a truthy name, category, amount and currency. -/
def hasRequiredFields (body : Obj) : Bool :=
  (body.get "name").truthy && (body.get "category").truthy &&
    (body.get "amount").truthy && (body.get "currency").truthy

/-! ## A relational model of the store, for the rate table and for the CV tables -/

/-- The order of two texts, character by character: the order of dates written `YYYY-MM-DD`. -/
def lexLe : List Char → List Char → Bool
  | [], _ => true
  | _ :: _, [] => false
  | a :: as, b :: bs =>
    if a.toNat < b.toNat then true
    else if a = b then lexLe as bs
    else false

/-- The later of a date found so far (`null`: none yet) and the date of a row; a row without a
date does not count. -/
def laterDate (soFar : Val) (row : Obj) : Val :=
  match row.get "last_updated", soFar with
  | .str d, .str m => if lexLe m.data d.data then .str d else .str m
  | .str d, _ => .str d
  | _, _ => soFar

/-- The SQL aggregate `MAX(last_updated)::TEXT` over the rate table: `null` on a table without
dates. -/
def maxLastUpdated (rates : List Obj) : Val := rates.foldl laterDate .null

/-- The effect of the upsert `INSERT ... ON CONFLICT (currency) DO UPDATE SET rate = ...,
last_updated = ...` on the rate table: the rows of the currency get the rate and the date;
when there is none, a row is added. -/
def upsertRate (rates : List Obj) (currency rate date : Val) : List Obj :=
  if rates.any (fun row => sqlEq (row.get "currency") currency) then
    rates.map fun row =>
      if sqlEq (row.get "currency") currency then
        (row.set "rate" rate).set "last_updated" date
      else row
  else
    rates ++ [[("currency", currency), ("rate", rate), ("last_updated", date)]]

/-- The store of the rate table: the two statements of `updateExchangeRates` with their SQL
meaning; any other statement is rejected. -/
def ratesStore : Store (List Obj) where
  query := fun rates stmt =>
    if stmt.text = "SELECT MAX(last_updated)::TEXT AS last_updated FROM exchange_rates" then
      match stmt.params with
      | [] => (some (rowsResult [[("last_updated", maxLastUpdated rates)]]), rates)
      | _ => (none, rates)
    else if stmt.text = "INSERT INTO exchange_rates (currency, rate, last_updated) \n                VALUES ($1, $2, $3) \n                ON CONFLICT (currency) \n                DO UPDATE SET rate = EXCLUDED.rate, last_updated = EXCLUDED.last_updated"
    then
      match stmt.params with
      | [currency, rate, date] =>
        (some (countResult 1), upsertRate rates currency rate date)
      | _ => (none, rates)
    else (none, rates)

/-- The rate table after the upserts of a list of entries, in order, all dated `today`. -/
def upsertAll (today : String) (rates : List Obj) (entries : Obj) : List Obj :=
  entries.foldl (fun t entry => upsertRate t (.str entry.1) entry.2 (.str today)) rates

/-- The rate table has at most one row per currency. -/
def onePerCurrency (rates : List Obj) : Prop :=
  ∀ currency : Val, (rates.filter fun row => sqlEq (row.get "currency") currency).length ≤ 1

/-- No row of the rate table is dated later than `today`. -/
def noLaterThan (today : String) (rates : List Obj) : Prop :=
  ∀ row ∈ rates, ∀ d : String, row.get "last_updated" = .str d → lexLe d.data today.data = true

/-- The store of one CV table: the existence check and the two forms of DELETE by id with their
SQL meaning. `idEq column param` is the comparison `id = $1` of the store, which also decides
how a text parameter is read as an id. -/
def entityStore (table : String) (idEq : Val → Val → Bool) : Store (List Obj) where
  query := fun rows stmt =>
    if stmt.text = "SELECT * FROM " ++ table ++ " WHERE id = $1" then
      match stmt.params with
      | [id] => (some (rowsResult (rows.filter fun row => idEq (row.get "id") id)), rows)
      | _ => (none, rows)
    else if stmt.text = "DELETE FROM " ++ table ++ " WHERE id = $1" then
      match stmt.params with
      | [id] =>
        (some (countResult (rows.filter fun row => idEq (row.get "id") id).length),
         rows.filter fun row => !idEq (row.get "id") id)
      | _ => (none, rows)
    else if stmt.text = "DELETE FROM " ++ table ++ " WHERE id = $1 RETURNING *" then
      match stmt.params with
      | [id] =>
        (some (rowsResult (rows.filter fun row => idEq (row.get "id") id)),
         rows.filter fun row => !idEq (row.get "id") id)
      | _ => (none, rows)
    else (none, rows)

/-- The comparison of ids used for concrete runs: the id column and the parameter have the
same decimal text. -/
def idEqText (column param : Val) : Bool :=
  decide (column.toJsString = param.toJsString) && decide (column ≠ .null)

/-- A provider that answers every call with a response that is not OK. -/
def downProvider : Provider Unit where
  fetch := fun p => (.notOk, p)

/-- A provider that answers every call with the same rate table. -/
def fixedProvider (entries : Obj) : Provider Unit where
  fetch := fun p => (.rates entries, p)

/-- A value is refused by the test of the required fields: it is falsy, or a string that
trims to nothing. -/
def isBlank (js : Builtins) (v : Val) : Bool :=
  !v.truthy || (match v with
    | .str t => decide (js.trim t = "")
    | _ => false)

/-- A value is a string, or is falsy (missing, `null`, `false`, `0`, `""`): what the test of
the required fields can handle. -/
def isTextOrFalsy (v : Val) : Bool :=
  !v.truthy || (match v with
    | .str _ => true
    | _ => false)

/-! ## Lemmas on objects and on the text the builders produce -/

theorem Obj.get_set (o : Obj) (k key : String) (v : Val) :
    (o.set k v).get key = if k = key then v else o.get key := by
  induction o with
  | nil => simp [Obj.set, Obj.get]
  | cons kv rest ih =>
    obtain ⟨k0, w⟩ := kv
    by_cases h0 : k0 = k
    · subst h0
      by_cases h1 : k0 = key <;> simp [Obj.set, Obj.get, h1]
    · by_cases h1 : k0 = key
      · subst h1
        have h2 : ¬ k = k0 := fun h => h0 h.symm
        simp [Obj.set, Obj.get, h0, h2]
      · simp [Obj.set, Obj.get, h0, h1, ih]

theorem applyAssignments_get_of_not_mem (columns : List String) (params : List Val)
    (row : Obj) (column : String) (h : column ∉ columns) :
    (applyAssignments row columns params).get column = row.get column := by
  unfold applyAssignments
  induction columns generalizing row params with
  | nil => simp
  | cons c cs ih =>
    cases params with
    | nil => simp
    | cons p ps =>
      have hc : ¬ c = column := fun e => h (by simp [e])
      have hcs : column ∉ cs := fun e => h (by simp [e])
      simp only [List.zip_cons_cons, List.foldl_cons]
      rw [ih ps (row.set c p) hcs, Obj.get_set, if_neg hc]

theorem assignAll_eq (as : List (String × Val)) (b : Build) :
    assignAll b as =
      ⟨b.updateQuery ++ pieces (as.map Prod.fst) b.counter,
       b.values ++ as.map Prod.snd, b.counter + as.length⟩ := by
  induction as generalizing b with
  | nil => simp [assignAll, pieces]
  | cons a rest ih =>
    simp only [assignAll, ih, Build.assign, List.map_cons, pieces, List.length_cons]
    congr 1
    · simp [String.append_assoc]
    · simp
    · omega

theorem pieces_eq_setClause (c : String) (cs : List String) (n : Nat) :
    pieces (c :: cs) n = setClause (c :: cs) n ++ ", " := by
  induction cs generalizing c n with
  | nil => simp [pieces, setClause]
  | cons d ds ih =>
    rw [pieces, ih d (n + 1), setClause]
    simp [String.append_assoc]

theorem sliceOffTwo_append (t : String) : sliceOffTwo (t ++ ", ") = t := by
  apply String.ext
  simp [sliceOffTwo, String.data_append]

theorem finish_assignAll (table : String) (a : String × Val) (as : List (String × Val))
    (id : Val) :
    (assignAll ⟨"UPDATE " ++ table ++ " SET ", [], 1⟩ (a :: as)).finish id =
      ⟨renderUpdate table ((a :: as).map Prod.fst), (a :: as).map Prod.snd ++ [id]⟩ := by
  rw [assignAll_eq]
  simp only [Build.finish, List.map_cons, pieces_eq_setClause, renderUpdate, List.nil_append,
    List.length_cons, List.length_map]
  rw [← String.append_assoc ("UPDATE " ++ table ++ " SET "), sliceOffTwo_append]
  congr 1
  rw [Nat.add_comm 1]
  simp [String.append_assoc]

theorem experienceLoop_eq (lang : String) (body : Obj) (b : Build) :
    experienceLoop lang body b = assignAll b (Entity.experience.assignments lang body) := by
  induction body generalizing b with
  | nil => rfl
  | cons kv rest ih =>
    obtain ⟨key, v⟩ := kv
    by_cases h : ["company", "role", "duration", "description"].contains key = true
    · have hr : Entity.experience.recognised key = true := by
        simpa [Entity.recognised, Entity.invariantFields, Entity.localizedFields] using h
      simp only [experienceLoop, h, if_true, ih, Entity.assignments, List.filter_cons, hr,
        List.map_cons, assignAll]
      simp [Entity.column, Entity.invariantFields]
    · have hr : Entity.experience.recognised key = false := by
        simpa [Entity.recognised, Entity.invariantFields, Entity.localizedFields] using h
      simp only [experienceLoop, h, ih, Entity.assignments, List.filter_cons, hr]
      simp

theorem educationLoop_eq (lang : String) (body : Obj) (b : Build) :
    educationLoop lang body b =
      match Entity.education.firstUnrecognised body with
      | some key => .error key
      | none => .ok (assignAll b (Entity.education.assignments lang body)) := by
  induction body generalizing b with
  | nil => rfl
  | cons kv rest ih =>
    obtain ⟨key, v⟩ := kv
    by_cases h1 : key = "duration"
    · subst h1
      simp only [educationLoop, if_true, ih]
      simp [Entity.firstUnrecognised, Entity.assignments, Entity.recognised, Entity.column,
        Entity.invariantFields, Entity.localizedFields, assignAll]
    · by_cases h2 : ["institution", "degree"].contains key = true
      · simp only [educationLoop, h1, h2, if_true, if_false, ih]
        have h3 : key = "institution" ∨ key = "degree" := by simpa using h2
        rcases h3 with h3 | h3 <;> subst h3 <;>
          simp [Entity.firstUnrecognised, Entity.assignments, Entity.recognised, Entity.column,
            Entity.invariantFields, Entity.localizedFields, assignAll]
      · simp only [educationLoop, h1, h2, if_false]
        have h3 : ¬ key = "institution" ∧ ¬ key = "degree" := by simpa using h2
        simp [Entity.firstUnrecognised, Entity.recognised, Entity.invariantFields,
          Entity.localizedFields, h1, h3.1, h3.2]

theorem skillsLoop_eq (lang : String) (body : Obj) (b : Build) :
    skillsLoop lang body b =
      match Entity.skills.firstUnrecognised body with
      | some key => .error key
      | none => .ok (assignAll b (Entity.skills.assignments lang body)) := by
  induction body generalizing b with
  | nil => rfl
  | cons kv rest ih =>
    obtain ⟨key, v⟩ := kv
    by_cases h1 : key = "skills"
    · subst h1
      simp only [skillsLoop, if_true, ih]
      simp [Entity.firstUnrecognised, Entity.assignments, Entity.recognised, Entity.column,
        Entity.invariantFields, Entity.localizedFields, assignAll]
    · by_cases h2 : key = "category"
      · subst h2
        simp only [skillsLoop, h1, if_true, if_false, ih]
        simp [Entity.firstUnrecognised, Entity.assignments, Entity.recognised, Entity.column,
          Entity.invariantFields, Entity.localizedFields, assignAll]
      · simp only [skillsLoop, h1, h2, if_false]
        simp [Entity.firstUnrecognised, Entity.recognised, Entity.invariantFields,
          Entity.localizedFields, h1, h2]

theorem languagesLoop_eq (lang : String) (body : Obj) (b : Build) :
    languagesLoop lang body b =
      match Entity.languages.firstUnrecognised body with
      | some key => .error key
      | none => .ok (assignAll b (Entity.languages.assignments lang body)) := by
  induction body generalizing b with
  | nil => rfl
  | cons kv rest ih =>
    obtain ⟨key, v⟩ := kv
    by_cases h2 : ["language", "level"].contains key = true
    · simp only [languagesLoop, h2, if_true, ih]
      have h3 : key = "language" ∨ key = "level" := by simpa using h2
      rcases h3 with h3 | h3 <;> subst h3 <;>
        simp [Entity.firstUnrecognised, Entity.assignments, Entity.recognised, Entity.column,
          Entity.invariantFields, Entity.localizedFields, assignAll]
    · simp only [languagesLoop, h2]
      have h3 : ¬ key = "language" ∧ ¬ key = "level" := by simpa using h2
      simp [Entity.firstUnrecognised, Entity.recognised, Entity.invariantFields,
        Entity.localizedFields, h3.1, h3.2]

theorem assignAll_values_length (as : List (String × Val)) (b : Build) :
    (assignAll b as).values.length = b.values.length + as.length := by
  rw [assignAll_eq]; simp

theorem assignments_of_all_recognised (e : Entity) (lang : String) (body : Obj)
    (h : e.firstUnrecognised body = none) :
    e.assignments lang body = body.map fun kv => (e.column lang kv.1, kv.2) := by
  have h1 : ∀ kv ∈ body, e.recognised kv.1 = true := by
    simpa [Entity.firstUnrecognised] using h
  unfold Entity.assignments
  rw [List.filter_eq_self.mpr h1]

theorem awaitQuery_issued_tail {σ : Type} (db : Store σ) (stmt : Stmt) (s : σ)
    (onReject : Reply) (k : QueryResult → σ → List Stmt → Outcome σ) (x : Stmt)
    (hx : x ∈ (awaitQuery db stmt s [] onReject k).issued.tail) :
    ∃ r s1, db.query s stmt = (some r, s1) ∧ x ∈ (k r s1 [stmt]).issued.tail := by
  unfold awaitQuery at hx
  rcases hq : db.query s stmt with ⟨res, s1⟩
  rw [hq] at hx
  cases res with
  | none => simp at hx
  | some r => exact ⟨r, s1, rfl, by simpa using hx⟩

theorem awaitQuery_issued_after {σ : Type} (db : Store σ) (stmt c : Stmt) (s : σ)
    (onReject : Reply) (ok : QueryResult → Reply) (x : Stmt)
    (hx : x ∈ (awaitQuery db stmt s [c] onReject
      fun r s2 log2 => ⟨ok r, log2, s2⟩).issued.tail) : x = stmt := by
  unfold awaitQuery at hx
  rcases hq : db.query s stmt with ⟨res, s1⟩
  rw [hq] at hx
  cases res <;> simpa using hx

theorem mem_issued_tail {σ : Type} (e : Entity) (js : Builtins) (db : Store σ)
    (idParam langParam : String) (body : Obj) (s : σ) (stmt : Stmt)
    (hs : stmt ∈ (e.handler js db idParam langParam body s).issued.tail) :
    validLang (js.toLowerCase langParam) = true ∧
    stmt = (assignAll ⟨"UPDATE " ++ e.table ++ " SET ", [], 1⟩
      (e.assignments (js.toLowerCase langParam) body)).finish (js.parseInt idParam) ∧
    (body ≠ [] → e.assignments (js.toLowerCase langParam) body ≠ []) := by
  cases e
  · -- experience
    simp only [Entity.handler, putExperience] at hs
    split at hs
    · simp at hs
    rename_i hl
    split at hs
    · simp at hs
    obtain ⟨r, s1, _, hs⟩ := awaitQuery_issued_tail _ _ _ _ _ _ hs
    split at hs
    · simp at hs
    rw [experienceLoop_eq] at hs
    split at hs
    · simp at hs
    rename_i hv
    have hx := awaitQuery_issued_after _ _ _ _ _ _ _ hs
    refine ⟨by simpa using hl, hx, fun _ h0 => hv ?_⟩
    rw [h0]; rfl
  · -- education
    simp only [Entity.handler, putEducation] at hs
    split at hs
    · simp at hs
    rename_i hl
    split at hs
    · simp at hs
    obtain ⟨r, s1, _, hs⟩ := awaitQuery_issued_tail _ _ _ _ _ _ hs
    split at hs
    · simp at hs
    rw [educationLoop_eq] at hs
    cases hf : Entity.education.firstUnrecognised body with
    | some key => rw [hf] at hs; simp at hs
    | none =>
      rw [hf] at hs
      simp only at hs
      split at hs
      · simp at hs
      rename_i hv
      have hx := awaitQuery_issued_after _ _ _ _ _ _ _ hs
      refine ⟨by simpa using hl, hx, fun _ h0 => hv ?_⟩
      rw [h0]; rfl
  · -- skills
    simp only [Entity.handler, putSkills] at hs
    split at hs
    · simp at hs
    rename_i hl
    obtain ⟨r, s1, _, hs⟩ := awaitQuery_issued_tail _ _ _ _ _ _ hs
    split at hs
    · simp at hs
    rw [skillsLoop_eq] at hs
    cases hf : Entity.skills.firstUnrecognised body with
    | some key => rw [hf] at hs; simp at hs
    | none =>
      rw [hf] at hs
      simp only at hs
      have hx := awaitQuery_issued_after _ _ _ _ _ _ _ hs
      refine ⟨by simpa using hl, hx, fun hb => ?_⟩
      rw [assignments_of_all_recognised _ _ _ hf]
      simpa using hb
  · -- languages
    simp only [Entity.handler, putLanguages] at hs
    split at hs
    · simp at hs
    rename_i hl
    obtain ⟨r, s1, _, hs⟩ := awaitQuery_issued_tail _ _ _ _ _ _ hs
    split at hs
    · simp at hs
    rw [languagesLoop_eq] at hs
    cases hf : Entity.languages.firstUnrecognised body with
    | some key => rw [hf] at hs; simp at hs
    | none =>
      rw [hf] at hs
      simp only at hs
      have hx := awaitQuery_issued_after _ _ _ _ _ _ _ hs
      refine ⟨by simpa using hl, hx, fun hb => ?_⟩
      rw [assignments_of_all_recognised _ _ _ hf]
      simpa using hb

theorem validLang_cases (lang : String) (h : validLang lang = true) :
    lang = "en" ∨ lang = "es" ∨ lang = "it" := by
  simpa [validLang] using h

theorem suffix_of_append_eq {α : Type} (x a y : List α) (h : x <:+ a ++ y)
    (hl : x.length = y.length) : x = y := by
  rcases List.suffix_or_suffix_of_suffix h (List.suffix_append a y) with h1 | h1
  · exact h1.eq_of_length hl
  · exact (h1.eq_of_length hl.symm).symm

theorem not_endsWith_other (f lang other : String) (hl : validLang lang = true)
    (ho : validLang other = true) (hne : other ≠ lang) :
    endsWith (f ++ "_" ++ lang) ("_" ++ other) = false := by
  cases hE : endsWith (f ++ "_" ++ lang) ("_" ++ other) with
  | false => rfl
  | true =>
    exfalso
    unfold endsWith at hE
    rw [List.isSuffixOf_iff_suffix] at hE
    have hd : (f ++ "_" ++ lang).data = f.data ++ ("_" ++ lang).data := by
      simp [String.data_append]
    rw [hd] at hE
    have hlen : ("_" ++ other).data.length = ("_" ++ lang).data.length := by
      rcases validLang_cases lang hl with h | h | h <;>
        rcases validLang_cases other ho with h' | h' | h' <;> subst h <;> subst h' <;> rfl
    have heq := suffix_of_append_eq _ _ _ hE hlen
    apply hne
    have h2 : other.data = lang.data := by
      simpa [String.data_append] using heq
    exact String.ext h2

theorem column_of_assignment (e : Entity) (lang : String) (body : Obj) (c : String)
    (hc : c ∈ (e.assignments lang body).map Prod.fst) :
    c ∈ e.invariantFields ∨ ∃ f ∈ e.localizedFields, c = f ++ "_" ++ lang := by
  simp only [Entity.assignments, List.map_map, List.mem_map, List.mem_filter,
    Function.comp] at hc
  obtain ⟨kv, ⟨_, hrec⟩, rfl⟩ := hc
  unfold Entity.column
  by_cases hi : e.invariantFields.contains kv.1 = true
  · left
    rw [if_pos hi]
    simpa using hi
  · right
    refine ⟨kv.1, ?_, by rw [if_neg hi]⟩
    simp only [Entity.recognised, Bool.or_eq_true] at hrec
    rcases hrec with h | h
    · exact absurd h hi
    · simpa using h

theorem invariant_not_endsWith (e : Entity) (c other : String) (hc : c ∈ e.invariantFields)
    (ho : validLang other = true) : endsWith c ("_" ++ other) = false := by
  rcases validLang_cases other ho with h | h | h <;> subst h <;> cases e <;>
    simp [Entity.invariantFields] at hc <;> subst hc <;> decide


theorem awaitQuery_of_some {σ : Type} (db : Store σ) (stmt : Stmt) (s s1 : σ)
    (log : List Stmt) (onReject : Reply) (k : QueryResult → σ → List Stmt → Outcome σ)
    (r : QueryResult) (hq : db.query s stmt = (some r, s1)) :
    awaitQuery db stmt s log onReject k = k r s1 (log ++ [stmt]) := by
  simp [awaitQuery, hq]

theorem awaitQuery_issued_last {σ : Type} (db : Store σ) (stmt : Stmt) (s : σ)
    (log : List Stmt) (onReject : Reply) (ok : QueryResult → Reply) :
    (awaitQuery db stmt s log onReject fun r s2 log2 => ⟨ok r, log2, s2⟩).issued =
      log ++ [stmt] := by
  unfold awaitQuery
  rcases db.query s stmt with ⟨res, s1⟩
  cases res <;> rfl

theorem firstUnrecognised_none (e : Entity) (body : Obj)
    (h : ∀ kv ∈ body, e.recognised kv.1 = true) : e.firstUnrecognised body = none := by
  simpa [Entity.firstUnrecognised] using h

theorem firstUnrecognised_some (e : Entity) (before after : Obj) (kv : String × Val)
    (h : ∀ x ∈ before, e.recognised x.1 = true) (hkv : e.recognised kv.1 = false) :
    e.firstUnrecognised (before ++ kv :: after) = some kv.1 := by
  induction before with
  | nil => simp [Entity.firstUnrecognised, hkv]
  | cons x rest ih =>
    have hx : e.recognised x.1 = true := h x (by simp)
    have hrest : ∀ y ∈ rest, e.recognised y.1 = true := fun y hy => h y (by simp [hy])
    have := ih hrest
    simp only [Entity.firstUnrecognised, List.cons_append, List.find?_cons, hx] at this ⊢
    simpa using this

/-- The experience handler on a non-empty body, for a valid language and an existing row. -/
theorem putExperience_run {σ : Type} (js : Builtins) (db : Store σ)
    (idParam langParam : String) (body : Obj) (s s1 : σ) (r : QueryResult)
    (hl : validLang (js.toLowerCase langParam) = true)
    (hq : db.query s (Entity.experience.check (js.parseInt idParam)) = (some r, s1))
    (hr : r.rows ≠ []) (hb : body ≠ []) :
    (Entity.experience.assignments (js.toLowerCase langParam) body = [] →
      (putExperience js db idParam langParam body s).reply =
          errorReply 400 "❌ No se proporcionaron campos válidos para actualizar." ∧
      (putExperience js db idParam langParam body s).issued =
          [Entity.experience.check (js.parseInt idParam)] ∧
      (putExperience js db idParam langParam body s).final = s1) ∧
    (Entity.experience.assignments (js.toLowerCase langParam) body ≠ [] →
      (putExperience js db idParam langParam body s).issued =
        [Entity.experience.check (js.parseInt idParam),
         Entity.experience.built (js.toLowerCase langParam) body (js.parseInt idParam)]) := by
  have hq1 : db.query s ⟨"SELECT * FROM experience WHERE id = $1", [js.parseInt idParam]⟩ =
      (some r, s1) := hq
  have hb1 : (body.length == 0) = false := by
    cases body with
    | nil => exact absurd rfl hb
    | cons _ _ => rfl
  have hr1 : (r.rows.length == 0) = false := by
    cases hrr : r.rows with
    | nil => exact absurd hrr hr
    | cons _ _ => rfl
  simp only [putExperience, hl, hb1, Bool.not_true, Bool.false_eq_true, if_false,
    awaitQuery_of_some _ _ _ _ _ _ _ _ hq1, hr1, experienceLoop_eq, List.nil_append]
  constructor
  · intro h0
    rw [h0]
    exact ⟨rfl, rfl, rfl⟩
  · intro h0
    have hv : ((assignAll ⟨"UPDATE experience SET ", [], 1⟩
        (Entity.experience.assignments (js.toLowerCase langParam) body)).values.length == 0)
        = false := by
      rw [assignAll_values_length]
      cases hh : Entity.experience.assignments (js.toLowerCase langParam) body with
      | nil => exact absurd hh h0
      | cons _ _ => rfl
    simp only [hv, Bool.false_eq_true, if_false, awaitQuery_issued_last]
    rfl

/-! ## C1: an update writes only the columns of the requested language -/

/-- C1. For every update handler that builds its statement from the body (experience,
education, skills, and also languages), every non-empty patch and every store: a statement
sent after the existence check is sent only for a language in en, es, it, and it is the
statement `UPDATE table SET c1 = $1, ... WHERE id = $(k+1) RETURNING *;` for columns each of
which is a language-invariant field of the entity or `field_lang` for a localized field and
the requested language; hence applying it to a row leaves every column ending in `_other`,
for another language, unchanged. -/
theorem update_touches_only_requested_language {σ : Type} (e : Entity) (js : Builtins)
    (db : Store σ) (idParam langParam : String) (body : Obj) (s : σ) (stmt : Stmt)
    (hb : body ≠ [])
    (hs : stmt ∈ (e.handler js db idParam langParam body s).issued.tail) :
    validLang (js.toLowerCase langParam) = true ∧
    ∃ columns : List String,
      stmt.text = renderUpdate e.table columns ∧
      stmt.params.length = columns.length + 1 ∧
      (∀ c ∈ columns, c ∈ e.invariantFields ∨
        ∃ f ∈ e.localizedFields, c = f ++ "_" ++ js.toLowerCase langParam) ∧
      ∀ (row : Obj) (column other : String), validLang other = true →
        other ≠ js.toLowerCase langParam → endsWith column ("_" ++ other) = true →
        (applyAssignments row columns stmt.params).get column = row.get column := by
  obtain ⟨hl, hstmt, hne⟩ := mem_issued_tail e js db idParam langParam body s stmt hs
  refine ⟨hl, ?_⟩
  have hne := hne hb
  cases has : e.assignments (js.toLowerCase langParam) body with
  | nil => exact absurd has hne
  | cons a as =>
    have hcol : ∀ c ∈ (a :: as).map Prod.fst, c ∈ e.invariantFields ∨
        ∃ f ∈ e.localizedFields, c = f ++ "_" ++ js.toLowerCase langParam := by
      intro c hc
      rw [← has] at hc
      exact column_of_assignment e _ body c hc
    rw [has, finish_assignAll] at hstmt
    refine ⟨(a :: as).map Prod.fst, by rw [hstmt], by rw [hstmt]; simp, hcol, ?_⟩
    intro row column other ho hne2 hend
    apply applyAssignments_get_of_not_mem
    intro hmem
    rcases hcol column hmem with hi | ⟨f, _, hf⟩
    · rw [invariant_not_endsWith e column other hi ho] at hend
      exact Bool.noConfusion hend
    · rw [hf, not_endsWith_other f _ other hl ho hne2] at hend
      exact Bool.noConfusion hend

/-- C1 at `PUT /cv/skills/3/es` with body `{category: "Idiomas"}` on a store holding row 3. -/
theorem update_touches_only_requested_language_witness :
    validLang (refBuiltins.toLowerCase "es") = true ∧
    ∃ columns : List String,
      (Stmt.mk "UPDATE skills SET category_es = $1 WHERE id = $2 RETURNING *;"
        [.str "Idiomas", .num 3]).text = renderUpdate Entity.skills.table columns ∧
      (Stmt.mk "UPDATE skills SET category_es = $1 WHERE id = $2 RETURNING *;"
        [.str "Idiomas", .num 3]).params.length = columns.length + 1 ∧
      (∀ c ∈ columns, c ∈ Entity.skills.invariantFields ∨
        ∃ f ∈ Entity.skills.localizedFields, c = f ++ "_" ++ refBuiltins.toLowerCase "es") ∧
      ∀ (row : Obj) (column other : String), validLang other = true →
        other ≠ refBuiltins.toLowerCase "es" → endsWith column ("_" ++ other) = true →
        (applyAssignments row columns (Stmt.mk
          "UPDATE skills SET category_es = $1 WHERE id = $2 RETURNING *;"
          [.str "Idiomas", .num 3]).params).get column = row.get column :=
  update_touches_only_requested_language Entity.skills refBuiltins presentStore "3" "es"
    [("category", .str "Idiomas")] ()
    ⟨"UPDATE skills SET category_es = $1 WHERE id = $2 RETURNING *;", [.str "Idiomas", .num 3]⟩
    (by decide) (by decide)

/-- The education, skills and languages handlers for a valid language and an existing row
(the education handler on a non-empty body). -/
theorem strict_run {σ : Type} (e : Entity) (js : Builtins) (db : Store σ)
    (idParam langParam : String) (body : Obj) (s s1 : σ) (r : QueryResult)
    (he : e ≠ .experience)
    (hl : validLang (js.toLowerCase langParam) = true)
    (hq : db.query s (e.check (js.parseInt idParam)) = (some r, s1))
    (hr : r.rows ≠ []) (hb : e = .education → body ≠ []) :
    (∀ key, e.firstUnrecognised body = some key →
      (e.handler js db idParam langParam body s).reply = invalidFieldReply key ∧
      (e.handler js db idParam langParam body s).issued = [e.check (js.parseInt idParam)] ∧
      (e.handler js db idParam langParam body s).final = s1) ∧
    (e.firstUnrecognised body = none →
      (e.handler js db idParam langParam body s).issued =
        [e.check (js.parseInt idParam),
         e.built (js.toLowerCase langParam) body (js.parseInt idParam)]) := by
  have hr1 : (r.rows.length == 0) = false := by
    cases hrr : r.rows with
    | nil => exact absurd hrr hr
    | cons _ _ => rfl
  cases e with
  | experience => exact absurd rfl he
  | education =>
    have hq1 : db.query s ⟨"SELECT * FROM education WHERE id = $1", [js.parseInt idParam]⟩ =
        (some r, s1) := hq
    have hb0 := hb rfl
    have hb1 : (body.length == 0) = false := by
      cases body with
      | nil => exact absurd rfl hb0
      | cons _ _ => rfl
    simp only [Entity.handler, putEducation, hl, hb1, Bool.not_true, Bool.false_eq_true,
      if_false, awaitQuery_of_some _ _ _ _ _ _ _ _ hq1, hr1, educationLoop_eq, List.nil_append]
    constructor
    · intro key hk
      rw [hk]
      exact ⟨rfl, rfl, rfl⟩
    · intro hn
      rw [hn]
      have hv : ((assignAll ⟨"UPDATE education SET ", [], 1⟩
          (Entity.education.assignments (js.toLowerCase langParam) body)).values.length == 0)
          = false := by
        rw [assignAll_values_length, assignments_of_all_recognised _ _ _ hn]
        cases body with
        | nil => exact absurd rfl hb0
        | cons _ _ => rfl
      simp only [hv, Bool.false_eq_true, if_false, awaitQuery_issued_last]
      rfl
  | skills =>
    have hq1 : db.query s ⟨"SELECT * FROM skills WHERE id = $1", [js.parseInt idParam]⟩ =
        (some r, s1) := hq
    simp only [Entity.handler, putSkills, hl, Bool.not_true, Bool.false_eq_true,
      if_false, awaitQuery_of_some _ _ _ _ _ _ _ _ hq1, hr1, skillsLoop_eq, List.nil_append]
    constructor
    · intro key hk
      rw [hk]
      exact ⟨rfl, rfl, rfl⟩
    · intro hn
      rw [hn]
      simp only [awaitQuery_issued_last]
      rfl
  | languages =>
    have hq1 : db.query s ⟨"SELECT * FROM languages WHERE id = $1", [js.parseInt idParam]⟩ =
        (some r, s1) := hq
    simp only [Entity.handler, putLanguages, hl, Bool.not_true, Bool.false_eq_true,
      if_false, awaitQuery_of_some _ _ _ _ _ _ _ _ hq1, hr1, languagesLoop_eq, List.nil_append]
    constructor
    · intro key hk
      rw [hk]
      exact ⟨rfl, rfl, rfl⟩
    · intro hn
      rw [hn]
      simp only [awaitQuery_issued_last]
      rfl

theorem built_of_all_recognised (e : Entity) (lang : String) (body : Obj) (id : Val)
    (hn : e.firstUnrecognised body = none) (hb : body ≠ []) :
    e.built lang body id =
      ⟨renderUpdate e.table (body.map fun kv => e.column lang kv.1),
       body.map Prod.snd ++ [id]⟩ := by
  unfold Entity.built
  rw [assignments_of_all_recognised _ _ _ hn]
  cases body with
  | nil => exact absurd rfl hb
  | cons kv rest =>
    rw [List.map_cons, finish_assignAll]
    simp only [List.map_cons, List.map_map]
    rfl

/-! ## C2: the statement built by the education, skills and languages handlers -/

/-- C2. For the education, skills and languages update handlers, a valid language, an existing
row and a non-empty patch: when every key is recognised, the handler sends, after the existence
check, `UPDATE table SET c1 = $1, ..., cn = $n WHERE id = $(n+1) RETURNING *;` where `ci` is
the i-th key of the patch itself (invariant field) or `key_lang` (localized field), bound to
the values of the patch in order followed by the row id; when some key is not recognised, the
reply is 400 with the message naming the first such key, and only the existence check was
sent. -/
theorem strict_update_contract {σ : Type} (e : Entity) (js : Builtins) (db : Store σ)
    (idParam langParam : String) (body : Obj) (s s1 : σ) (r : QueryResult)
    (he : e ≠ .experience)
    (hl : validLang (js.toLowerCase langParam) = true)
    (hq : db.query s (e.check (js.parseInt idParam)) = (some r, s1))
    (hr : r.rows ≠ []) (hb : body ≠ []) :
    ((∀ kv ∈ body, e.recognised kv.1 = true) →
      (e.handler js db idParam langParam body s).issued =
        [e.check (js.parseInt idParam),
         ⟨renderUpdate e.table (body.map fun kv => e.column (js.toLowerCase langParam) kv.1),
          body.map Prod.snd ++ [js.parseInt idParam]⟩]) ∧
    (∀ (before after : Obj) (kv : String × Val), body = before ++ kv :: after →
      (∀ x ∈ before, e.recognised x.1 = true) → e.recognised kv.1 = false →
      (e.handler js db idParam langParam body s).reply =
        errorReply 400 ("❌ El campo '" ++ kv.1 ++ "' no es válido para actualizar.") ∧
      (e.handler js db idParam langParam body s).issued = [e.check (js.parseInt idParam)] ∧
      (e.handler js db idParam langParam body s).final = s1) := by
  obtain ⟨hbad, hgood⟩ :=
    strict_run e js db idParam langParam body s s1 r he hl hq hr (fun _ => hb)
  constructor
  · intro hall
    have hn := firstUnrecognised_none e body hall
    rw [hgood hn, built_of_all_recognised e _ body _ hn hb]
  · intro before after kv hbody hpre hkv
    have hsome := firstUnrecognised_some e before after kv hpre hkv
    rw [← hbody] at hsome
    exact hbad kv.1 hsome

/-- C2 at the example of the specification: `PUT /cv/skills/3/es` with body
`{category: "Idiomas"}` sends `UPDATE skills SET category_es = $1 WHERE id = $2 RETURNING *;`
with values `["Idiomas", 3]`; and with body `{category: "Idiomas", colour: "red"}` the reply
is 400 naming `colour`. -/
theorem strict_update_contract_witness :
    (putSkills refBuiltins presentStore "3" "es" [("category", .str "Idiomas")] ()).issued =
      [⟨"SELECT * FROM skills WHERE id = $1", [.num 3]⟩,
       ⟨"UPDATE skills SET category_es = $1 WHERE id = $2 RETURNING *;",
        [.str "Idiomas", .num 3]⟩] ∧
    (putSkills refBuiltins presentStore "3" "es"
        [("category", .str "Idiomas"), ("colour", .str "red")] ()).reply =
      errorReply 400 "❌ El campo 'colour' no es válido para actualizar." ∧
    (putSkills refBuiltins presentStore "3" "es"
        [("category", .str "Idiomas"), ("colour", .str "red")] ()).issued =
      [⟨"SELECT * FROM skills WHERE id = $1", [.num 3]⟩] :=
  ⟨(strict_update_contract Entity.skills refBuiltins presentStore "3" "es"
      [("category", .str "Idiomas")] () () ⟨[[("id", .num 3)]], 1⟩ (by decide) (by decide)
      rfl (by decide) (by decide)).1 (by decide),
   ((strict_update_contract Entity.skills refBuiltins presentStore "3" "es"
      [("category", .str "Idiomas"), ("colour", .str "red")] () () ⟨[[("id", .num 3)]], 1⟩
      (by decide) (by decide) rfl (by decide) (by decide)).2
      [("category", .str "Idiomas")] [] ("colour", .str "red") rfl (by decide) (by decide)).1,
   ((strict_update_contract Entity.skills refBuiltins presentStore "3" "es"
      [("category", .str "Idiomas"), ("colour", .str "red")] () () ⟨[[("id", .num 3)]], 1⟩
      (by decide) (by decide) rfl (by decide) (by decide)).2
      [("category", .str "Idiomas")] [] ("colour", .str "red") rfl (by decide) (by decide)).2.1⟩

/-! ## C3: a patch of unrecognised keys only -/

theorem assignments_nil_of_none_recognised (e : Entity) (lang : String) (body : Obj)
    (h : ∀ kv ∈ body, e.recognised kv.1 = false) : e.assignments lang body = [] := by
  unfold Entity.assignments
  rw [List.filter_eq_nil_iff.mpr (fun kv hkv => by simp [h kv hkv])]
  rfl

theorem Obj.get_of_not_mem (body : Obj) (key : String) (h : ∀ kv ∈ body, kv.1 ≠ key) :
    body.get key = .undefined := by
  induction body with
  | nil => rfl
  | cons kv rest ih =>
    obtain ⟨k, v⟩ := kv
    have hk : ¬ k = key := h (k, v) (List.mem_cons_self _ _)
    simp only [Obj.get, hk, if_false]
    exact ih fun x hx => h x (List.mem_cons_of_mem _ hx)

/-- C3, what the code does on a non-empty patch none of whose keys is recognised, for a valid
language and an existing row. The experience, education, skills and languages handlers answer
400 and send only the existence check (no UPDATE). The projects handler has no such guard: it
never looks at the keys of the body, and for a valid language it sends its one fixed UPDATE
binding `name`, `description`, `technologies` and `link` of the body; when the body has none
of these four keys the four columns are bound to `undefined`, and the reply is 200, 404 or
500, never 400. -/
theorem unrecognised_only_patch_rejected {σ : Type} (e : Entity) (js : Builtins)
    (db : Store σ) (idParam langParam : String) (body : Obj) (s s1 : σ) (r : QueryResult)
    (hl : validLang (js.toLowerCase langParam) = true)
    (hq : db.query s (e.check (js.parseInt idParam)) = (some r, s1))
    (hr : r.rows ≠ []) (hb : body ≠ [])
    (hnone : ∀ kv ∈ body, e.recognised kv.1 = false) :
    ((e.handler js db idParam langParam body s).reply.status = 400 ∧
      (e.handler js db idParam langParam body s).issued = [e.check (js.parseInt idParam)] ∧
      (e.handler js db idParam langParam body s).final = s1) ∧
    (∀ lang : String, validLang lang = true →
      (putProjects db idParam lang body s).issued =
        [⟨"UPDATE projects \n             SET name_" ++ lang ++ " = $1, \n                 description_" ++ lang ++ " = $2,\n                 technologies = $3, \n                 link = $4\n             WHERE id = $5\n             RETURNING *",
          [body.get "name", body.get "description", body.get "technologies", body.get "link",
           .str idParam]⟩] ∧
      ((putProjects db idParam lang body s).reply.status = 200 ∨
        (putProjects db idParam lang body s).reply.status = 404 ∨
        (putProjects db idParam lang body s).reply.status = 500) ∧
      ((∀ kv ∈ body, kv.1 ∉ ["name", "description", "technologies", "link"]) →
        (putProjects db idParam lang body s).issued =
          [⟨"UPDATE projects \n             SET name_" ++ lang ++ " = $1, \n                 description_" ++ lang ++ " = $2,\n                 technologies = $3, \n                 link = $4\n             WHERE id = $5\n             RETURNING *",
            [.undefined, .undefined, .undefined, .undefined, .str idParam]⟩])) := by
  constructor
  · by_cases he : e = .experience
    · subst he
      obtain ⟨h1, _⟩ := putExperience_run js db idParam langParam body s s1 r hl hq hr hb
      obtain ⟨hreply, hissued, hfinal⟩ :=
        h1 (assignments_nil_of_none_recognised _ _ body hnone)
      exact ⟨by rw [Entity.handler, hreply]; rfl, hissued, hfinal⟩
    · obtain ⟨h1, _⟩ :=
        strict_run e js db idParam langParam body s s1 r he hl hq hr (fun _ => hb)
      cases body with
      | nil => exact absurd rfl hb
      | cons kv rest =>
        have hsome : e.firstUnrecognised (kv :: rest) = some kv.1 :=
          firstUnrecognised_some e [] rest kv (by simp) (hnone kv (by simp))
        obtain ⟨hreply, hissued, hfinal⟩ := h1 kv.1 hsome
        exact ⟨by rw [hreply]; rfl, hissued, hfinal⟩
  · intro lang hlang
    have hissued : (putProjects db idParam lang body s).issued =
        [⟨"UPDATE projects \n             SET name_" ++ lang ++ " = $1, \n                 description_" ++ lang ++ " = $2,\n                 technologies = $3, \n                 link = $4\n             WHERE id = $5\n             RETURNING *",
          [body.get "name", body.get "description", body.get "technologies", body.get "link",
           .str idParam]⟩] := by
      simp only [putProjects, hlang, Bool.not_true, Bool.false_eq_true, if_false]
      unfold awaitQuery
      rcases db.query s _ with ⟨res, s2⟩
      cases res with
      | none => rfl
      | some r2 =>
        simp only
        split <;> rfl
    refine ⟨hissued, ?_, ?_⟩
    · simp only [putProjects, hlang, Bool.not_true, Bool.false_eq_true, if_false]
      unfold awaitQuery
      rcases db.query s _ with ⟨res, s2⟩
      cases res with
      | none => right; right; rfl
      | some r2 =>
        simp only
        split
        · right; left; rfl
        · left; rfl
    · intro hkeys
      rw [hissued,
        Obj.get_of_not_mem body "name" (fun kv hkv hk => hkeys kv hkv (by simp [hk])),
        Obj.get_of_not_mem body "description" (fun kv hkv hk => hkeys kv hkv (by simp [hk])),
        Obj.get_of_not_mem body "technologies" (fun kv hkv hk => hkeys kv hkv (by simp [hk])),
        Obj.get_of_not_mem body "link" (fun kv hkv hk => hkeys kv hkv (by simp [hk]))]

/-- C3 at the body `{colour: "red"}` on a store holding the row: `PUT /cv/education/3/it` is
answered 400 with only the existence check sent, and `PUT /cv/projects/3/es` is answered 200
after an UPDATE that binds `undefined` to the name, description, technologies and link
columns. -/
theorem unrecognised_only_patch_rejected_witness :
    ((putEducation refBuiltins presentStore "3" "it" [("colour", .str "red")] ()).reply.status
        = 400 ∧
      (putEducation refBuiltins presentStore "3" "it" [("colour", .str "red")] ()).issued =
        [⟨"SELECT * FROM education WHERE id = $1", [.num 3]⟩]) ∧
    (putProjects presentStore "3" "es" [("colour", .str "red")] ()).reply.status = 200 ∧
    (putProjects presentStore "3" "es" [("colour", .str "red")] ()).issued =
      [⟨"UPDATE projects \n             SET name_es = $1, \n                 description_es = $2,\n                 technologies = $3, \n                 link = $4\n             WHERE id = $5\n             RETURNING *",
        [.undefined, .undefined, .undefined, .undefined, .str "3"]⟩] :=
  have h := unrecognised_only_patch_rejected Entity.education refBuiltins presentStore "3" "it"
    [("colour", .str "red")] () () ⟨[[("id", .num 3)]], 1⟩ (by decide) rfl (by decide)
    (by decide) (by decide)
  ⟨⟨h.1.1, h.1.2.1⟩, rfl, (h.2 "es" (by decide)).2.2 (by decide)⟩

/-! ## C4: the empty patch -/

theorem awaitQuery_status_last {σ : Type} (db : Store σ) (stmt : Stmt) (s : σ)
    (log : List Stmt) (msg : String) (ok : QueryResult → List (String × Payload)) :
    (awaitQuery db stmt s log (errorReply 500 msg)
      fun r s2 log2 => ⟨⟨200, ok r⟩, log2, s2⟩).reply.status = 200 ∨
    (awaitQuery db stmt s log (errorReply 500 msg)
      fun r s2 log2 => ⟨⟨200, ok r⟩, log2, s2⟩).reply.status = 500 := by
  unfold awaitQuery
  rcases db.query s stmt with ⟨res, s1⟩
  cases res with
  | none => right; rfl
  | some r => left; rfl

/-- C4, what the code does on the empty patch `{}` for a valid language and an existing row.
The experience and education handlers reply 400 before any statement is sent. The skills and
languages handlers have no such check: after the existence check they send the statement left
by `slice(0, -2)` on an empty SET list, `UPDATE skills SE WHERE id = $1 RETURNING *;`
(`UPDATE languages SE ...`), and the reply is 200 or 500 as the store decides, never 400. -/
theorem empty_patch_behaviour {σ : Type} (js : Builtins) (db : Store σ)
    (idParam langParam : String) (s s1 s2 : σ) (r1 r2 : QueryResult)
    (hl : validLang (js.toLowerCase langParam) = true)
    (hq1 : db.query s (Entity.skills.check (js.parseInt idParam)) = (some r1, s1))
    (hr1 : r1.rows ≠ [])
    (hq2 : db.query s (Entity.languages.check (js.parseInt idParam)) = (some r2, s2))
    (hr2 : r2.rows ≠ []) :
    ((putExperience js db idParam langParam [] s).reply =
        errorReply 400 "❌ No se proporcionaron datos para actualizar." ∧
      (putExperience js db idParam langParam [] s).issued = []) ∧
    ((putEducation js db idParam langParam [] s).reply =
        errorReply 400 "❌ No se proporcionaron datos para actualizar." ∧
      (putEducation js db idParam langParam [] s).issued = []) ∧
    ((putSkills js db idParam langParam [] s).issued =
        [⟨"SELECT * FROM skills WHERE id = $1", [js.parseInt idParam]⟩,
         ⟨"UPDATE skills SE WHERE id = $1 RETURNING *;", [js.parseInt idParam]⟩] ∧
      (putSkills js db idParam langParam [] s).reply.status ≠ 400) ∧
    ((putLanguages js db idParam langParam [] s).issued =
        [⟨"SELECT * FROM languages WHERE id = $1", [js.parseInt idParam]⟩,
         ⟨"UPDATE languages SE WHERE id = $1 RETURNING *;", [js.parseInt idParam]⟩] ∧
      (putLanguages js db idParam langParam [] s).reply.status ≠ 400) := by
  have hr1' : (r1.rows.length == 0) = false := by
    cases hrr : r1.rows with
    | nil => exact absurd hrr hr1
    | cons _ _ => rfl
  have hr2' : (r2.rows.length == 0) = false := by
    cases hrr : r2.rows with
    | nil => exact absurd hrr hr2
    | cons _ _ => rfl
  have hq1' : db.query s ⟨"SELECT * FROM skills WHERE id = $1", [js.parseInt idParam]⟩ =
      (some r1, s1) := hq1
  have hq2' : db.query s ⟨"SELECT * FROM languages WHERE id = $1", [js.parseInt idParam]⟩ =
      (some r2, s2) := hq2
  refine ⟨?_, ?_, ?_, ?_⟩
  · simp [putExperience, hl]
  · simp [putEducation, hl]
  · simp only [putSkills, hl, Bool.not_true, Bool.false_eq_true, if_false,
      awaitQuery_of_some _ _ _ _ _ _ _ _ hq1', hr1', skillsLoop, List.nil_append]
    refine ⟨?_, ?_⟩
    · rw [awaitQuery_issued_last]; rfl
    · rcases awaitQuery_status_last db _ s1 _ "❌ Error interno del servidor." _ with h | h <;>
        rw [h] <;> decide
  · simp only [putLanguages, hl, Bool.not_true, Bool.false_eq_true, if_false,
      awaitQuery_of_some _ _ _ _ _ _ _ _ hq2', hr2', languagesLoop, List.nil_append]
    refine ⟨?_, ?_⟩
    · rw [awaitQuery_issued_last]; rfl
    · rcases awaitQuery_status_last db _ s2 _ "❌ Error interno del servidor." _ with h | h <;>
        rw [h] <;> decide

/-- C4 at `PUT /cv/skills/3/es` and `PUT /cv/languages/3/es` with body `{}`, on a store that
holds row 3 and rejects the two cut statements: both are sent, and the reply is 500. -/
theorem empty_patch_behaviour_witness :
    ((putSkills refBuiltins (parsingStore ["UPDATE skills SE WHERE id = $1 RETURNING *;",
          "UPDATE languages SE WHERE id = $1 RETURNING *;"]) "3" "es" [] ()).issued =
        [⟨"SELECT * FROM skills WHERE id = $1", [.num 3]⟩,
         ⟨"UPDATE skills SE WHERE id = $1 RETURNING *;", [.num 3]⟩] ∧
      (putSkills refBuiltins (parsingStore ["UPDATE skills SE WHERE id = $1 RETURNING *;",
          "UPDATE languages SE WHERE id = $1 RETURNING *;"]) "3" "es" [] ()).reply.status
        ≠ 400) ∧
    (putSkills refBuiltins (parsingStore ["UPDATE skills SE WHERE id = $1 RETURNING *;",
        "UPDATE languages SE WHERE id = $1 RETURNING *;"]) "3" "es" [] ()).reply =
      errorReply 500 "❌ Error interno del servidor." :=
  ⟨(empty_patch_behaviour refBuiltins
      (parsingStore ["UPDATE skills SE WHERE id = $1 RETURNING *;",
        "UPDATE languages SE WHERE id = $1 RETURNING *;"]) "3" "es" () () ()
      ⟨[[("id", .num 3)]], 1⟩ ⟨[[("id", .num 3)]], 1⟩ (by decide) rfl (by decide) rfl
      (by decide)).2.2.1, rfl⟩

/-! ## C5: the experience handler and keys outside its allow-list -/

/-- C5, the claim as stated fails: `PUT /cv/experience/3/es` with body
`{company: "Acme", colour: "red"}` is answered 200 and the UPDATE of `company_es` is sent, the
key `colour` being skipped; and with body `{colour: "red"}` the 400 reply does not name the
key. -/
theorem experience_unknown_key_counterexample :
    (putExperience refBuiltins presentStore "3" "es"
        [("company", .str "Acme"), ("colour", .str "red")] ()).reply.status = 200 ∧
    (putExperience refBuiltins presentStore "3" "es"
        [("company", .str "Acme"), ("colour", .str "red")] ()).issued =
      [⟨"SELECT * FROM experience WHERE id = $1", [.num 3]⟩,
       ⟨"UPDATE experience SET company_es = $1 WHERE id = $2 RETURNING *;",
        [.str "Acme", .num 3]⟩] ∧
    (putExperience refBuiltins presentStore "3" "es" [("colour", .str "red")] ()).reply =
      errorReply 400 "❌ No se proporcionaron campos válidos para actualizar." :=
  ⟨rfl, rfl, rfl⟩

/-- C5 as amended. The experience handler skips the keys outside company, role, duration,
description. For a valid language, an existing row and a non-empty patch: if no key of the
patch is in that set, the reply is 400 with the fixed message that no valid field was given
(it names no key) and only the existence check is sent; otherwise the handler sends the UPDATE
that assigns `key_lang`, in patch order, for exactly the keys of the patch in that set, bound
to their values followed by the row id. -/
theorem experience_skips_unknown_keys {σ : Type} (js : Builtins) (db : Store σ)
    (idParam langParam : String) (body : Obj) (s s1 : σ) (r : QueryResult)
    (hl : validLang (js.toLowerCase langParam) = true)
    (hq : db.query s ⟨"SELECT * FROM experience WHERE id = $1", [js.parseInt idParam]⟩ =
      (some r, s1))
    (hr : r.rows ≠ []) (hb : body ≠ []) :
    (body.filter (fun kv => ["company", "role", "duration", "description"].contains kv.1) = [] →
      (putExperience js db idParam langParam body s).reply =
          errorReply 400 "❌ No se proporcionaron campos válidos para actualizar." ∧
      (putExperience js db idParam langParam body s).issued =
          [⟨"SELECT * FROM experience WHERE id = $1", [js.parseInt idParam]⟩]) ∧
    (body.filter (fun kv => ["company", "role", "duration", "description"].contains kv.1) ≠ [] →
      (putExperience js db idParam langParam body s).issued =
        [⟨"SELECT * FROM experience WHERE id = $1", [js.parseInt idParam]⟩,
         ⟨renderUpdate "experience"
            ((body.filter fun kv =>
              ["company", "role", "duration", "description"].contains kv.1).map
                fun kv => kv.1 ++ "_" ++ js.toLowerCase langParam),
          (body.filter fun kv =>
              ["company", "role", "duration", "description"].contains kv.1).map Prod.snd ++
            [js.parseInt idParam]⟩]) := by
  obtain ⟨h1, h2⟩ := putExperience_run js db idParam langParam body s s1 r hl hq hr hb
  have hfilter : (fun kv : String × Val => Entity.experience.recognised kv.1) =
      fun kv => ["company", "role", "duration", "description"].contains kv.1 := by
    funext kv
    simp [Entity.recognised, Entity.invariantFields, Entity.localizedFields]
  have hassign : Entity.experience.assignments (js.toLowerCase langParam) body =
      (body.filter fun kv => ["company", "role", "duration", "description"].contains kv.1).map
        fun kv => (kv.1 ++ "_" ++ js.toLowerCase langParam, kv.2) := by
    unfold Entity.assignments
    rw [hfilter]
    rfl
  constructor
  · intro h0
    have := h1 (by rw [hassign, h0]; rfl)
    exact ⟨this.1, this.2.1⟩
  · intro h0
    rw [h2 (by rw [hassign]; simpa using h0)]
    unfold Entity.built
    rw [hassign]
    cases hk : body.filter
        (fun kv => ["company", "role", "duration", "description"].contains kv.1) with
    | nil => exact absurd hk h0
    | cons kv rest =>
      rw [List.map_cons, finish_assignAll]
      simp only [List.map_cons, List.map_map]
      rfl

/-- C5 as amended, at `PUT /cv/experience/3/es` with body `{company: "Acme", colour: "red"}`. -/
theorem experience_skips_unknown_keys_witness :
    (putExperience refBuiltins presentStore "3" "es"
        [("company", .str "Acme"), ("colour", .str "red")] ()).issued =
      [⟨"SELECT * FROM experience WHERE id = $1", [.num 3]⟩,
       ⟨renderUpdate "experience" ["company_es"], [.str "Acme", .num 3]⟩] :=
  (experience_skips_unknown_keys refBuiltins presentStore "3" "es"
    [("company", .str "Acme"), ("colour", .str "red")] () () ⟨[[("id", .num 3)]], 1⟩
    (by decide) rfl (by decide) (by decide)).2 (by decide)

/-! ## C6: what the statement text depends on -/

theorem assignments_columns (e : Entity) (lang : String) (body : Obj) :
    (e.assignments lang body).map Prod.fst = (e.recognisedKeys body).map (e.column lang) := by
  unfold Entity.assignments Entity.recognisedKeys
  induction body with
  | nil => rfl
  | cons kv rest ih =>
    by_cases h : e.recognised kv.1 = true
    · simp only [List.filter_cons, h, if_true, List.map_cons, List.map_map] at ih ⊢
      rw [ih]
    · simp only [List.filter_cons, h, List.map_cons, List.map_map] at ih ⊢
      simpa using ih

theorem built_text (e : Entity) (lang : String) (body : Obj) (id : Val) :
    (e.built lang body id).text =
      sliceOffTwo ("UPDATE " ++ e.table ++ " SET " ++
          pieces ((e.recognisedKeys body).map (e.column lang)) 1) ++
        (" WHERE id = $" ++ toString (1 + (e.recognisedKeys body).length) ++
          " RETURNING *;") := by
  unfold Entity.built
  rw [assignAll_eq]
  simp only [Build.finish]
  rw [assignments_columns]
  have hlen : (e.assignments lang body).length = (e.recognisedKeys body).length := by
    have := congrArg List.length (assignments_columns e lang body)
    simpa using this
  rw [hlen]

theorem expenseFields_text (js : Builtins) (body : Obj) :
    (expenseFields js body).updateQuery =
        "UPDATE expenses SET " ++ pieces (expenseSuppliedFields body) 1 ∧
    (expenseFields js body).counter = 1 + (expenseSuppliedFields body).length := by
  unfold expenseFields expenseSuppliedFields
  cases h1 : (body.get "name").truthy <;> cases h2 : (body.get "category").truthy <;>
    cases h3 : (body.get "amount").truthy <;> cases h4 : (body.get "currency").truthy <;>
    cases h5 : (body.get "status").truthy <;>
    simp [Build.assignIf, Build.assign, List.filter, pieces, h1, h2, h3, h4, h5,
      String.append_assoc]

theorem putExpense_issued_tail {σ : Type} (js : Builtins) (db : Store σ)
    (month year idParam : String) (body : Obj) (s : σ) (stmt : Stmt)
    (hs : stmt ∈ (putExpense js db month year idParam body s).issued.tail) :
    stmt = (expenseFields js body).finishExpense (.str idParam)
      (year ++ "-" ++ js.toLowerCase month) := by
  simp only [putExpense] at hs
  obtain ⟨r, s1, _, hs⟩ := awaitQuery_issued_tail _ _ _ _ _ _ hs
  split at hs
  · simp [expenseNotFound] at hs
  exact awaitQuery_issued_after _ _ _ _ _ _ _ hs

/-- C6, the claim as stated fails in four ways. (1) Key order: the skills bodies
`{category, skills}` and `{skills, category}` hold the same allow-listed keys and give
different texts. (2) Other keys: `{category}` is sent as an UPDATE while
`{category, colour}` is rejected with 400. (3) Values: for the fixed-field expense handler
`{name: "rent", category: "home"}` and `{name: "rent", category: ""}` hold the same keys and
give different texts, an empty value counting as no value. (4) The expense status handler `PUT /finance/expenses/:month/:year/:id`
has no allow-list and writes every key of the body into the text. -/
theorem statement_text_counterexample :
    ((putSkills refBuiltins presentStore "3" "es"
        [("category", .str "a"), ("skills", .str "b")] ()).issued.map Stmt.text =
      ["SELECT * FROM skills WHERE id = $1",
       "UPDATE skills SET category_es = $1, skills = $2 WHERE id = $3 RETURNING *;"] ∧
     (putSkills refBuiltins presentStore "3" "es"
        [("skills", .str "b"), ("category", .str "a")] ()).issued.map Stmt.text =
      ["SELECT * FROM skills WHERE id = $1",
       "UPDATE skills SET skills = $1, category_es = $2 WHERE id = $3 RETURNING *;"]) ∧
    ((putSkills refBuiltins presentStore "3" "es" [("category", .str "a")] ()).reply.status
        = 200 ∧
     (putSkills refBuiltins presentStore "3" "es"
        [("category", .str "a"), ("colour", .str "red")] ()).reply.status = 400) ∧
    ((putExpense refBuiltins presentStore "03" "2025" "7"
        [("name", .str "rent"), ("category", .str "home")] ()).issued.map Stmt.text =
      ["SELECT * FROM expenses WHERE id = $1 AND month_year = $2",
       "UPDATE expenses SET name = $1, category = $2 WHERE id = $3 AND month_year = $4 RETURNING *;"] ∧
     (putExpense refBuiltins presentStore "03" "2025" "7"
        [("name", .str "rent"), ("category", .str "")] ()).issued.map Stmt.text =
      ["SELECT * FROM expenses WHERE id = $1 AND month_year = $2",
       "UPDATE expenses SET name = $1 WHERE id = $2 AND month_year = $3 RETURNING *;"]) ∧
    (putExpenseStatus refBuiltins presentStore "03" "2025" "7"
        [("month_year = '2099-01', status", .str "paid")] ()).issued.map Stmt.text =
      ["SELECT * FROM expenses WHERE id = $1 AND month_year = $2",
       "UPDATE expenses SET month_year = '2099-01', status = $1 WHERE id = $2 AND month_year = $3 RETURNING *;"] :=
  ⟨⟨rfl, rfl⟩, ⟨rfl, rfl⟩, ⟨rfl, rfl⟩, rfl⟩

/-- C6 as amended. For the experience, education, skills and languages update handlers and
the fixed-field expense update handler `PUT /finance/:month/:year/expenses/:id`, the text of
the UPDATE is determined by the language the handler works with and by the sequence of
allow-listed keys the body supplies (for the first four: the recognised keys in body order;
for the expense handler: the fields name, category, amount, currency, status whose value is
truthy). Two bodies with the same such sequence, whatever their values and their other keys,
whatever the row id and the store, give the same text whenever both give an UPDATE; so no
value of the body appears in the text. -/
theorem statement_text_determined_by_keys {σ : Type} (e : Entity) (js : Builtins)
    (db1 db2 : Store σ) (id1 id2 langParam month1 year1 month2 year2 : String)
    (body1 body2 : Obj) (s1 s2 : σ) (stmt1 stmt2 : Stmt) :
    (e.recognisedKeys body1 = e.recognisedKeys body2 →
      stmt1 ∈ (e.handler js db1 id1 langParam body1 s1).issued.tail →
      stmt2 ∈ (e.handler js db2 id2 langParam body2 s2).issued.tail →
      stmt1.text = stmt2.text) ∧
    (expenseSuppliedFields body1 = expenseSuppliedFields body2 →
      stmt1 ∈ (putExpense js db1 month1 year1 id1 body1 s1).issued.tail →
      stmt2 ∈ (putExpense js db2 month2 year2 id2 body2 s2).issued.tail →
      stmt1.text = stmt2.text) := by
  constructor
  · intro hk h1 h2
    obtain ⟨_, e1, _⟩ := mem_issued_tail e js db1 id1 langParam body1 s1 stmt1 h1
    obtain ⟨_, e2, _⟩ := mem_issued_tail e js db2 id2 langParam body2 s2 stmt2 h2
    have t1 := built_text e (js.toLowerCase langParam) body1 (js.parseInt id1)
    have t2 := built_text e (js.toLowerCase langParam) body2 (js.parseInt id2)
    unfold Entity.built at t1 t2
    rw [e1, e2, t1, t2, hk]
  · intro hk h1 h2
    rw [putExpense_issued_tail js db1 month1 year1 id1 body1 s1 stmt1 h1,
      putExpense_issued_tail js db2 month2 year2 id2 body2 s2 stmt2 h2]
    simp only [Build.finishExpense, (expenseFields_text js body1).1,
      (expenseFields_text js body1).2, (expenseFields_text js body2).1,
      (expenseFields_text js body2).2, hk]

/-- C6 as amended, at two skills bodies with the key `category`, different values and
different other content, and two expense bodies supplying `name`. -/
theorem statement_text_determined_by_keys_witness :
    (Stmt.mk "UPDATE skills SET category_es = $1 WHERE id = $2 RETURNING *;"
        [.str "Idiomas", .num 3]).text =
      (Stmt.mk "UPDATE skills SET category_es = $1 WHERE id = $2 RETURNING *;"
        [.str "x'; DROP TABLE skills; --", .num 4]).text ∧
    (Stmt.mk "UPDATE expenses SET name = $1 WHERE id = $2 AND month_year = $3 RETURNING *;"
        [.str "rent", .str "7", .str "2025-03"]).text =
      (Stmt.mk "UPDATE expenses SET name = $1 WHERE id = $2 AND month_year = $3 RETURNING *;"
        [.str "x' OR 1=1", .str "8", .str "2025-04"]).text :=
  ⟨(statement_text_determined_by_keys Entity.skills refBuiltins presentStore presentStore
      "3" "4" "es" "03" "2025" "04" "2025" [("category", .str "Idiomas")]
      [("category", .str "x'; DROP TABLE skills; --")] () ()
      ⟨"UPDATE skills SET category_es = $1 WHERE id = $2 RETURNING *;",
        [.str "Idiomas", .num 3]⟩
      ⟨"UPDATE skills SET category_es = $1 WHERE id = $2 RETURNING *;",
        [.str "x'; DROP TABLE skills; --", .num 4]⟩).1 (by decide) (by decide) (by decide),
   (statement_text_determined_by_keys Entity.skills refBuiltins presentStore presentStore
      "7" "8" "es" "03" "2025" "04" "2025" [("name", .str "rent")]
      [("name", .str "x' OR 1=1")] () ()
      ⟨"UPDATE expenses SET name = $1 WHERE id = $2 AND month_year = $3 RETURNING *;",
        [.str "rent", .str "7", .str "2025-03"]⟩
      ⟨"UPDATE expenses SET name = $1 WHERE id = $2 AND month_year = $3 RETURNING *;",
        [.str "x' OR 1=1", .str "8", .str "2025-04"]⟩).2 (by decide) (by decide) (by decide)⟩

/-! ## C7: `GET /cv` and its `lang` parameter -/

/-- C7, what the code does at `GET /cv?lang=fr`: the handler has no language check. Whatever
the store, the first statement it sends is the experience SELECT with `fr` written into the
column names, and the reply is never 400 (it is 200, or 500 when the store rejects a
statement). -/
theorem getCv_does_not_check_lang {σ : Type} (db : Store σ) (currentMonthYear : String)
    (s : σ) :
    (getCv db (.str "fr") currentMonthYear s).issued.head? =
      some ⟨"\n            SELECT id, \n                   company_fr AS company, \n                   role_fr AS role, \n                   duration_fr AS duration, \n                   description_fr AS description\n            FROM experience\n        ", []⟩ ∧
    (getCv db (.str "fr") currentMonthYear s).reply.status ≠ 400 := by
  simp only [getCv, awaitQuery]
  constructor
  · repeat' split
    all_goals rfl
  · repeat' split
    all_goals simp [getCvFailed]

/-! ## C8: the language check of the update handlers -/

/-- C8. Each PUT handler with a `:lang` path parameter (experience, education, skills,
languages, contact: on the lower-cased parameter; projects, profile: on the parameter as
given) replies 400 and sends no statement to the store, leaving it as it was, when the
language it works with is not accepted by the check; and the check accepts exactly en, es,
it. Hence a handler that sends any statement works with a language among en, es, it, the only
values written as a column suffix or dictionary column into a statement text. -/
theorem invalid_lang_rejected {σ : Type} (js : Builtins) (db : Store σ)
    (idParam langParam : String) (body : Obj) (s : σ) :
    (validLang (js.toLowerCase langParam) = false →
      ((putExperience js db idParam langParam body s).reply.status = 400 ∧
        (putExperience js db idParam langParam body s).issued = [] ∧
        (putExperience js db idParam langParam body s).final = s) ∧
      ((putEducation js db idParam langParam body s).reply.status = 400 ∧
        (putEducation js db idParam langParam body s).issued = [] ∧
        (putEducation js db idParam langParam body s).final = s) ∧
      ((putSkills js db idParam langParam body s).reply.status = 400 ∧
        (putSkills js db idParam langParam body s).issued = [] ∧
        (putSkills js db idParam langParam body s).final = s) ∧
      ((putLanguages js db idParam langParam body s).reply.status = 400 ∧
        (putLanguages js db idParam langParam body s).issued = [] ∧
        (putLanguages js db idParam langParam body s).final = s) ∧
      ((putContact js db langParam body s).reply.status = 400 ∧
        (putContact js db langParam body s).issued = [] ∧
        (putContact js db langParam body s).final = s)) ∧
    (validLang langParam = false →
      ((putProjects db idParam langParam body s).reply.status = 400 ∧
        (putProjects db idParam langParam body s).issued = [] ∧
        (putProjects db idParam langParam body s).final = s) ∧
      ((putProfile db langParam body s).reply.status = 400 ∧
        (putProfile db langParam body s).issued = [] ∧
        (putProfile db langParam body s).final = s)) ∧
    (∀ lang : String, validLang lang = true ↔ lang = "en" ∨ lang = "es" ∨ lang = "it") ∧
    (((putExperience js db idParam langParam body s).issued ≠ [] ∨
        (putEducation js db idParam langParam body s).issued ≠ [] ∨
        (putSkills js db idParam langParam body s).issued ≠ [] ∨
        (putLanguages js db idParam langParam body s).issued ≠ [] ∨
        (putContact js db langParam body s).issued ≠ []) →
      js.toLowerCase langParam ∈ ["en", "es", "it"]) ∧
    (((putProjects db idParam langParam body s).issued ≠ [] ∨
        (putProfile db langParam body s).issued ≠ []) →
      langParam ∈ ["en", "es", "it"]) := by
  have hlow : validLang (js.toLowerCase langParam) = false →
      (putExperience js db idParam langParam body s).issued = [] ∧
      (putEducation js db idParam langParam body s).issued = [] ∧
      (putSkills js db idParam langParam body s).issued = [] ∧
      (putLanguages js db idParam langParam body s).issued = [] ∧
      (putContact js db langParam body s).issued = [] := by
    intro h
    simp [putExperience, putEducation, putSkills, putLanguages, putContact, h]
  have hraw : validLang langParam = false →
      (putProjects db idParam langParam body s).issued = [] ∧
      (putProfile db langParam body s).issued = [] := by
    intro h
    simp [putProjects, putProfile, h]
  refine ⟨fun h => ?_, fun h => ?_, fun lang => ?_, fun h => ?_, fun h => ?_⟩
  · simp [putExperience, putEducation, putSkills, putLanguages, putContact, h,
      invalidLangReply, errorReply]
  · simp [putProjects, putProfile, h, invalidLangReply, errorReply]
  · simp [validLang]
  · cases hv : validLang (js.toLowerCase langParam) with
    | true => simpa [validLang] using hv
    | false =>
      obtain ⟨h1, h2, h3, h4, h5⟩ := hlow hv
      rcases h with h | h | h | h | h
      · exact absurd h1 h
      · exact absurd h2 h
      · exact absurd h3 h
      · exact absurd h4 h
      · exact absurd h5 h
  · cases hv : validLang langParam with
    | true => simpa [validLang] using hv
    | false =>
      obtain ⟨h1, h2⟩ := hraw hv
      rcases h with h | h
      · exact absurd h1 h
      · exact absurd h2 h

/-- C8 at the language `fr`, and at `EN` for the two handlers that do not lower-case. -/
theorem invalid_lang_rejected_witness :
    ((putExperience refBuiltins presentStore "3" "fr" [("company", .str "Acme")] ()).reply.status
        = 400 ∧
      (putExperience refBuiltins presentStore "3" "fr" [("company", .str "Acme")] ()).issued
        = []) ∧
    ((putProjects presentStore "3" "EN" [("name", .str "Site")] ()).reply.status = 400 ∧
      (putProjects presentStore "3" "EN" [("name", .str "Site")] ()).issued = []) :=
  ⟨⟨((invalid_lang_rejected refBuiltins presentStore "3" "fr" [("company", .str "Acme")]
        ()).1 (by decide)).1.1,
    ((invalid_lang_rejected refBuiltins presentStore "3" "fr" [("company", .str "Acme")]
        ()).1 (by decide)).1.2.1⟩,
   ⟨((invalid_lang_rejected refBuiltins presentStore "3" "EN" [("name", .str "Site")]
        ()).2.1 (by decide)).1.1,
    ((invalid_lang_rejected refBuiltins presentStore "3" "EN" [("name", .str "Site")]
        ()).2.1 (by decide)).1.2.1⟩⟩

/-! ## C9: the dictionary view and its fallback to English -/

theorem Obj.get_write (o : Obj) (k key : String) (v : Val) (hk : k ≠ "__proto__") :
    (o.write k v).get key = if k = key then v else o.get key := by
  unfold Obj.write
  rw [if_neg hk, Obj.get_set]

theorem literalGet_of_not_inherited (row : Obj) (lang : String)
    (h : inheritedGet lang = .undefined) : literalGet row lang = row.get lang := by
  unfold literalGet
  split
  · rfl
  · rename_i hown
    rw [h]
    symm
    apply Obj.get_of_not_mem
    intro kv hkv heq
    exact hown (List.any_eq_true.mpr ⟨kv, hkv, by simp [heq]⟩)

theorem literalGet_of_text (row : Obj) (lang : String)
    (h : (literalGet row lang).isTextOrAbsent = true) : literalGet row lang = row.get lang := by
  by_cases hinh : inheritedGet lang = .undefined
  · exact literalGet_of_not_inherited row lang hinh
  · unfold literalGet at h ⊢
    split
    · rfl
    · rename_i hown
      rw [if_neg hown] at h
      unfold inheritedGet at h hinh
      split at h
      · exact absurd h (by simp [Val.isTextOrAbsent])
      · split at h
        · exact absurd h (by simp [Val.isTextOrAbsent])
        · rename_i h1 h2
          rw [if_neg h1, if_neg h2] at hinh
          exact absurd rfl hinh

theorem or_eq_dictionaryText (row : Obj) (lang : String)
    (h : (literalGet row lang).isTextOrAbsent = true) :
    (literalGet row lang).or (row.get "en") = dictionaryText row lang := by
  have hget := literalGet_of_text row lang h
  rw [hget] at h ⊢
  unfold dictionaryText Val.or
  cases hv : row.get lang with
  | undefined => simp [Val.truthy]
  | null => simp [Val.truthy]
  | str t => by_cases ht : t = "" <;> simp [Val.truthy, ht]
  | bool b => rw [hv] at h; exact absurd h (by simp [Val.isTextOrAbsent])
  | num n => rw [hv] at h; exact absurd h (by simp [Val.isTextOrAbsent])
  | nan => rw [hv] at h; exact absurd h (by simp [Val.isTextOrAbsent])
  | composite t => rw [hv] at h; exact absurd h (by simp [Val.isTextOrAbsent])

theorem buildDictionary_get_of_not_mem (rows : List Obj) (lang key : String) (init : Obj)
    (h : ∀ row ∈ rows, (row.get "key").toJsString ≠ key) :
    (rows.foldl (fun dictionary item =>
      dictionary.write (item.get "key").toJsString
        ((literalGet item lang).or (item.get "en")))
      init).get key = init.get key := by
  induction rows generalizing init with
  | nil => rfl
  | cons r rest ih =>
    rw [List.foldl_cons, ih _ (fun row hrow => h row (by simp [hrow]))]
    by_cases hp : (r.get "key").toJsString = "__proto__"
    · unfold Obj.write
      rw [if_pos hp]
    · rw [Obj.get_write _ _ _ _ hp, if_neg (h r (by simp))]

theorem buildDictionary_get_of_mem (rows : List Obj) (lang : String) (init : Obj)
    (hkeys : (rows.map fun r => (r.get "key").toJsString).Nodup) (row : Obj)
    (hrow : row ∈ rows) (hp : (row.get "key").toJsString ≠ "__proto__") :
    (rows.foldl (fun dictionary item =>
      dictionary.write (item.get "key").toJsString
        ((literalGet item lang).or (item.get "en")))
      init).get (row.get "key").toJsString = (literalGet row lang).or (row.get "en") := by
  induction rows generalizing init with
  | nil => simp at hrow
  | cons r rest ih =>
    rw [List.map_cons, List.nodup_cons] at hkeys
    rw [List.foldl_cons]
    rcases List.mem_cons.mp hrow with h | h
    · subst h
      rw [buildDictionary_get_of_not_mem, Obj.get_write _ _ _ _ hp, if_pos rfl]
      intro other hother heq
      exact hkeys.1 (List.mem_map.mpr ⟨other, hother, heq⟩)
    · exact ih _ hkeys.2 h

/-- The dictionary view at a name that every object inherits: `row["constructor"]` is the
function `Object`, which is truthy, so it is the text of the entry and the `en` text is not
used; and a dictionary row whose key is `__proto__` gives the `dictionary` object of `GET /cv`
no property. -/
theorem dictionary_view_reads_inherited :
    filterByLanguage [[("key", .str "greeting"), ("en", .str "Hello")]] "constructor" true =
      [[("key", .str "greeting"),
        ("text", .composite "function Object() \x7b [native code] \x7d")]] ∧
    buildDictionary [[("key", .str "__proto__"), ("en", .str "Hello")]] "en" = [] :=
  ⟨rfl, rfl⟩

/-- C9. In dictionary mode `filterByLanguage` returns, for each row in input order, the object
`{key: row.key, text: t}` where `t` is the value of the language column when it is a
non-empty text and the `en` value when the language column is empty (`""`, `null`) or absent;
in particular a row that has no column for the language gets its `en` text. For rows with
distinct keys, the `dictionary` object of `GET /cv` maps the key of each row to the text
chosen by the same rule. Here `row[lang]` is what the code reads, an inherited property
included, and it is text or nothing: this holds for the languages `en`, `es`, `it` whenever
the language columns hold text or nothing, and for any `lang` that is not the name of a
property every object inherits; the key of a dictionary row is not `__proto__`. -/
theorem dictionary_view_falls_back_to_en (rows : List Obj) (lang : String)
    (htext : ∀ row ∈ rows, (literalGet row lang).isTextOrAbsent = true) :
    filterByLanguage rows lang true =
      rows.map (fun row => [("key", row.get "key"), ("text", dictionaryText row lang)]) ∧
    (∀ row ∈ rows, row.get lang = .undefined → dictionaryText row lang = row.get "en") ∧
    (∀ row ∈ rows, ∀ t : String, row.get lang = .str t → t ≠ "" →
      dictionaryText row lang = .str t) ∧
    ((rows.map fun r => (r.get "key").toJsString).Nodup →
      ∀ row ∈ rows, (row.get "key").toJsString ≠ "__proto__" →
        (buildDictionary rows lang).get (row.get "key").toJsString =
          dictionaryText row lang) ∧
    (validLang lang = true → ∀ row : Obj, literalGet row lang = row.get lang) := by
  refine ⟨?_, ?_, ?_, ?_, ?_⟩
  · unfold filterByLanguage
    apply List.map_congr_left
    intro row hrow
    simp [or_eq_dictionaryText row lang (htext row hrow)]
  · intro row _ h
    simp [dictionaryText, h]
  · intro row _ t h ht
    simp [dictionaryText, h, ht]
  · intro hkeys row hrow hp
    unfold buildDictionary
    rw [buildDictionary_get_of_mem rows lang [] hkeys row hrow hp,
      or_eq_dictionaryText row lang (htext row hrow)]
  · intro hlang row
    apply literalGet_of_not_inherited
    rcases validLang_cases lang hlang with h | h | h <;> subst h <;> rfl

/-- C9 at a dictionary with the key `greeting` present only in `en` and the key `bye` present
in `en` and `es`, requested in `es`. -/
theorem dictionary_view_falls_back_to_en_witness :
    filterByLanguage
        [[("key", .str "greeting"), ("en", .str "Hello")],
         [("key", .str "bye"), ("en", .str "Bye"), ("es", .str "Adiós")]] "es" true =
      [[("key", .str "greeting"), ("text", .str "Hello")],
       [("key", .str "bye"), ("text", .str "Adiós")]] ∧
    (buildDictionary
        [[("key", .str "greeting"), ("en", .str "Hello")],
         [("key", .str "bye"), ("en", .str "Bye"), ("es", .str "Adiós")]] "es").get
        "greeting" = .str "Hello" :=
  ⟨(dictionary_view_falls_back_to_en
      [[("key", .str "greeting"), ("en", .str "Hello")],
       [("key", .str "bye"), ("en", .str "Bye"), ("es", .str "Adiós")]] "es"
      (by decide)).1,
   (dictionary_view_falls_back_to_en
      [[("key", .str "greeting"), ("en", .str "Hello")],
       [("key", .str "bye"), ("en", .str "Bye"), ("es", .str "Adiós")]] "es"
      (by decide)).2.2.2.1 (by decide) [("key", .str "greeting"), ("en", .str "Hello")]
      (by decide) (by decide)⟩

/-! ## C10: the per-language view of a row -/

/-- C10, what the code does on the row `{id: 1, date_end_en: "2020", date_end_es: "2019"}`
for the language `en`: the key `date_end_en` ends in `_en`, and `replace` removes the first
occurrence of `_en` (inside `_end`), not the trailing one; the result has the key `dated_en`
where stripping the suffix gives `date_end`. -/
theorem filterByLanguage_removes_first_occurrence :
    filterByLanguage
        [[("id", .num 1), ("date_end_en", .str "2020"), ("date_end_es", .str "2019")]]
        "en" false =
      [[("dated_en", .str "2020")]] ∧
    replaceFirstWithEmpty "date_end_en" "_en" ≠ "date_end" := by
  decide

/-! ## C11: migrate-expenses moves the pending rows of the previous month -/

theorem Obj.set_set (o : Obj) (k : String) (v w : Val) : (o.set k v).set k w = o.set k w := by
  induction o with
  | nil => simp [Obj.set]
  | cons kv rest ih =>
    obtain ⟨k0, x⟩ := kv
    by_cases h : k0 = k
    · simp [Obj.set, h]
    · simp [Obj.set, h, ih]

theorem isPending_set (e : SqlEngine) (row : Obj) (v : Val) :
    isPending e (row.set "month_year" v) = isPending e row := by
  unfold isPending
  rw [Obj.get_set, if_neg (by decide)]

theorem movePending_idem (e : SqlEngine) (old new : String) (rows : List Obj) :
    movePending e old new (movePending e old new rows) = movePending e old new rows := by
  unfold movePending
  rw [List.map_map]
  apply List.map_congr_left
  intro row _
  simp only [Function.comp]
  by_cases h : pendingIn e (.str old) row = true
  · rw [if_pos h]
    by_cases h2 : pendingIn e (.str old) (row.set "month_year" (.str new)) = true
    · rw [if_pos h2, Obj.set_set]
    · rw [if_neg h2]
  · rw [if_neg h, if_neg h]

theorem movePending_of_none (e : SqlEngine) (old new : String) (rows : List Obj)
    (h : ∀ row ∈ rows, pendingIn e (.str old) row = false) :
    movePending e old new rows = rows := by
  unfold movePending
  conv => rhs; rw [← List.map_id rows]
  apply List.map_congr_left
  intro row hrow
  simp [h row hrow]

theorem sqlStore_select_pending (e : SqlEngine) (t : Tables) (key : Val) :
    (sqlStore e).query t
        ⟨"SELECT * FROM expenses WHERE month_year = $1 AND LOWER(status) = 'pending'", [key]⟩ =
      (some (rowsResult (t.expenses.filter (pendingIn e key))), t) := rfl

theorem sqlStore_update_pending (e : SqlEngine) (t : Tables) (old new : String) :
    (sqlStore e).query t
        ⟨"UPDATE expenses\n                 SET month_year = $1\n                 WHERE month_year = $2 AND LOWER(status) = 'pending'",
         [.str new, .str old]⟩ =
      (some (countResult (t.expenses.filter (pendingIn e (.str old))).length),
       { t with expenses := movePending e old new t.expenses }) := rfl

theorem migrateLoop_sqlStore (e : SqlEngine) (old new : String) (rows : List Obj)
    (t : Tables) (log : List Stmt) (k : Tables → List Stmt → Outcome Tables) :
    migrateLoop (sqlStore e)
        ⟨"UPDATE expenses\n                 SET month_year = $1\n                 WHERE month_year = $2 AND LOWER(status) = 'pending'",
         [.str new, .str old]⟩ rows
        { t with expenses := movePending e old new t.expenses } log k =
      k { t with expenses := movePending e old new t.expenses }
        (log ++ List.replicate rows.length
          ⟨"UPDATE expenses\n                 SET month_year = $1\n                 WHERE month_year = $2 AND LOWER(status) = 'pending'",
           [.str new, .str old]⟩) := by
  induction rows generalizing log with
  | nil => simp [migrateLoop]
  | cons r rest ih =>
    rw [migrateLoop, awaitQuery_of_some _ _ _ _ _ _ _ _ (sqlStore_update_pending e _ old new)]
    simp only [movePending_idem]
    rw [ih]
    simp [List.replicate_succ]

/-- The migrate-expenses handler on the relational store, for a month the handler accepts. -/
theorem postMigrateExpenses_sqlStore (js : Builtins) (e : SqlEngine) (month year : String)
    (t : Tables)
    (hm : (literalGet monthMapping (js.toLowerCase month)).truthy = true) :
    postMigrateExpenses js (sqlStore e) month year t =
      if t.expenses.filter (pendingIn e (.str (previousMonthYearKey js year
          (literalGet monthMapping (js.toLowerCase month))))) = [] then
        ⟨⟨200, [("message", .text "✅ No hay gastos pendientes para trasladar.")]⟩,
         [⟨"SELECT * FROM expenses WHERE month_year = $1 AND LOWER(status) = 'pending'",
           [.str (previousMonthYearKey js year
              (literalGet monthMapping (js.toLowerCase month)))]⟩], t⟩
      else
        ⟨⟨200, [("message", .text ("✅ Gastos pendientes trasladados de " ++
            previousMonthYearKey js year (literalGet monthMapping (js.toLowerCase month)) ++
            " a " ++
            currentMonthYearKey year (literalGet monthMapping (js.toLowerCase month)) ++
            "."))]⟩,
         ⟨"SELECT * FROM expenses WHERE month_year = $1 AND LOWER(status) = 'pending'",
           [.str (previousMonthYearKey js year
              (literalGet monthMapping (js.toLowerCase month)))]⟩ ::
          List.replicate (t.expenses.filter (pendingIn e (.str (previousMonthYearKey js year
              (literalGet monthMapping (js.toLowerCase month)))))).length
            ⟨"UPDATE expenses\n                 SET month_year = $1\n                 WHERE month_year = $2 AND LOWER(status) = 'pending'",
             [.str (currentMonthYearKey year (literalGet monthMapping (js.toLowerCase month))),
              .str (previousMonthYearKey js year
                (literalGet monthMapping (js.toLowerCase month)))]⟩,
         ⟨movePending e
            (previousMonthYearKey js year (literalGet monthMapping (js.toLowerCase month)))
            (currentMonthYearKey year (literalGet monthMapping (js.toLowerCase month)))
            t.expenses, t.income⟩⟩ := by
  simp only [postMigrateExpenses, hm, Bool.not_true, Bool.false_eq_true, if_false,
    awaitQuery_of_some _ _ _ _ _ _ _ _ (sqlStore_select_pending e t _), rowsResult,
    List.nil_append]
  cases hf : t.expenses.filter (pendingIn e (.str (previousMonthYearKey js year
      (literalGet monthMapping (js.toLowerCase month))))) with
  | nil => simp
  | cons r rest =>
    simp only [List.length_cons, Nat.add_one_ne_zero, beq_iff_eq, if_false, reduceCtorEq]
    rw [migrateLoop, awaitQuery_of_some _ _ _ _ _ _ _ _ (sqlStore_update_pending e _ _ _),
      migrateLoop_sqlStore]
    simp [List.replicate_succ]

theorem migrate_expenses_first (js : Builtins) (e : SqlEngine) (month year : String)
    (t : Tables)
    (hm : (literalGet monthMapping (js.toLowerCase month)).truthy = true) :
    (postMigrateExpenses js (sqlStore e) month year t).final.expenses =
      movePending e (previousMonthYearKey js year
          (literalGet monthMapping (js.toLowerCase month)))
        (currentMonthYearKey year (literalGet monthMapping (js.toLowerCase month)))
        t.expenses := by
  rw [postMigrateExpenses_sqlStore js e month year t hm]
  split
  · rename_i h0
    rw [movePending_of_none]
    intro row hrow
    have := List.filter_eq_nil_iff.mp h0 row hrow
    simpa using this
  · rfl

/-- C11. On the relational store, for a month the handler accepts and any year,
migrate-expenses leaves the expenses table with the same rows in the same order, where
exactly the rows of the previous-month key whose status is `pending` in any letter case have
`month_year` replaced by the current key (every other column of a moved row keeps its value);
the income table is unchanged, the number of rows is unchanged and the reply is 200. When no
row of the previous month is pending, no row is altered, only the SELECT is sent, and the
reply is the message that there are no pending expenses. -/
theorem migrate_expenses_moves_pending (js : Builtins) (e : SqlEngine) (month year : String)
    (t : Tables)
    (hm : (literalGet monthMapping (js.toLowerCase month)).truthy = true) :
    (postMigrateExpenses js (sqlStore e) month year t).final.expenses =
      t.expenses.map (fun row =>
        if sqlEq (row.get "month_year") (.str (previousMonthYearKey js year
              (literalGet monthMapping (js.toLowerCase month)))) && isPending e row then
          row.set "month_year"
            (.str (currentMonthYearKey year (literalGet monthMapping (js.toLowerCase month))))
        else row) ∧
    (postMigrateExpenses js (sqlStore e) month year t).final.income = t.income ∧
    (postMigrateExpenses js (sqlStore e) month year t).final.expenses.length =
      t.expenses.length ∧
    (postMigrateExpenses js (sqlStore e) month year t).reply.status = 200 ∧
    ((∀ row ∈ t.expenses, (sqlEq (row.get "month_year") (.str (previousMonthYearKey js year
          (literalGet monthMapping (js.toLowerCase month)))) && isPending e row) = false) →
      (postMigrateExpenses js (sqlStore e) month year t).final = t ∧
      (postMigrateExpenses js (sqlStore e) month year t).reply =
        ⟨200, [("message", .text "✅ No hay gastos pendientes para trasladar.")]⟩ ∧
      (postMigrateExpenses js (sqlStore e) month year t).issued.length = 1) ∧
    (∀ (row : Obj) (v : Val) (column : String), column ≠ "month_year" →
      (row.set "month_year" v).get column = row.get column) := by
  have hmain : (postMigrateExpenses js (sqlStore e) month year t).final.expenses =
      movePending e (previousMonthYearKey js year
          (literalGet monthMapping (js.toLowerCase month)))
        (currentMonthYearKey year (literalGet monthMapping (js.toLowerCase month)))
        t.expenses := by
    rw [postMigrateExpenses_sqlStore js e month year t hm]
    split
    · rename_i h0
      rw [movePending_of_none]
      intro row hrow
      have := List.filter_eq_nil_iff.mp h0 row hrow
      simpa using this
    · rfl
  refine ⟨hmain, ?_, ?_, ?_, ?_, ?_⟩
  · rw [postMigrateExpenses_sqlStore js e month year t hm]
    split <;> rfl
  · rw [hmain]
    simp [movePending]
  · rw [postMigrateExpenses_sqlStore js e month year t hm]
    split <;> rfl
  · intro hnone
    have h0 : t.expenses.filter (pendingIn e (.str (previousMonthYearKey js year
        (literalGet monthMapping (js.toLowerCase month))))) = [] := by
      rw [List.filter_eq_nil_iff]
      intro row hrow
      have := hnone row hrow
      simpa [pendingIn] using this
    rw [postMigrateExpenses_sqlStore js e month year t hm, if_pos h0]
    exact ⟨rfl, rfl, rfl⟩
  · intro row v column hc
    rw [Obj.get_set, if_neg (fun h => hc h.symm)]

/-- C11 at `POST /finance/Marzo/2025/migrate-expenses` on a table with one row of February
2025 with status `Pending`, one paid row of February and one pending row of January. -/
theorem migrate_expenses_moves_pending_witness :
    (postMigrateExpenses refBuiltins (sqlStore refEngine) "Marzo" "2025"
      ⟨[[("name", .str "rent"), ("status", .str "Pending"), ("month_year", .str "2025-02")],
        [("name", .str "gym"), ("status", .str "paid"), ("month_year", .str "2025-02")],
        [("name", .str "car"), ("status", .str "pending"), ("month_year", .str "2025-01")]],
       []⟩).final.expenses =
      [[("name", .str "rent"), ("status", .str "Pending"), ("month_year", .str "2025-03")],
       [("name", .str "gym"), ("status", .str "paid"), ("month_year", .str "2025-02")],
       [("name", .str "car"), ("status", .str "pending"), ("month_year", .str "2025-01")]] :=
  (migrate_expenses_moves_pending refBuiltins refEngine "Marzo" "2025"
    ⟨[[("name", .str "rent"), ("status", .str "Pending"), ("month_year", .str "2025-02")],
      [("name", .str "gym"), ("status", .str "paid"), ("month_year", .str "2025-02")],
      [("name", .str "car"), ("status", .str "pending"), ("month_year", .str "2025-01")]],
     []⟩ (by decide)).1

/-! ## C13: the keys of the previous and of the requested month -/

theorem append_ne_of_suffix_ne (a b x y : String) (hlen : x.data.length = y.data.length)
    (hne : x ≠ y) : a ++ x ≠ b ++ y := by
  intro h
  have hd : a.data ++ x.data = b.data ++ y.data := by
    have := congrArg String.data h
    simpa [String.data_append] using this
  exact hne (String.ext (List.append_inj' hd hlen).2)

theorem previousMonthYearKey_eq (js : Builtins) (year : String) (m : Nat)
    (h1 : 1 ≤ m) (h12 : m ≤ 12) (hp : js.parseInt (twoDigits m) = .num m) :
    previousMonthYearKey js year (.str (twoDigits m)) =
      if m = 1 then (js.parseInt year).minusOne.toJsString ++ "-" ++ "12"
      else (js.parseInt year).toJsString ++ "-" ++ twoDigits (m - 1) := by
  unfold previousMonthYearKey
  simp only [Val.toJsString, hp]
  interval_cases m <;> simp [Val.minusOne, Val.toJsString] <;> rfl

theorem keys_distinct (js : Builtins) (year : String) (m : Nat)
    (h1 : 1 ≤ m) (h12 : m ≤ 12) (hp : js.parseInt (twoDigits m) = .num m) :
    previousMonthYearKey js year (.str (twoDigits m)) ≠
      currentMonthYearKey year (.str (twoDigits m)) := by
  rw [previousMonthYearKey_eq js year m h1 h12 hp]
  unfold currentMonthYearKey
  simp only [Val.toJsString]
  interval_cases m <;> simp only [if_true, if_false, Nat.reduceEqDiff, OfNat.ofNat_ne_one,
    Nat.reduceSub] <;> apply append_ne_of_suffix_ne <;> decide

theorem migrateLoop_issued {σ : Type} (db : Store σ) (update : Stmt) (rows : List Obj)
    (s : σ) (log : List Stmt) (ok : Reply) (x : Stmt)
    (hx : x ∈ (migrateLoop db update rows s log fun s2 log2 => ⟨ok, log2, s2⟩).issued) :
    x ∈ log ∨ x = update := by
  induction rows generalizing s log with
  | nil => left; simpa [migrateLoop] using hx
  | cons r rest ih =>
    rw [migrateLoop] at hx
    unfold awaitQuery at hx
    rcases hq : db.query s update with ⟨res, s1⟩
    rw [hq] at hx
    cases res with
    | none =>
      simp only [List.mem_append, List.mem_singleton] at hx
      exact hx
    | some r1 =>
      simp only at hx
      rcases ih s1 (log ++ [update]) hx with h | h
      · simpa using h
      · right; exact h

/-- C13. In migrate-expenses, for a month whose number `m` is in 1..12 (every entry of the
month table is one) and a year parameter that is the numeral of `y`: the source key is
`y-(m-1)` with the month padded to two digits when `m > 1`, and `(y-1)-12` when `m = 1`; the
destination key is `y-m` with the month padded to two digits; the source month is in 01..12;
the two keys differ (for any year parameter); and whatever the store, the statements the
handler sends are the SELECT on the source key and the UPDATE from the source key to the
destination key. -/
theorem migration_keys {σ : Type} (js : Builtins) (db : Store σ) (month year : String)
    (s : σ) (y : Int) (m : Nat)
    (h1 : 1 ≤ m) (h12 : m ≤ 12)
    (hm : literalGet monthMapping (js.toLowerCase month) = .str (twoDigits m))
    (hp : js.parseInt (twoDigits m) = .num m)
    (hy : js.parseInt year = .num y) (hyear : year = toString y) :
    previousMonthYearKey js year (.str (twoDigits m)) =
      (if m = 1 then toString (y - 1) ++ "-" ++ "12"
       else toString y ++ "-" ++ twoDigits (m - 1)) ∧
    currentMonthYearKey year (.str (twoDigits m)) = toString y ++ "-" ++ twoDigits m ∧
    (if m = 1 then 12 else m - 1) ∈ List.range' 1 12 ∧
    previousMonthYearKey js year (.str (twoDigits m)) ≠
      currentMonthYearKey year (.str (twoDigits m)) ∧
    (∀ kv ∈ monthMapping, kv.2 ∈ (List.range' 1 12).map fun k => Val.str (twoDigits k)) ∧
    (∀ x ∈ (postMigrateExpenses js db month year s).issued,
      x = ⟨"SELECT * FROM expenses WHERE month_year = $1 AND LOWER(status) = 'pending'",
            [.str (previousMonthYearKey js year (.str (twoDigits m)))]⟩ ∨
      x = ⟨"UPDATE expenses\n                 SET month_year = $1\n                 WHERE month_year = $2 AND LOWER(status) = 'pending'",
            [.str (currentMonthYearKey year (.str (twoDigits m))),
             .str (previousMonthYearKey js year (.str (twoDigits m)))]⟩) := by
  refine ⟨?_, ?_, ?_, keys_distinct js year m h1 h12 hp, by decide, ?_⟩
  · rw [previousMonthYearKey_eq js year m h1 h12 hp, hy]
    rfl
  · rw [hyear]
    rfl
  · interval_cases m <;> decide
  · intro x hx
    have ht : (Val.str (twoDigits m)).truthy = true := by
      interval_cases m <;> decide
    simp only [postMigrateExpenses, hm, ht, Bool.not_true, Bool.false_eq_true, if_false] at hx
    unfold awaitQuery at hx
    rcases hq : db.query s _ with ⟨res, s1⟩
    rw [hq] at hx
    cases res with
    | none => left; simpa using hx
    | some r =>
      simp only [List.nil_append] at hx
      split at hx
      · left; simpa using hx
      · rcases migrateLoop_issued _ _ _ _ _ _ _ hx with h | h
        · left; simpa using h
        · right; exact h

/-- C13 at `POST /finance/january/2025/migrate-expenses`: the source key is `2024-12` and the
destination key `2025-01`. -/
theorem migration_keys_witness :
    previousMonthYearKey refBuiltins "2025" (.str "01") = "2024-12" ∧
    currentMonthYearKey "2025" (.str "01") = "2025-01" :=
  ⟨(migration_keys refBuiltins presentStore "january" "2025" () 2025 1 (by decide)
      (by decide) (by decide) (by decide) (by decide) (by decide)).1,
   (migration_keys refBuiltins presentStore "january" "2025" () 2025 1 (by decide)
      (by decide) (by decide) (by decide) (by decide) (by decide)).2.1⟩

/-! ## C12: running migrate-expenses twice -/

theorem no_pending_after_move (e : SqlEngine) (old new : String) (rows : List Obj)
    (hne : old ≠ new) :
    (movePending e old new rows).filter (pendingIn e (.str old)) = [] := by
  rw [List.filter_eq_nil_iff]
  intro row hrow
  simp only [movePending, List.mem_map] at hrow
  obtain ⟨r, _, hr⟩ := hrow
  by_cases h : pendingIn e (.str old) r = true
  · rw [if_pos h] at hr
    subst hr
    have hne2 : ¬ new = old := fun h => hne h.symm
    simp [pendingIn, sqlEq, Obj.get_set, hne2]
  · rw [if_neg h] at hr
    subst hr
    exact h

/-- C12. On the relational store, for a month of the table with number in 1..12, a first run
of migrate-expenses leaves no row of the previous month with a status `pending` in any letter
case; a second run for the same month and year then finds no pending row: it sends only the
SELECT, replies that there are no pending expenses, and leaves the tables exactly as the
first run left them. -/
theorem migrate_expenses_twice (js : Builtins) (e : SqlEngine) (month year : String)
    (t : Tables) (m : Nat) (h1 : 1 ≤ m) (h12 : m ≤ 12)
    (hm : literalGet monthMapping (js.toLowerCase month) = .str (twoDigits m))
    (hp : js.parseInt (twoDigits m) = .num m) :
    (∀ row ∈ (postMigrateExpenses js (sqlStore e) month year t).final.expenses,
      (sqlEq (row.get "month_year") (.str (previousMonthYearKey js year (.str (twoDigits m))))
        && isPending e row) = false) ∧
    (postMigrateExpenses js (sqlStore e) month year
        (postMigrateExpenses js (sqlStore e) month year t).final).final =
      (postMigrateExpenses js (sqlStore e) month year t).final ∧
    (postMigrateExpenses js (sqlStore e) month year
        (postMigrateExpenses js (sqlStore e) month year t).final).reply =
      ⟨200, [("message", .text "✅ No hay gastos pendientes para trasladar.")]⟩ ∧
    (postMigrateExpenses js (sqlStore e) month year
        (postMigrateExpenses js (sqlStore e) month year t).final).issued =
      [⟨"SELECT * FROM expenses WHERE month_year = $1 AND LOWER(status) = 'pending'",
        [.str (previousMonthYearKey js year (.str (twoDigits m)))]⟩] := by
  have ht : (literalGet monthMapping (js.toLowerCase month)).truthy = true := by
    rw [hm]
    interval_cases m <;> decide
  have hne := keys_distinct js year m h1 h12 hp
  have hfirst : (postMigrateExpenses js (sqlStore e) month year t).final.expenses =
      movePending e (previousMonthYearKey js year (.str (twoDigits m)))
        (currentMonthYearKey year (.str (twoDigits m))) t.expenses := by
    have := (migrate_expenses_first js e month year t ht)
    rw [hm] at this
    exact this
  have hnone : (postMigrateExpenses js (sqlStore e) month year t).final.expenses.filter
      (pendingIn e (.str (previousMonthYearKey js year (.str (twoDigits m))))) = [] := by
    rw [hfirst]
    exact no_pending_after_move e _ _ _ hne
  refine ⟨?_, ?_, ?_, ?_⟩
  · intro row hrow
    have := List.filter_eq_nil_iff.mp hnone row hrow
    simpa [pendingIn] using this
  all_goals
    rw [postMigrateExpenses_sqlStore js e month year _ ht, hm, if_pos hnone]

/-- C12 at two runs of `POST /finance/Marzo/2025/migrate-expenses` on a table with a pending
row of February 2025. -/
theorem migrate_expenses_twice_witness :
    (postMigrateExpenses refBuiltins (sqlStore refEngine) "Marzo" "2025"
        (postMigrateExpenses refBuiltins (sqlStore refEngine) "Marzo" "2025"
          ⟨[[("name", .str "rent"), ("status", .str "Pending"),
             ("month_year", .str "2025-02")]], []⟩).final).final =
      (postMigrateExpenses refBuiltins (sqlStore refEngine) "Marzo" "2025"
        ⟨[[("name", .str "rent"), ("status", .str "Pending"),
           ("month_year", .str "2025-02")]], []⟩).final :=
  (migrate_expenses_twice refBuiltins refEngine "Marzo" "2025"
    ⟨[[("name", .str "rent"), ("status", .str "Pending"), ("month_year", .str "2025-02")]],
     []⟩ 3 (by decide) (by decide) (by decide) (by decide)).2.1

/-! ## C14: the month names migrate-expenses accepts -/

/-- C14, what the code does with the Spanish name of December. The month table of
migrate-expenses has no entry `diciembre`: of the 36 names of the twelve months in Spanish,
Italian and English it maps every name to the number of its month except `diciembre`. A
request whose month lower-cases to `diciembre` is answered 400 and nothing is sent to the
store. (And a month string that is no month name at all, `constructor`, is not rejected: the
lookup finds the property every object inherits.) -/
theorem diciembre_is_rejected {σ : Type} (js : Builtins) (db : Store σ)
    (month year : String) (s : σ) (hm : js.toLowerCase month = "diciembre") :
    (postMigrateExpenses js db month year s).reply =
      errorReply 400 "❌ Mes inválido en la solicitud." ∧
    (postMigrateExpenses js db month year s).issued = [] ∧
    calendarNames.filter (fun p => decide (literalGet monthMapping p.1 ≠ .str (twoDigits p.2)))
      = [("diciembre", 12)] ∧
    (literalGet monthMapping "constructor").truthy = true := by
  refine ⟨?_, ?_, by decide, by decide⟩
  · simp only [postMigrateExpenses, hm]
    rfl
  · simp only [postMigrateExpenses, hm]
    rfl

/-- C14 at `POST /finance/Diciembre/2025/migrate-expenses`. -/
theorem diciembre_is_rejected_witness :
    (postMigrateExpenses refBuiltins (sqlStore refEngine) "Diciembre" "2025"
        ⟨[[("name", .str "rent"), ("status", .str "pending"),
           ("month_year", .str "2025-11")]], []⟩).reply =
      errorReply 400 "❌ Mes inválido en la solicitud." :=
  (diciembre_is_rejected refBuiltins (sqlStore refEngine) "Diciembre" "2025"
    ⟨[[("name", .str "rent"), ("status", .str "pending"), ("month_year", .str "2025-11")]],
     []⟩ (by decide)).1

/-! ## C15 and C16: migrate-recurring-expenses -/

theorem sqlStore_select_named (e : SqlEngine) (t : Tables) (name key : Val) :
    (sqlStore e).query t ⟨"SELECT * FROM expenses WHERE name = $1 AND month_year = $2",
        [name, key]⟩ =
      (some (rowsResult (t.expenses.filter fun row =>
        sqlEq (row.get "name") name && sqlEq (row.get "month_year") key)), t) := rfl

theorem sqlStore_insert_recurring (e : SqlEngine) (t : Tables)
    (name amount category currency dateAdded status key : Val) :
    (sqlStore e).query t
        ⟨"INSERT INTO expenses \n             (name, amount, category, currency, date_added, status, month_year) \n             VALUES ($1, $2, $3, $4, $5, $6, $7)",
         [name, amount, category, currency, dateAdded, status, key]⟩ =
      (some (countResult 1),
       ⟨t.expenses ++ [[("name", name), ("amount", amount), ("category", category),
          ("currency", currency), ("date_added", dateAdded), ("status", status),
          ("month_year", key)]], t.income⟩) := rfl

theorem filter_length_eq_zero_iff_not_named (rows : List Obj) (title : Val) (key : String) :
    ((rows.filter fun row =>
        sqlEq (row.get "name") title && sqlEq (row.get "month_year") (.str key)).length == 0)
      = !isNamed rows title key := by
  unfold isNamed
  induction rows with
  | nil => rfl
  | cons r rest ih =>
    by_cases h : (sqlEq (r.get "name") title && sqlEq (r.get "month_year") (.str key)) = true
    · simp [List.filter_cons, h]
    · simp only [Bool.not_eq_true] at h
      simp only [List.filter_cons, h, List.any_cons, Bool.false_or]
      simpa using ih

/-- The loop of migrate-recurring on the relational store: the tables it leaves and the count
it hands to the rest of the handler. -/
theorem recurringLoop_sqlStore (e : SqlEngine) (key today : String) (items : List Obj)
    (n : Nat) (t : Tables) (log : List Stmt) (reply : Nat → Reply) :
    (recurringLoop (sqlStore e) key today items n t log
        fun inserted s1 log1 => ⟨reply inserted, log1, s1⟩).final =
      ⟨t.expenses ++ materialised key today t.expenses items, t.income⟩ ∧
    (recurringLoop (sqlStore e) key today items n t log
        fun inserted s1 log1 => ⟨reply inserted, log1, s1⟩).reply =
      reply (n + (materialised key today t.expenses items).length) := by
  induction items generalizing n t log with
  | nil => simp [recurringLoop, materialised]
  | cons item rest ih =>
    by_cases hc : isComplete item = true
    · have hc' : (!(item.get "title").truthy || !(item.get "amount").truthy ||
          !(item.get "category").truthy || !(item.get "currency").truthy) = false := by
        simp only [isComplete, Bool.and_eq_true] at hc
        simp [hc.1.1.1, hc.1.1.2, hc.1.2, hc.2]
      rw [recurringLoop]
      simp only [hc', Bool.false_eq_true, if_false,
        awaitQuery_of_some _ _ _ _ _ _ _ _ (sqlStore_select_named e t _ _), rowsResult,
        filter_length_eq_zero_iff_not_named]
      by_cases hn : isNamed t.expenses (item.get "title") key = true
      · simp only [hn, Bool.not_true, Bool.false_eq_true, if_false]
        rw [materialised]
        simp only [hc, hn, Bool.not_true, Bool.and_false, Bool.false_eq_true, if_false]
        exact ih n t _
      · simp only [Bool.not_eq_true] at hn
        simp only [hn, Bool.not_false, if_true,
          awaitQuery_of_some _ _ _ _ _ _ _ _ (sqlStore_insert_recurring e t _ _ _ _ _ _ _)]
        rw [materialised]
        simp only [hc, hn, Bool.not_false, Bool.and_true, if_true]
        have := ih (n + 1) ⟨t.expenses ++ [recurringRow key today item], t.income⟩
          (log ++ [⟨"SELECT * FROM expenses WHERE name = $1 AND month_year = $2",
              [item.get "title", .str key]⟩] ++
            [⟨"INSERT INTO expenses \n             (name, amount, category, currency, date_added, status, month_year) \n             VALUES ($1, $2, $3, $4, $5, $6, $7)",
              [item.get "title", item.get "amount", item.get "category",
               item.get "currency", .str today, .str "pending", .str key]⟩])
        refine ⟨?_, ?_⟩
        · rw [show recurringRow key today item = [("name", item.get "title"),
            ("amount", item.get "amount"), ("category", item.get "category"),
            ("currency", item.get "currency"), ("date_added", .str today),
            ("status", .str "pending"), ("month_year", .str key)] from rfl] at this
          rw [this.1]
          simp [recurringRow]
        · rw [show recurringRow key today item = [("name", item.get "title"),
            ("amount", item.get "amount"), ("category", item.get "category"),
            ("currency", item.get "currency"), ("date_added", .str today),
            ("status", .str "pending"), ("month_year", .str key)] from rfl] at this
          rw [this.2]
          simp [recurringRow]
          congr 1
          omega
    · simp only [Bool.not_eq_true] at hc
      have hc' : (!(item.get "title").truthy || !(item.get "amount").truthy ||
          !(item.get "category").truthy || !(item.get "currency").truthy) = true := by
        simp only [isComplete, Bool.and_eq_false_iff] at hc
        rcases hc with ((h | h) | h) | h <;> simp [h]
      rw [recurringLoop]
      simp only [hc', if_true]
      rw [materialised]
      simp only [hc, Bool.false_and, Bool.false_eq_true, if_false]
      exact ih n t log

theorem isNamed_append (rows more : List Obj) (title : Val) (key : String) :
    isNamed (rows ++ more) title key = (isNamed rows title key || isNamed more title key) := by
  simp [isNamed, List.any_append]

theorem sqlEq_self_of_truthy (v : Val) (h : v.truthy = true) : sqlEq v v = true := by
  cases v <;> simp_all [sqlEq, Val.truthy]

theorem isNamed_recurringRow (key today : String) (item : Obj)
    (h : (item.get "title").truthy = true) :
    isNamed [recurringRow key today item] (item.get "title") key = true := by
  have h1 := sqlEq_self_of_truthy _ h
  have h2 : sqlEq (.str key) (.str key) = true := by simp [sqlEq]
  simp only [isNamed, List.any_cons, List.any_nil, Bool.or_false, Bool.and_eq_true]
  exact ⟨h1, h2⟩

theorem title_truthy_of_complete (item : Obj) (h : isComplete item = true) :
    (item.get "title").truthy = true := by
  simp only [isComplete, Bool.and_eq_true] at h
  exact h.1.1.1

/-- Every row added comes from a complete template whose title named no expense of the month
in the table the run started from. -/
theorem materialised_origin (key today : String) (items rows : List Obj) (row : Obj)
    (hrow : row ∈ materialised key today rows items) :
    ∃ item ∈ items, isComplete item = true ∧ isNamed rows (item.get "title") key = false ∧
      row = recurringRow key today item := by
  induction items generalizing rows with
  | nil => simp [materialised] at hrow
  | cons item rest ih =>
    rw [materialised] at hrow
    by_cases hc : (isComplete item && !isNamed rows (item.get "title") key) = true
    · rw [if_pos hc] at hrow
      simp only [Bool.and_eq_true, Bool.not_eq_true'] at hc
      rcases List.mem_cons.mp hrow with h | h
      · exact ⟨item, by simp, hc.1, hc.2, h⟩
      · obtain ⟨it, hit, h1, h2, h3⟩ := ih _ h
        rw [isNamed_append, Bool.or_eq_false_iff] at h2
        exact ⟨it, by simp [hit], h1, h2.1, h3⟩
    · rw [if_neg hc] at hrow
      obtain ⟨it, hit, h1, h2, h3⟩ := ih _ hrow
      exact ⟨it, by simp [hit], h1, h2, h3⟩

/-- After a run, every complete template has an expense of the month with its title. -/
theorem materialised_covers (key today : String) (items rows : List Obj) (item : Obj)
    (hitem : item ∈ items) (hc : isComplete item = true) :
    isNamed (rows ++ materialised key today rows items) (item.get "title") key = true := by
  induction items generalizing rows with
  | nil => simp at hitem
  | cons head rest ih =>
    rw [materialised]
    by_cases hh : (isComplete head && !isNamed rows (head.get "title") key) = true
    · rw [if_pos hh]
      have hsplit : rows ++ recurringRow key today head ::
          materialised key today (rows ++ [recurringRow key today head]) rest =
          (rows ++ [recurringRow key today head]) ++
            materialised key today (rows ++ [recurringRow key today head]) rest := by simp
      rw [hsplit]
      rcases List.mem_cons.mp hitem with h | h
      · subst h
        rw [isNamed_append, isNamed_append,
          isNamed_recurringRow key today item (title_truthy_of_complete item hc)]
        simp
      · exact ih _ h
    · rw [if_neg hh]
      rcases List.mem_cons.mp hitem with h | h
      · subst h
        have hnamed : isNamed rows (item.get "title") key = true := by
          simp only [hc, Bool.true_and, Bool.not_eq_true', Bool.not_eq_false] at hh
          exact hh
        rw [isNamed_append, hnamed]
        rfl
      · exact ih _ h

theorem materialised_nil_of_named (key today : String) (items rows : List Obj)
    (h : ∀ item ∈ items, isComplete item = true → isNamed rows (item.get "title") key = true) :
    materialised key today rows items = [] := by
  induction items with
  | nil => rfl
  | cons head rest ih =>
    rw [materialised]
    have hh : (isComplete head && !isNamed rows (head.get "title") key) = false := by
      by_cases hc : isComplete head = true
      · simp [hc, h head (by simp) hc]
      · simp only [Bool.not_eq_true] at hc
        simp [hc]
    simp only [hh, Bool.false_eq_true, if_false]
    exact ih fun item hitem => h item (by simp [hitem])

theorem name_of_recurringRow (key today : String) (item : Obj) :
    (recurringRow key today item).get "name" = item.get "title" := rfl

/-- The rows added have pairwise different names. -/
theorem materialised_names_nodup (key today : String) (items rows : List Obj) :
    ((materialised key today rows items).map fun row => row.get "name").Nodup := by
  induction items generalizing rows with
  | nil => simp [materialised]
  | cons head rest ih =>
    rw [materialised]
    by_cases hh : (isComplete head && !isNamed rows (head.get "title") key) = true
    · rw [if_pos hh, List.map_cons, List.nodup_cons]
      refine ⟨?_, ih _⟩
      intro hmem
      obtain ⟨row, hrow, hname⟩ := List.mem_map.mp hmem
      obtain ⟨it, _, _, hnot, hr⟩ := materialised_origin key today rest _ row hrow
      rw [hr, name_of_recurringRow, name_of_recurringRow] at hname
      rw [hname, isNamed_append, Bool.or_eq_false_iff] at hnot
      simp only [Bool.and_eq_true] at hh
      rw [isNamed_recurringRow key today head (title_truthy_of_complete head hh.1)] at hnot
      exact Bool.noConfusion hnot.2
    · rw [if_neg hh]
      exact ih _

theorem postMigrateRecurring_sqlStore (e : SqlEngine) (now : Clock) (items : List Obj)
    (t : Tables) :
    (postMigrateRecurring (sqlStore e) now (some items) t).final =
      ⟨t.expenses ++ materialised now.monthYearKey now.isoDate t.expenses items, t.income⟩ ∧
    (postMigrateRecurring (sqlStore e) now (some items) t).reply =
      ⟨200, [("message", .text "🧾 Migración completa"),
        ("inserted", .val (.num ((materialised now.monthYearKey now.isoDate t.expenses
          items).length : Nat)))]⟩ := by
  have := recurringLoop_sqlStore e now.monthYearKey now.isoDate items 0 t []
    (fun inserted => ⟨200, [("message", .text "🧾 Migración completa"),
      ("inserted", .val (.num inserted))]⟩)
  simp only [postMigrateRecurring]
  refine ⟨this.1, ?_⟩
  rw [this.2]
  simp

/-- C15. On the relational store, for every expenses table and every list of active templates:
a second run of migrate-recurring-expenses in the same month (same year and month of the
clock, any day) with the same templates reports `inserted: 0` and leaves the tables exactly
as the first run left them. -/
theorem migrate_recurring_twice (e : SqlEngine) (now1 now2 : Clock) (items : List Obj)
    (t : Tables) (hy : now2.fullYear = now1.fullYear) (hmo : now2.month = now1.month) :
    (postMigrateRecurring (sqlStore e) now2 (some items)
        (postMigrateRecurring (sqlStore e) now1 (some items) t).final).reply =
      ⟨200, [("message", .text "🧾 Migración completa"), ("inserted", .val (.num 0))]⟩ ∧
    (postMigrateRecurring (sqlStore e) now2 (some items)
        (postMigrateRecurring (sqlStore e) now1 (some items) t).final).final =
      (postMigrateRecurring (sqlStore e) now1 (some items) t).final := by
  have hkey : now2.monthYearKey = now1.monthYearKey := by
    simp [Clock.monthYearKey, hy, hmo]
  have h1 := (postMigrateRecurring_sqlStore e now1 items t).1
  have hnil : materialised now2.monthYearKey now2.isoDate
      (t.expenses ++ materialised now1.monthYearKey now1.isoDate t.expenses items) items
      = [] := by
    apply materialised_nil_of_named
    intro item hitem hc
    rw [hkey]
    exact materialised_covers _ _ items t.expenses item hitem hc
  obtain ⟨h2f, h2r⟩ := postMigrateRecurring_sqlStore e now2 items
    (postMigrateRecurring (sqlStore e) now1 (some items) t).final
  rw [h1] at h2f h2r ⊢
  simp only [hnil, List.append_nil, List.length_nil] at h2f h2r
  exact ⟨h2r, h2f⟩

/-- C15 at two runs in February 2025, on the 10th and on the 20th, with two templates titled
`net` and an empty expenses table: the second run inserts nothing. -/
theorem migrate_recurring_twice_witness :
    (postMigrateRecurring (sqlStore refEngine) ⟨2025, 1, "2025-02-20"⟩
        (some [[("title", .str "net"), ("amount", .num 5), ("category", .str "home"),
                ("currency", .str "EUR")],
               [("title", .str "net"), ("amount", .num 7), ("category", .str "home"),
                ("currency", .str "EUR")]])
        (postMigrateRecurring (sqlStore refEngine) ⟨2025, 1, "2025-02-10"⟩
          (some [[("title", .str "net"), ("amount", .num 5), ("category", .str "home"),
                  ("currency", .str "EUR")],
                 [("title", .str "net"), ("amount", .num 7), ("category", .str "home"),
                  ("currency", .str "EUR")]]) ⟨[], []⟩).final).reply =
      ⟨200, [("message", .text "🧾 Migración completa"), ("inserted", .val (.num 0))]⟩ :=
  (migrate_recurring_twice refEngine ⟨2025, 1, "2025-02-10"⟩ ⟨2025, 1, "2025-02-20"⟩
    [[("title", .str "net"), ("amount", .num 5), ("category", .str "home"),
      ("currency", .str "EUR")],
     [("title", .str "net"), ("amount", .num 7), ("category", .str "home"),
      ("currency", .str "EUR")]] ⟨[], []⟩ rfl rfl).1

theorem exists_row_of_isNamed (rows : List Obj) (title : Val) (key : String)
    (h : isNamed rows title key = true) : ∃ row ∈ rows, row.get "name" = title := by
  simp only [isNamed, List.any_eq_true, Bool.and_eq_true] at h
  obtain ⟨row, hrow, hname, _⟩ := h
  refine ⟨row, hrow, ?_⟩
  simp only [sqlEq, Bool.and_eq_true, decide_eq_true_eq] at hname
  exact hname.1.1

theorem monthYearKey_eq (now : Clock) (hmonth : now.month < 12) :
    now.monthYearKey = toString now.fullYear ++ "-" ++
      ["01", "02", "03", "04", "05", "06", "07", "08", "09", "10", "11", "12"].getD
        now.month "" := by
  obtain ⟨y, m, d⟩ := now
  simp only at hmonth
  unfold Clock.monthYearKey
  simp only
  interval_cases m <;> rfl

set_option maxRecDepth 8000 in
/-- C16, the claim as stated fails on a template whose amount is 0: run on 15 March 2025 on
an empty expenses table with the one active template
`{title: "gift", amount: 0, category: "fun", currency: "EUR"}`, which has a title, an amount,
a category and a currency, and whose title names no expense of the month, the handler sends
no statement, adds no row and replies `inserted: 0`. -/
theorem recurring_zero_amount_counterexample :
    (postMigrateRecurring (sqlStore refEngine) ⟨2025, 2, "2025-03-15"⟩
        (some [[("title", .str "gift"), ("amount", .num 0), ("category", .str "fun"),
                ("currency", .str "EUR")]]) ⟨[], []⟩).reply =
      ⟨200, [("message", .text "🧾 Migración completa"), ("inserted", .val (.num 0))]⟩ ∧
    (postMigrateRecurring (sqlStore refEngine) ⟨2025, 2, "2025-03-15"⟩
        (some [[("title", .str "gift"), ("amount", .num 0), ("category", .str "fun"),
                ("currency", .str "EUR")]]) ⟨[], []⟩).issued = [] ∧
    (postMigrateRecurring (sqlStore refEngine) ⟨2025, 2, "2025-03-15"⟩
        (some [[("title", .str "gift"), ("amount", .num 0), ("category", .str "fun"),
                ("currency", .str "EUR")]]) ⟨[], []⟩).final.expenses = [] :=
  ⟨rfl, rfl, rfl⟩

/-- C16 as amended. The current month is the key made of the year of the clock, a dash and
the two-digit number of its month (`getMonth()` 0 gives `01`, 11 gives `12`). On the
relational store, migrate-recurring-expenses appends rows to the expenses table and changes
nothing else: the rows there before are unchanged and the income table is unchanged. The reply
is 200 and its `inserted` is the number of rows added. Every row added is the row of a
complete template, one whose title, amount, category and currency are all truthy, whose title
named no expense of the current month before the run: name, amount, category and currency are
those of the template, `date_added` is today, the status is `pending` and the month is the
current month. The rows added have pairwise different names, and every complete template
whose title named no expense of the month has a row with its title: one row per distinct
title. A template with a falsy field (a missing one, an amount 0, an empty title) adds
nothing. -/
theorem migrate_recurring_adds_one_row_per_title (e : SqlEngine) (now : Clock)
    (items : List Obj) (t : Tables) (hmonth : now.month < 12) :
    now.monthYearKey = toString now.fullYear ++ "-" ++
      ["01", "02", "03", "04", "05", "06", "07", "08", "09", "10", "11", "12"].getD
        now.month "" ∧
    (∀ item : Obj, isComplete item = true ↔
      ((item.get "title").truthy = true ∧ (item.get "amount").truthy = true ∧
        (item.get "category").truthy = true ∧ (item.get "currency").truthy = true)) ∧
    ∃ added : List Obj,
      (postMigrateRecurring (sqlStore e) now (some items) t).final.expenses =
        t.expenses ++ added ∧
      (postMigrateRecurring (sqlStore e) now (some items) t).final.income = t.income ∧
      (postMigrateRecurring (sqlStore e) now (some items) t).reply =
        ⟨200, [("message", .text "🧾 Migración completa"),
          ("inserted", .val (.num (added.length : Nat)))]⟩ ∧
      (∀ row ∈ added, ∃ item ∈ items,
        isComplete item = true ∧ isNamed t.expenses (item.get "title") now.monthYearKey = false ∧
        row = [("name", item.get "title"), ("amount", item.get "amount"),
               ("category", item.get "category"), ("currency", item.get "currency"),
               ("date_added", .str now.isoDate), ("status", .str "pending"),
               ("month_year", .str now.monthYearKey)]) ∧
      (added.map fun row => row.get "name").Nodup ∧
      (∀ item ∈ items, isComplete item = true →
        isNamed t.expenses (item.get "title") now.monthYearKey = false →
        ∃ row ∈ added, row.get "name" = item.get "title") := by
  obtain ⟨hf, hr⟩ := postMigrateRecurring_sqlStore e now items t
  refine ⟨monthYearKey_eq now hmonth, ?_,
    materialised now.monthYearKey now.isoDate t.expenses items, ?_, ?_, hr, ?_, ?_, ?_⟩
  · intro item
    simp only [isComplete, Bool.and_eq_true]
    tauto
  · rw [hf]
  · rw [hf]
  · intro row hrow
    exact materialised_origin _ _ items t.expenses row hrow
  · exact materialised_names_nodup _ _ items t.expenses
  · intro item hitem hc hnot
    have := materialised_covers now.monthYearKey now.isoDate items t.expenses item hitem hc
    rw [isNamed_append, hnot, Bool.false_or] at this
    exact exists_row_of_isNamed _ _ _ this

set_option maxRecDepth 8000 in
/-- C16 as amended, at a run on 15 March 2025 (`getMonth()` = 2). The expenses table holds
`rent` for `2025-03`; the active templates are `net` twice, `gift` with amount 0 and `rent`.
The current month is `2025-03`, one row is added, for `net` with the amount of the first
template, and `inserted` is 1. -/
theorem migrate_recurring_adds_one_row_per_title_witness :
    Clock.monthYearKey ⟨2025, 2, "2025-03-15"⟩ = "2025-03" ∧
    (postMigrateRecurring (sqlStore refEngine) ⟨2025, 2, "2025-03-15"⟩
        (some [[("title", .str "net"), ("amount", .num 5), ("category", .str "home"),
                ("currency", .str "EUR")],
               [("title", .str "net"), ("amount", .num 7), ("category", .str "home"),
                ("currency", .str "EUR")],
               [("title", .str "gift"), ("amount", .num 0), ("category", .str "fun"),
                ("currency", .str "EUR")],
               [("title", .str "rent"), ("amount", .num 700), ("category", .str "home"),
                ("currency", .str "EUR")]])
        ⟨[[("name", .str "rent"), ("amount", .num 700), ("category", .str "home"),
           ("currency", .str "EUR"), ("date_added", .str "2025-03-01"),
           ("status", .str "paid"), ("month_year", .str "2025-03")]], []⟩).final.expenses =
      [[("name", .str "rent"), ("amount", .num 700), ("category", .str "home"),
        ("currency", .str "EUR"), ("date_added", .str "2025-03-01"),
        ("status", .str "paid"), ("month_year", .str "2025-03")],
       [("name", .str "net"), ("amount", .num 5), ("category", .str "home"),
        ("currency", .str "EUR"), ("date_added", .str "2025-03-15"),
        ("status", .str "pending"), ("month_year", .str "2025-03")]] ∧
    (postMigrateRecurring (sqlStore refEngine) ⟨2025, 2, "2025-03-15"⟩
        (some [[("title", .str "net"), ("amount", .num 5), ("category", .str "home"),
                ("currency", .str "EUR")],
               [("title", .str "net"), ("amount", .num 7), ("category", .str "home"),
                ("currency", .str "EUR")],
               [("title", .str "gift"), ("amount", .num 0), ("category", .str "fun"),
                ("currency", .str "EUR")],
               [("title", .str "rent"), ("amount", .num 700), ("category", .str "home"),
                ("currency", .str "EUR")]])
        ⟨[[("name", .str "rent"), ("amount", .num 700), ("category", .str "home"),
           ("currency", .str "EUR"), ("date_added", .str "2025-03-01"),
           ("status", .str "paid"), ("month_year", .str "2025-03")]], []⟩).reply =
      ⟨200, [("message", .text "🧾 Migración completa"), ("inserted", .val (.num 1))]⟩ :=
  ⟨(migrate_recurring_adds_one_row_per_title refEngine ⟨2025, 2, "2025-03-15"⟩ []
      ⟨[], []⟩ (by decide)).1.trans rfl, rfl, rfl⟩

/-! ## C17: the income upsert -/

theorem sqlStore_select_income (e : SqlEngine) (t : Tables) (key : Val) :
    (sqlStore e).query t ⟨"SELECT * FROM income WHERE month_year = $1", [key]⟩ =
      (some (rowsResult (t.income.filter fun row => sqlEq (row.get "month_year") key)), t) :=
  rfl

theorem sqlStore_update_income (e : SqlEngine) (t : Tables) (amount currency key : Val) :
    (sqlStore e).query t
        ⟨"UPDATE income SET amount = $1, currency = $2 WHERE month_year = $3 RETURNING *",
         [amount, currency, key]⟩ =
      (some (rowsResult ((t.income.filter fun row => sqlEq (row.get "month_year") key).map
          fun row => (row.set "amount" amount).set "currency" currency)),
       ⟨t.expenses, t.income.map fun row =>
          if sqlEq (row.get "month_year") key then
            (row.set "amount" amount).set "currency" currency
          else row⟩) := rfl

theorem sqlStore_insert_income (e : SqlEngine) (t : Tables) (amount currency key : Val) :
    (sqlStore e).query t
        ⟨"INSERT INTO income (month_year, amount, currency) VALUES ($1, $2, $3) RETURNING *",
         [key, amount, currency]⟩ =
      (some (rowsResult [[("month_year", key), ("amount", amount), ("currency", currency)]]),
       ⟨t.expenses, t.income ++
          [[("month_year", key), ("amount", amount), ("currency", currency)]]⟩) := rfl

/-- The income table after the upsert of `key`: the rows of `key` rewritten when there are
some, a new row appended when there is none. -/
theorem putIncome_sqlStore (e : SqlEngine) (month year : String) (body : Obj) (t : Tables) :
    (putIncome (sqlStore e) month year body t).final =
      if (t.income.filter fun row =>
          sqlEq (row.get "month_year") (.str (year ++ "-" ++ padStart2 month))) = [] then
        ⟨t.expenses, t.income ++ [[("month_year", .str (year ++ "-" ++ padStart2 month)),
          ("amount", body.get "amount"), ("currency", body.get "currency")]]⟩
      else
        ⟨t.expenses, t.income.map fun row =>
          if sqlEq (row.get "month_year") (.str (year ++ "-" ++ padStart2 month)) then
            (row.set "amount" (body.get "amount")).set "currency" (body.get "currency")
          else row⟩ := by
  simp only [putIncome, awaitQuery_of_some _ _ _ _ _ _ _ _ (sqlStore_select_income e _ _),
    rowsResult]
  cases hf : t.income.filter fun row =>
      sqlEq (row.get "month_year") (.str (year ++ "-" ++ padStart2 month)) with
  | nil =>
    simp only [List.length_nil, Nat.lt_irrefl, if_false, if_true,
      awaitQuery_of_some _ _ _ _ _ _ _ _ (sqlStore_insert_income e _ _ _ _)]
  | cons r rest =>
    simp only [List.length_cons, Nat.zero_lt_succ, if_true, reduceCtorEq, if_false,
      awaitQuery_of_some _ _ _ _ _ _ _ _ (sqlStore_update_income e _ _ _ _)]

theorem month_year_after_set (row : Obj) (a c : Val) :
    ((row.set "amount" a).set "currency" c).get "month_year" = row.get "month_year" := by
  rw [Obj.get_set, if_neg (by decide), Obj.get_set, if_neg (by decide)]

theorem filter_month_after_update (income : List Obj) (key other a c : Val) :
    ((income.map fun row =>
        if sqlEq (row.get "month_year") key then (row.set "amount" a).set "currency" c
        else row).filter fun row => sqlEq (row.get "month_year") other) =
      (income.filter fun row => sqlEq (row.get "month_year") other).map fun row =>
        if sqlEq (row.get "month_year") key then (row.set "amount" a).set "currency" c
        else row := by
  induction income with
  | nil => rfl
  | cons r rest ih =>
    by_cases hk : sqlEq (r.get "month_year") key = true
    · by_cases ho : sqlEq (r.get "month_year") other = true
      · simp [List.filter_cons, hk, ho, month_year_after_set, ih]
      · simp [List.filter_cons, hk, ho, month_year_after_set, ih]
    · by_cases ho : sqlEq (r.get "month_year") other = true
      · simp [List.filter_cons, hk, ho, ih]
      · simp [List.filter_cons, hk, ho, ih]

theorem filter_others_after_update (income : List Obj) (key a c : Val) :
    ((income.map fun row =>
        if sqlEq (row.get "month_year") key then (row.set "amount" a).set "currency" c
        else row).filter fun row => !sqlEq (row.get "month_year") key) =
      income.filter fun row => !sqlEq (row.get "month_year") key := by
  induction income with
  | nil => rfl
  | cons r rest ih =>
    by_cases hk : sqlEq (r.get "month_year") key = true
    · simp [List.filter_cons, hk, month_year_after_set, ih]
    · simp [List.filter_cons, hk, ih]

theorem sqlEq_eq (a b : Val) (h : sqlEq a b = true) : a = b := by
  simp only [sqlEq, Bool.and_eq_true, decide_eq_true_eq] at h
  exact h.1.1

/-- One upsert on a table with at most one row per month. -/
theorem putIncome_upsert (e : SqlEngine) (month year : String) (body : Obj) (t : Tables)
    (hinv : onePerMonth t.income) :
    onePerMonth (putIncome (sqlStore e) month year body t).final.income ∧
    (∃ row : Obj,
      ((putIncome (sqlStore e) month year body t).final.income.filter fun r =>
          sqlEq (r.get "month_year") (.str (year ++ "-" ++ padStart2 month))) = [row] ∧
      row.get "amount" = body.get "amount" ∧ row.get "currency" = body.get "currency" ∧
      row.get "month_year" = .str (year ++ "-" ++ padStart2 month)) ∧
    ((putIncome (sqlStore e) month year body t).final.income.filter fun r =>
        !sqlEq (r.get "month_year") (.str (year ++ "-" ++ padStart2 month))) =
      (t.income.filter fun r =>
        !sqlEq (r.get "month_year") (.str (year ++ "-" ++ padStart2 month))) ∧
    (putIncome (sqlStore e) month year body t).final.expenses = t.expenses := by
  rw [putIncome_sqlStore]
  cases hf : t.income.filter fun row =>
      sqlEq (row.get "month_year") (.str (year ++ "-" ++ padStart2 month)) with
  | nil =>
    rw [if_pos rfl]
    have hnew : ∀ k : Val, sqlEq (Obj.get [("month_year", .str (year ++ "-" ++ padStart2 month)),
        ("amount", body.get "amount"), ("currency", body.get "currency")] "month_year") k =
        decide (k = .str (year ++ "-" ++ padStart2 month)) := by
      intro k
      simp only [Obj.get, if_true, sqlEq]
      by_cases hk : k = .str (year ++ "-" ++ padStart2 month)
      · subst hk; simp
      · have hk' : ¬ Val.str (year ++ "-" ++ padStart2 month) = k := fun h => hk h.symm
        simp [hk, hk']
    refine ⟨?_, ?_, ?_, rfl⟩
    · intro k
      dsimp only
      rw [List.filter_append]
      by_cases hk : k = .str (year ++ "-" ++ padStart2 month)
      · subst hk
        rw [hf]
        simp [List.filter_cons, hnew]
      · have : ([[("month_year", Val.str (year ++ "-" ++ padStart2 month)),
            ("amount", body.get "amount"), ("currency", body.get "currency")]].filter
            fun row => sqlEq (Obj.get row "month_year") k) = [] := by
          simp [List.filter_cons, hnew, hk]
        rw [this, List.append_nil]
        exact hinv k
    · refine ⟨[("month_year", .str (year ++ "-" ++ padStart2 month)),
        ("amount", body.get "amount"), ("currency", body.get "currency")], ?_, rfl, rfl, rfl⟩
      dsimp only
      rw [List.filter_append, hf]
      simp [List.filter_cons, hnew]
    · dsimp only
      rw [List.filter_append]
      simp [List.filter_cons, hnew]
  | cons r rest =>
    rw [if_neg (by simp)]
    have hlen := hinv (.str (year ++ "-" ++ padStart2 month))
    rw [hf] at hlen
    have hrest : rest = [] := by
      cases rest with
      | nil => rfl
      | cons _ _ => simp at hlen
    subst hrest
    have hr : sqlEq (r.get "month_year") (.str (year ++ "-" ++ padStart2 month)) = true := by
      have : r ∈ t.income.filter fun row =>
          sqlEq (row.get "month_year") (.str (year ++ "-" ++ padStart2 month)) := by
        rw [hf]; simp
      exact (List.mem_filter.mp this).2
    refine ⟨?_, ?_, ?_, rfl⟩
    · intro k
      dsimp only
      rw [filter_month_after_update, List.length_map]
      exact hinv k
    · refine ⟨(r.set "amount" (body.get "amount")).set "currency" (body.get "currency"),
        ?_, ?_, ?_, ?_⟩
      · dsimp only
        rw [filter_month_after_update, hf]
        simp [hr]
      · rw [Obj.get_set, if_neg (by decide), Obj.get_set, if_pos rfl]
      · rw [Obj.get_set, if_pos rfl]
      · rw [month_year_after_set]
        exact sqlEq_eq _ _ hr
    · exact filter_others_after_update _ _ _ _

/-- C17. On the relational store, the income upsert keeps the income table at one row per
`month_year` at most: from a table that has at most one row per month, the table after the
call has at most one row per month, exactly one row for the written key, holding the amount
and the currency of the body; the rows of the other months and the expenses are unchanged.
Hence after a second call for the same month with another body there is still exactly one row
for the key, and it holds the second amount. -/
theorem income_upsert_one_row_per_month (e : SqlEngine) (month year : String)
    (body body2 : Obj) (t : Tables) (hinv : onePerMonth t.income) :
    (onePerMonth (putIncome (sqlStore e) month year body t).final.income ∧
      (∃ row : Obj,
        ((putIncome (sqlStore e) month year body t).final.income.filter fun r =>
            sqlEq (r.get "month_year") (.str (year ++ "-" ++ padStart2 month))) = [row] ∧
        row.get "amount" = body.get "amount" ∧ row.get "currency" = body.get "currency" ∧
        row.get "month_year" = .str (year ++ "-" ++ padStart2 month)) ∧
      ((putIncome (sqlStore e) month year body t).final.income.filter fun r =>
          !sqlEq (r.get "month_year") (.str (year ++ "-" ++ padStart2 month))) =
        (t.income.filter fun r =>
          !sqlEq (r.get "month_year") (.str (year ++ "-" ++ padStart2 month))) ∧
      (putIncome (sqlStore e) month year body t).final.expenses = t.expenses) ∧
    (∃ row : Obj,
      ((putIncome (sqlStore e) month year body2
          (putIncome (sqlStore e) month year body t).final).final.income.filter fun r =>
          sqlEq (r.get "month_year") (.str (year ++ "-" ++ padStart2 month))) = [row] ∧
      row.get "amount" = body2.get "amount" ∧ row.get "currency" = body2.get "currency") := by
  have h1 := putIncome_upsert e month year body t hinv
  obtain ⟨row, hrow, ha, hc, _⟩ :=
    (putIncome_upsert e month year body2 _ h1.1).2.1
  exact ⟨h1, row, hrow, ha, hc⟩

/-- C17 at two calls of `PUT /finance/3/2025/income`, with amounts 1000 and 1200, on an empty
income table: one row for `2025-03`, holding 1200. -/
theorem income_upsert_one_row_per_month_witness :
    (putIncome (sqlStore refEngine) "3" "2025" [("amount", .num 1200), ("currency", .str "EUR")]
        (putIncome (sqlStore refEngine) "3" "2025"
          [("amount", .num 1000), ("currency", .str "EUR")] ⟨[], []⟩).final).final.income =
      [[("month_year", .str "2025-03"), ("amount", .num 1200), ("currency", .str "EUR")]] ∧
    ∃ row : Obj,
      ((putIncome (sqlStore refEngine) "3" "2025"
          [("amount", .num 1200), ("currency", .str "EUR")]
          (putIncome (sqlStore refEngine) "3" "2025"
            [("amount", .num 1000), ("currency", .str "EUR")]
            ⟨[], []⟩).final).final.income.filter fun r =>
          sqlEq (r.get "month_year") (.str ("2025" ++ "-" ++ padStart2 "3"))) = [row] ∧
      row.get "amount" = Obj.get [("amount", .num 1200), ("currency", .str "EUR")] "amount" ∧
      row.get "currency" =
        Obj.get [("amount", .num 1200), ("currency", .str "EUR")] "currency" :=
  ⟨rfl, (income_upsert_one_row_per_month refEngine "3" "2025"
    [("amount", .num 1000), ("currency", .str "EUR")]
    [("amount", .num 1200), ("currency", .str "EUR")] ⟨[], []⟩
    (fun _ => Nat.zero_le 1)).2⟩

/-! ## C18 and C19: expense creation -/

theorem postExpense_rejected {σ : Type} (js : Builtins) (db : Store σ) (month year : String)
    (body : Obj) (s : σ) (h : hasRequiredFields body = false) :
    postExpense js db month year body s =
      ⟨errorReply 400 "❌ Faltan datos obligatorios para agregar el gasto.", [], s⟩ := by
  have hc : (!(body.get "name").truthy || !(body.get "category").truthy ||
      !(body.get "amount").truthy || !(body.get "currency").truthy) = true := by
    simp only [hasRequiredFields, Bool.and_eq_false_iff] at h
    rcases h with ((h | h) | h) | h <;> simp [h]
  simp only [postExpense, hc, if_true]

theorem postExpense_accepted {σ : Type} (js : Builtins) (db : Store σ) (month year : String)
    (body : Obj) (s : σ) (h : hasRequiredFields body = true) :
    postExpense js db month year body s =
      awaitQuery db
        ⟨"INSERT INTO expenses (month_year, name, category, amount, currency, status, date_added) \n            VALUES ($1, $2, $3, $4, $5, $6, CURRENT_DATE) \n            RETURNING *",
         [.str (year ++ "-" ++ js.toLowerCase month), body.get "name", body.get "category",
          js.parseFloat (body.get "amount"), body.get "currency",
          (body.get "status").or (.str "pending")]⟩ s []
        (errorReply 500 "❌ Error al guardar el gasto en la base de datos.")
        fun newExpense s1 log1 =>
        ⟨⟨200, [("message", .text ("✅ Gasto agregado correctamente a " ++
                  (year ++ "-" ++ js.toLowerCase month))),
                ("newExpense", firstRow newExpense.rows)]⟩, log1, s1⟩ := by
  have hc : (!(body.get "name").truthy || !(body.get "category").truthy ||
      !(body.get "amount").truthy || !(body.get "currency").truthy) = false := by
    simp only [hasRequiredFields, Bool.and_eq_true] at h
    simp [h.1.1.1, h.1.1.2, h.1.2, h.2]
  simp only [postExpense, hc, Bool.false_eq_true, if_false]

/-- C18, what the code does with the month of the path in `POST /finance/:month/:year/expenses`.
The handler consults no month table and rejects no month: for a body with the four required
fields and any month string, it sends the INSERT with `month_year` bound to the year, a dash
and the lower-cased month string as given, and the reply is 200 or 500, never 400. So the
month name `marzo` is stored as `2025-marzo`, not `2025-03`, and a string that is no month is
stored as well. -/
theorem expense_create_does_not_map_month {σ : Type} (js : Builtins) (db : Store σ)
    (month year : String) (body : Obj) (s : σ) (h : hasRequiredFields body = true) :
    (postExpense js db month year body s).issued =
      [⟨"INSERT INTO expenses (month_year, name, category, amount, currency, status, date_added) \n            VALUES ($1, $2, $3, $4, $5, $6, CURRENT_DATE) \n            RETURNING *",
        [.str (year ++ "-" ++ js.toLowerCase month), body.get "name", body.get "category",
         js.parseFloat (body.get "amount"), body.get "currency",
         (body.get "status").or (.str "pending")]⟩] ∧
    (postExpense js db month year body s).reply.status ≠ 400 := by
  rw [postExpense_accepted js db month year body s h]
  refine ⟨?_, ?_⟩
  · rw [awaitQuery_issued_last]; rfl
  · rcases awaitQuery_status_last db _ s _
      "❌ Error al guardar el gasto en la base de datos." _ with h1 | h1 <;>
      rw [h1] <;> decide

set_option maxRecDepth 8000 in
/-- C18 at `POST /finance/marzo/2025/expenses` and `POST /finance/smarch/2025/expenses` on the
relational store: both requests insert a row, with `month_year` `2025-marzo` and
`2025-smarch`. -/
theorem expense_create_does_not_map_month_witness :
    (postExpense refBuiltins (sqlStore refEngine) "marzo" "2025"
        [("name", .str "rent"), ("category", .str "home"), ("amount", .num 700),
         ("currency", .str "EUR")] ⟨[], []⟩).reply.status ≠ 400 ∧
    (postExpense refBuiltins (sqlStore refEngine) "marzo" "2025"
        [("name", .str "rent"), ("category", .str "home"), ("amount", .num 700),
         ("currency", .str "EUR")] ⟨[], []⟩).final.expenses =
      [[("month_year", .str "2025-marzo"), ("name", .str "rent"), ("category", .str "home"),
        ("amount", .num 700), ("currency", .str "EUR"), ("status", .str "pending"),
        ("date_added", .str "2025-03-15")]] ∧
    (postExpense refBuiltins (sqlStore refEngine) "smarch" "2025"
        [("name", .str "rent"), ("category", .str "home"), ("amount", .num 700),
         ("currency", .str "EUR")] ⟨[], []⟩).final.expenses =
      [[("month_year", .str "2025-smarch"), ("name", .str "rent"), ("category", .str "home"),
        ("amount", .num 700), ("currency", .str "EUR"), ("status", .str "pending"),
        ("date_added", .str "2025-03-15")]] :=
  ⟨(expense_create_does_not_map_month refBuiltins (sqlStore refEngine) "marzo" "2025"
      [("name", .str "rent"), ("category", .str "home"), ("amount", .num 700),
       ("currency", .str "EUR")] ⟨[], []⟩ (by decide)).2, rfl, rfl⟩

set_option maxRecDepth 8000 in
/-- C19, the claim as stated fails: a body that has all four fields, with `amount: 0`, is
rejected with 400; and a body that supplies the status `""` is stored with the status
`pending`. -/
theorem expense_create_counterexample :
    (postExpense refBuiltins (sqlStore refEngine) "03" "2025"
        [("name", .str "gift"), ("category", .str "home"), ("amount", .num 0),
         ("currency", .str "EUR")] ⟨[], []⟩).reply =
      errorReply 400 "❌ Faltan datos obligatorios para agregar el gasto." ∧
    (postExpense refBuiltins (sqlStore refEngine) "03" "2025"
        [("name", .str "rent"), ("category", .str "home"), ("amount", .num 700),
         ("currency", .str "EUR"), ("status", .str "")] ⟨[], []⟩).final.expenses =
      [[("month_year", .str "2025-03"), ("name", .str "rent"), ("category", .str "home"),
        ("amount", .num 700), ("currency", .str "EUR"), ("status", .str "pending"),
        ("date_added", .str "2025-03-15")]] :=
  ⟨rfl, rfl⟩

set_option maxRecDepth 8000 in
/-- C19 as amended. Expense Create is rejected with 400, nothing being sent to the store, if
and only if at least one of name, category, amount, currency is missing or falsy (`null`,
`false`, `0`, `""`). An accepted request sends exactly one INSERT, binding the month key, the
name, the category, `parseFloat(amount)`, the currency, and the status of the body when it is
truthy, `pending` otherwise; on the relational store it appends exactly one row with these
values and the current date, and the reply is 200. -/
theorem expense_create_requires_truthy_fields {σ : Type} (js : Builtins) (db : Store σ)
    (e : SqlEngine) (month year : String) (body : Obj) (s : σ) (t : Tables) :
    ((postExpense js db month year body s).reply.status = 400 ↔
      hasRequiredFields body = false) ∧
    (hasRequiredFields body = false →
      (postExpense js db month year body s).issued = [] ∧
      (postExpense js db month year body s).final = s) ∧
    (hasRequiredFields body = true →
      (postExpense js db month year body s).issued =
        [⟨"INSERT INTO expenses (month_year, name, category, amount, currency, status, date_added) \n            VALUES ($1, $2, $3, $4, $5, $6, CURRENT_DATE) \n            RETURNING *",
          [.str (year ++ "-" ++ js.toLowerCase month), body.get "name", body.get "category",
           js.parseFloat (body.get "amount"), body.get "currency",
           if (body.get "status").truthy then body.get "status" else .str "pending"]⟩] ∧
      (postExpense js (sqlStore e) month year body t).final.expenses =
        t.expenses ++
          [[("month_year", .str (year ++ "-" ++ js.toLowerCase month)),
            ("name", body.get "name"), ("category", body.get "category"),
            ("amount", js.parseFloat (body.get "amount")),
            ("currency", body.get "currency"),
            ("status", if (body.get "status").truthy then body.get "status"
              else .str "pending"),
            ("date_added", .str e.currentDate)]] ∧
      (postExpense js (sqlStore e) month year body t).final.income = t.income ∧
      (postExpense js (sqlStore e) month year body t).reply.status = 200) := by
  refine ⟨?_, ?_, ?_⟩
  · constructor
    · intro h400
      cases hb : hasRequiredFields body with
      | false => rfl
      | true =>
        exfalso
        rw [postExpense_accepted js db month year body s hb] at h400
        rcases awaitQuery_status_last db _ s _
          "❌ Error al guardar el gasto en la base de datos." _ with h1 | h1 <;>
          rw [h1] at h400 <;> exact absurd h400 (by decide)
    · intro hb
      rw [postExpense_rejected js db month year body s hb]
      rfl
  · intro hb
    rw [postExpense_rejected js db month year body s hb]
    exact ⟨rfl, rfl⟩
  · intro hb
    refine ⟨?_, ?_, ?_, ?_⟩
    · rw [postExpense_accepted js db month year body s hb, awaitQuery_issued_last]
      rfl
    all_goals
      rw [postExpense_accepted js (sqlStore e) month year body t hb]
      rfl

set_option maxRecDepth 8000 in
/-- C19 as amended, at a body with the four fields on the relational store. -/
theorem expense_create_requires_truthy_fields_witness :
    (postExpense refBuiltins (sqlStore refEngine) "03" "2025"
        [("name", .str "rent"), ("category", .str "home"), ("amount", .num 700),
         ("currency", .str "EUR"), ("status", .str "paid")] ⟨[], []⟩).final.expenses =
      [[("month_year", .str "2025-03"), ("name", .str "rent"), ("category", .str "home"),
        ("amount", .num 700), ("currency", .str "EUR"), ("status", .str "paid"),
        ("date_added", .str "2025-03-15")]] :=
  ((expense_create_requires_truthy_fields refBuiltins presentStore refEngine "03" "2025"
    [("name", .str "rent"), ("category", .str "home"), ("amount", .num 700),
     ("currency", .str "EUR"), ("status", .str "paid")] () ⟨[], []⟩).2.2 (by decide)).2.1

/-! ## C20: the fixed-field expense update -/

theorem expenseFields_eq (js : Builtins) (body : Obj) :
    expenseFields js body =
      assignAll ⟨"UPDATE expenses SET ", [], 1⟩
        ((expenseSuppliedFields body).map fun f => (f, expenseBound js body f)) := by
  unfold expenseFields expenseSuppliedFields
  cases h1 : (body.get "name").truthy <;> cases h2 : (body.get "category").truthy <;>
    cases h3 : (body.get "amount").truthy <;> cases h4 : (body.get "currency").truthy <;>
    cases h5 : (body.get "status").truthy <;>
    simp [Build.assignIf, List.filter, assignAll, expenseBound, h1, h2, h3, h4, h5]

theorem finishExpense_assignAll (a : String × Val) (as : List (String × Val)) (id : Val)
    (key : String) :
    (assignAll ⟨"UPDATE expenses SET ", [], 1⟩ (a :: as)).finishExpense id key =
      ⟨renderExpenseUpdate ((a :: as).map Prod.fst),
       (a :: as).map Prod.snd ++ [id, .str key]⟩ := by
  rw [assignAll_eq]
  simp only [Build.finishExpense, List.map_cons, pieces_eq_setClause, renderExpenseUpdate,
    List.nil_append, List.length_cons, List.length_map]
  rw [← String.append_assoc "UPDATE expenses SET ", sliceOffTwo_append]
  congr 1
  rw [Nat.add_comm 1, show as.length + 1 + 1 = as.length + 2 from rfl]
  simp [String.append_assoc]

/-- C20, the claim as stated fails. A field supplied with a falsy value is not assigned:
the body `{name: "rent", status: ""}` gives an UPDATE of the name only. And for the empty
subset the text is not well formed: the body `{}` gives
`UPDATE expenses SE WHERE id = $1 AND month_year = $2 RETURNING *;`. -/
theorem expense_update_counterexample :
    (putExpense refBuiltins presentStore "03" "2025" "7"
        [("name", .str "rent"), ("status", .str "")] ()).issued =
      [⟨"SELECT * FROM expenses WHERE id = $1 AND month_year = $2",
        [.str "7", .str "2025-03"]⟩,
       ⟨"UPDATE expenses SET name = $1 WHERE id = $2 AND month_year = $3 RETURNING *;",
        [.str "rent", .str "7", .str "2025-03"]⟩] ∧
    (putExpense refBuiltins presentStore "03" "2025" "7" [] ()).issued =
      [⟨"SELECT * FROM expenses WHERE id = $1 AND month_year = $2",
        [.str "7", .str "2025-03"]⟩,
       ⟨"UPDATE expenses SE WHERE id = $1 AND month_year = $2 RETURNING *;",
        [.str "7", .str "2025-03"]⟩] :=
  ⟨rfl, rfl⟩

/-- C20 as amended. Expense Update on an existing expense, for a body in which at least one of
name, category, amount, currency, status has a truthy value: the handler sends, after the
existence check, `UPDATE expenses SET f1 = $1, ..., fk = $k WHERE id = $(k+1) AND
month_year = $(k+2) RETURNING *;` where `f1 .. fk` are exactly the fields with a truthy value,
in the fixed order name, category, amount, currency, status; the placeholders are bound to the
values of these fields (`parseFloat(amount)` for the amount), then the id and the month key.
Applying the assignments to a row leaves every other column unchanged. -/
theorem expense_update_assigns_truthy_fields {σ : Type} (js : Builtins) (db : Store σ)
    (month year idParam : String) (body : Obj) (s s1 : σ) (r : QueryResult)
    (hq : db.query s ⟨"SELECT * FROM expenses WHERE id = $1 AND month_year = $2",
      [.str idParam, .str (year ++ "-" ++ js.toLowerCase month)]⟩ = (some r, s1))
    (hr : r.rows ≠ []) (hne : expenseSuppliedFields body ≠ []) :
    (putExpense js db month year idParam body s).issued =
      [⟨"SELECT * FROM expenses WHERE id = $1 AND month_year = $2",
        [.str idParam, .str (year ++ "-" ++ js.toLowerCase month)]⟩,
       ⟨renderExpenseUpdate (expenseSuppliedFields body),
        (expenseSuppliedFields body).map (expenseBound js body) ++
          [.str idParam, .str (year ++ "-" ++ js.toLowerCase month)]⟩] ∧
    (expenseSuppliedFields body).Sublist ["name", "category", "amount", "currency", "status"] ∧
    (∀ f, f ∈ expenseSuppliedFields body ↔
      f ∈ ["name", "category", "amount", "currency", "status"] ∧ (body.get f).truthy = true) ∧
    (∀ (row : Obj) (column : String), column ∉ expenseSuppliedFields body →
      (applyAssignments row (expenseSuppliedFields body)
        ((expenseSuppliedFields body).map (expenseBound js body) ++
          [.str idParam, .str (year ++ "-" ++ js.toLowerCase month)])).get column =
        row.get column) := by
  have hr1 : (r.rows.length == 0) = false := by
    cases hrr : r.rows with
    | nil => exact absurd hrr hr
    | cons _ _ => rfl
  refine ⟨?_, List.filter_sublist _, ?_, ?_⟩
  · simp only [putExpense, awaitQuery_of_some _ _ _ _ _ _ _ _ hq, hr1, Bool.false_eq_true,
      if_false, awaitQuery_issued_last, List.nil_append, expenseFields_eq]
    cases hf : expenseSuppliedFields body with
    | nil => exact absurd hf hne
    | cons f fs =>
      rw [List.map_cons, finishExpense_assignAll]
      simp [Function.comp_def]
  · intro f
    simp [expenseSuppliedFields, List.mem_filter]
  · intro row column hc
    exact applyAssignments_get_of_not_mem _ _ row column hc

/-- C20 as amended, at `PUT /finance/03/2025/expenses/7` with body
`{amount: 650, status: "paid"}`. -/
theorem expense_update_assigns_truthy_fields_witness :
    (putExpense refBuiltins presentStore "03" "2025" "7"
        [("amount", .num 650), ("status", .str "paid")] ()).issued =
      [⟨"SELECT * FROM expenses WHERE id = $1 AND month_year = $2",
        [.str "7", .str "2025-03"]⟩,
       ⟨"UPDATE expenses SET amount = $1, status = $2 WHERE id = $3 AND month_year = $4 RETURNING *;",
        [.num 650, .str "paid", .str "7", .str "2025-03"]⟩] :=
  (expense_update_assigns_truthy_fields refBuiltins presentStore "03" "2025" "7"
    [("amount", .num 650), ("status", .str "paid")] () () ⟨[[("id", .num 3)]], 1⟩
    rfl (by decide) (by decide)).1

/-! ## C22: a failing provider -/

theorem updateExchangeRates_thrown {σ π : Type} (db : Store σ) (api : Provider π)
    (today : String) (s : σ) (p : π) :
    (updateExchangeRates db api today s p).thrown = none := by
  unfold updateExchangeRates
  rcases updateExchangeRatesTry db api today s p with ⟨_, _, _, _, _⟩
  rfl

theorem updateExchangeRates_fields {σ π : Type} (db : Store σ) (api : Provider π)
    (today : String) (s : σ) (p : π) :
    (updateExchangeRates db api today s p).issued =
      (updateExchangeRatesTry db api today s p).issued ∧
    (updateExchangeRates db api today s p).fetches =
      (updateExchangeRatesTry db api today s p).fetches ∧
    (updateExchangeRates db api today s p).final =
      (updateExchangeRatesTry db api today s p).final ∧
    (updateExchangeRates db api today s p).provider =
      (updateExchangeRatesTry db api today s p).provider := by
  unfold updateExchangeRates
  rcases updateExchangeRatesTry db api today s p with ⟨_, _, _, _, _⟩
  exact ⟨rfl, rfl, rfl, rfl⟩

/-- C22, what the code does when the stored rates are stale and the provider answers with a
response that is not OK, or with a body without `rates`. Inside `updateExchangeRates` the
exception is thrown, one fetch having been made and no statement sent besides the SELECT of
the last date, so the stored rows are untouched; but the `catch` block of the function logs
the exception and returns: the promise never rejects, whatever the store and the provider
do, and `POST /exchange-rates` replies 200 with the message that the rates were updated. Its
500 branch is never taken. -/
theorem provider_failure_is_swallowed {σ π : Type} (db : Store σ) (api : Provider π)
    (today : String) (s s1 : σ) (p : π) (r : QueryResult) (row : Obj) (rest : List Obj)
    (hq : db.query s
      ⟨"SELECT MAX(last_updated)::TEXT AS last_updated FROM exchange_rates", []⟩ =
      (some r, s1))
    (hrows : r.rows = row :: rest) (hstale : row.get "last_updated" ≠ .str today)
    (hfail : (api.fetch p).1 = .notOk ∨ (api.fetch p).1 = .noRates) :
    ((updateExchangeRatesTry db api today s p).thrown = some .apiNotOk ∨
      (updateExchangeRatesTry db api today s p).thrown = some .ratesMissing) ∧
    (updateExchangeRates db api today s p).thrown = none ∧
    (postExchangeRates db api today s p).1 =
      ⟨200, [("message", .text "✅ Tasas de cambio actualizadas correctamente.")]⟩ ∧
    (updateExchangeRates db api today s p).issued =
      [⟨"SELECT MAX(last_updated)::TEXT AS last_updated FROM exchange_rates", []⟩] ∧
    (updateExchangeRates db api today s p).final = s1 ∧
    (updateExchangeRates db api today s p).fetches = 1 := by
  have hthrown := updateExchangeRates_thrown db api today s p
  obtain ⟨hi, hf, hfin, _⟩ := updateExchangeRates_fields db api today s p
  have hpost : (postExchangeRates db api today s p).1 =
      ⟨200, [("message", .text "✅ Tasas de cambio actualizadas correctamente.")]⟩ := by
    unfold postExchangeRates
    rw [hthrown]
  rw [hi, hf, hfin]
  refine ⟨?_, hthrown, hpost, ?_, ?_, ?_⟩ <;>
    (unfold updateExchangeRatesTry
     rw [hq]
     simp only [hrows, hstale, if_false]
     rcases hfetch : api.fetch p with ⟨res, p1⟩
     rw [hfetch] at hfail
     rcases hfail with h | h <;> (simp only at h; subst h; simp))

/-- C22 at `POST /exchange-rates` on a rate table last dated 2025-03-14, on 2025-03-15, with a
provider that is down: the reply is 200 with the success message. -/
theorem provider_failure_is_swallowed_witness :
    (postExchangeRates ratesStore downProvider "2025-03-15"
        [[("currency", .str "USD"), ("rate", .composite "1.08"),
          ("last_updated", .str "2025-03-14")]] ()).1 =
      ⟨200, [("message", .text "✅ Tasas de cambio actualizadas correctamente.")]⟩ :=
  (provider_failure_is_swallowed ratesStore downProvider "2025-03-15"
    [[("currency", .str "USD"), ("rate", .composite "1.08"),
      ("last_updated", .str "2025-03-14")]]
    [[("currency", .str "USD"), ("rate", .composite "1.08"),
      ("last_updated", .str "2025-03-14")]] ()
    (rowsResult [[("last_updated", .str "2025-03-14")]])
    [("last_updated", .str "2025-03-14")] [] rfl rfl (by decide) (Or.inl rfl)).2.2.1

/-! ## C21 and C23: the rate table -/

theorem lexLe_refl (a : List Char) : lexLe a a = true := by
  induction a with
  | nil => rfl
  | cons c cs ih => simp [lexLe, ih]

theorem lexLe_antisymm (a b : List Char) (h1 : lexLe a b = true) (h2 : lexLe b a = true) :
    a = b := by
  induction a generalizing b with
  | nil =>
    cases b with
    | nil => rfl
    | cons _ _ => simp [lexLe] at h2
  | cons c cs ih =>
    cases b with
    | nil => simp [lexLe] at h1
    | cons d ds =>
      simp only [lexLe] at h1 h2
      by_cases hlt : c.toNat < d.toNat
      · have hnlt : ¬ d.toNat < c.toNat := by omega
        have hne : ¬ d = c := fun h => by subst h; omega
        simp [hnlt, hne] at h2
      · by_cases heq : c = d
        · subst heq
          simp only [Nat.lt_irrefl, if_false, if_true] at h1 h2
          rw [ih ds h1 h2]
        · simp [hlt, heq] at h1

theorem currency_after_set (row : Obj) (r d : Val) :
    ((row.set "rate" r).set "last_updated" d).get "currency" = row.get "currency" := by
  rw [Obj.get_set, if_neg (by decide), Obj.get_set, if_neg (by decide)]

theorem filter_currency_after_update (rates : List Obj) (c k r d : Val) :
    ((rates.map fun row =>
        if sqlEq (row.get "currency") c then (row.set "rate" r).set "last_updated" d
        else row).filter fun row => sqlEq (row.get "currency") k) =
      (rates.filter fun row => sqlEq (row.get "currency") k).map fun row =>
        if sqlEq (row.get "currency") c then (row.set "rate" r).set "last_updated" d
        else row := by
  induction rates with
  | nil => rfl
  | cons x rest ih =>
    by_cases hc : sqlEq (x.get "currency") c = true
    · by_cases hk : sqlEq (x.get "currency") k = true
      · simp [List.filter_cons, hc, hk, currency_after_set, ih]
      · simp [List.filter_cons, hc, hk, currency_after_set, ih]
    · by_cases hk : sqlEq (x.get "currency") k = true
      · simp [List.filter_cons, hc, hk, ih]
      · simp [List.filter_cons, hc, hk, ih]

theorem sqlEq_str_self (c : String) : sqlEq (.str c) (.str c) = true := by
  simp [sqlEq]

/-- An upsert leaves the rows of every other currency as they were. -/
theorem upsertRate_others (rates : List Obj) (c k r d : Val) (hne : k ≠ c) :
    ((upsertRate rates c r d).filter fun row => sqlEq (row.get "currency") k) =
      rates.filter fun row => sqlEq (row.get "currency") k := by
  unfold upsertRate
  split
  · rw [filter_currency_after_update]
    conv => rhs; rw [← List.map_id (rates.filter fun row => sqlEq (row.get "currency") k)]
    apply List.map_congr_left
    intro row hrow
    have hk := (List.mem_filter.mp hrow).2
    have hnc : ¬ sqlEq (row.get "currency") c = true := by
      intro hc
      exact hne ((sqlEq_eq _ _ hk).symm.trans (sqlEq_eq _ _ hc))
    simp [hnc]
  · rw [List.filter_append]
    have : ([[("currency", c), ("rate", r), ("last_updated", d)]].filter
        fun row => sqlEq (Obj.get row "currency") k) = [] := by
      rw [List.filter_eq_nil_iff]
      intro row hrow
      simp only [List.mem_singleton] at hrow
      subst hrow
      intro hk
      have := sqlEq_eq _ _ hk
      simp only [Obj.get, if_true] at this
      exact hne this.symm
    rw [this, List.append_nil]

/-- After an upsert the currency has exactly one row, with the rate and the date bound. -/
theorem upsertRate_row (rates : List Obj) (c : String) (r d : Val)
    (hu : onePerCurrency rates) :
    ∃ row : Obj,
      ((upsertRate rates (.str c) r d).filter fun x => sqlEq (x.get "currency") (.str c))
        = [row] ∧
      row.get "rate" = r ∧ row.get "last_updated" = d ∧ row.get "currency" = .str c := by
  unfold upsertRate
  split
  · rename_i hany
    rw [filter_currency_after_update]
    have hlen := hu (.str c)
    cases hf : rates.filter fun row => sqlEq (row.get "currency") (.str c) with
    | nil =>
      exfalso
      obtain ⟨x, hx, hxc⟩ := List.any_eq_true.mp hany
      have : x ∈ rates.filter fun row => sqlEq (row.get "currency") (.str c) :=
        List.mem_filter.mpr ⟨hx, hxc⟩
      rw [hf] at this
      simp at this
    | cons x rest =>
      rw [hf] at hlen
      have hrest : rest = [] := by
        cases rest with
        | nil => rfl
        | cons _ _ => simp at hlen
      subst hrest
      have hx : sqlEq (x.get "currency") (.str c) = true := by
        have : x ∈ rates.filter fun row => sqlEq (row.get "currency") (.str c) := by
          rw [hf]; simp
        exact (List.mem_filter.mp this).2
      refine ⟨(x.set "rate" r).set "last_updated" d, by simp [hx], ?_, ?_, ?_⟩
      · rw [Obj.get_set, if_neg (by decide), Obj.get_set, if_pos rfl]
      · rw [Obj.get_set, if_pos rfl]
      · rw [currency_after_set]
        exact sqlEq_eq _ _ hx
  · rename_i hany
    have hnone : (rates.filter fun row => sqlEq (row.get "currency") (.str c)) = [] := by
      rw [List.filter_eq_nil_iff]
      intro x hx hxc
      exact hany (List.any_eq_true.mpr ⟨x, hx, hxc⟩)
    refine ⟨[("currency", .str c), ("rate", r), ("last_updated", d)], ?_, rfl, rfl, rfl⟩
    rw [List.filter_append, hnone]
    simp [List.filter_cons, Obj.get, sqlEq_str_self]

theorem upsertRate_unique (rates : List Obj) (c : String) (r d : Val)
    (hu : onePerCurrency rates) : onePerCurrency (upsertRate rates (.str c) r d) := by
  intro k
  by_cases hk : k = .str c
  · subst hk
    obtain ⟨row, hrow, _⟩ := upsertRate_row rates c r d hu
    rw [hrow]
    simp
  · rw [upsertRate_others rates (.str c) k r d hk]
    exact hu k

/-- The rate table after the upserts of entries with pairwise different currencies. -/
theorem upsertAll_spec (today : String) (entries : Obj) (rates : List Obj)
    (hkeys : (entries.map Prod.fst).Nodup) (hu : onePerCurrency rates) :
    onePerCurrency (upsertAll today rates entries) ∧
    (∀ k : Val, (∀ c ∈ entries.map Prod.fst, k ≠ .str c) →
      ((upsertAll today rates entries).filter fun row => sqlEq (row.get "currency") k) =
        rates.filter fun row => sqlEq (row.get "currency") k) ∧
    (∀ c r, (c, r) ∈ entries → ∃ row : Obj,
      ((upsertAll today rates entries).filter fun x => sqlEq (x.get "currency") (.str c))
        = [row] ∧
      row.get "rate" = r ∧ row.get "last_updated" = .str today ∧
      row.get "currency" = .str c) := by
  induction entries generalizing rates with
  | nil =>
    refine ⟨hu, fun _ _ => rfl, ?_⟩
    intro c r h
    simp at h
  | cons entry rest ih =>
    obtain ⟨c0, r0⟩ := entry
    rw [List.map_cons, List.nodup_cons] at hkeys
    have hu1 := upsertRate_unique rates c0 r0 (.str today) hu
    obtain ⟨ih1, ih2, ih3⟩ := ih (upsertRate rates (.str c0) r0 (.str today)) hkeys.2 hu1
    have hstep : upsertAll today rates ((c0, r0) :: rest) =
        upsertAll today (upsertRate rates (.str c0) r0 (.str today)) rest := rfl
    rw [hstep]
    refine ⟨ih1, ?_, ?_⟩
    · intro k hk
      rw [ih2 k (fun c hc => hk c (by simp [hc]))]
      exact upsertRate_others rates (.str c0) k r0 (.str today) (hk c0 (by simp))
    · intro c r hmem
      rcases List.mem_cons.mp hmem with h | h
      · have hc : c = c0 := congrArg Prod.fst h
        have hr : r = r0 := congrArg Prod.snd h
        subst hc
        subst hr
        rw [ih2 (.str c) (fun c' hc' heq => by
          have : c = c' := by injection heq
          subst this
          exact hkeys.1 hc')]
        exact upsertRate_row rates c r (.str today) hu
      · exact ih3 c r h

theorem ratesStore_check (rates : List Obj) :
    ratesStore.query rates
        ⟨"SELECT MAX(last_updated)::TEXT AS last_updated FROM exchange_rates", []⟩ =
      (some (rowsResult [[("last_updated", maxLastUpdated rates)]]), rates) := rfl

set_option maxRecDepth 8000 in
theorem ratesStore_upsert (rates : List Obj) (currency rate date : Val) :
    ratesStore.query rates
        ⟨"INSERT INTO exchange_rates (currency, rate, last_updated) \n                VALUES ($1, $2, $3) \n                ON CONFLICT (currency) \n                DO UPDATE SET rate = EXCLUDED.rate, last_updated = EXCLUDED.last_updated",
         [currency, rate, date]⟩ =
      (some (countResult 1), upsertRate rates currency rate date) := rfl

theorem upsertLoop_ratesStore (today : String) (entries : Obj) (rates : List Obj)
    (log : List Stmt) :
    (upsertLoop ratesStore today entries rates log).1 = none ∧
    (upsertLoop ratesStore today entries rates log).2.2 = upsertAll today rates entries := by
  induction entries generalizing rates log with
  | nil => exact ⟨rfl, rfl⟩
  | cons entry rest ih =>
    obtain ⟨c, r⟩ := entry
    rw [upsertLoop, ratesStore_upsert]
    exact ih _ _

/-- The run of `updateExchangeRates` on the rate table. -/
theorem updateExchangeRates_ratesStore {π : Type} (api : Provider π) (today : String)
    (rates : List Obj) (p : π) :
    (maxLastUpdated rates = .str today →
      (updateExchangeRates ratesStore api today rates p).fetches = 0 ∧
      (updateExchangeRates ratesStore api today rates p).final = rates ∧
      (updateExchangeRates ratesStore api today rates p).provider = p) ∧
    (maxLastUpdated rates ≠ .str today →
      (updateExchangeRates ratesStore api today rates p).fetches = 1 ∧
      (updateExchangeRates ratesStore api today rates p).provider = (api.fetch p).2 ∧
      (∀ entries, (api.fetch p).1 = .rates entries →
        (updateExchangeRates ratesStore api today rates p).final =
          upsertAll today rates entries) ∧
      ((∀ entries, (api.fetch p).1 ≠ .rates entries) →
        (updateExchangeRates ratesStore api today rates p).final = rates)) := by
  obtain ⟨_, hf, hfin, hp⟩ := updateExchangeRates_fields ratesStore api today rates p
  rw [hf, hfin, hp]
  unfold updateExchangeRatesTry
  rw [ratesStore_check]
  simp only [rowsResult, Obj.get, if_true]
  constructor
  · intro hfresh
    simp [hfresh]
  · intro hstale
    simp only [hstale, if_false]
    rcases hfetch : api.fetch p with ⟨res, p1⟩
    cases res with
    | rejected => simp
    | notOk => simp
    | noRates => simp
    | rates entries =>
      simp only [FetchResult.rates.injEq, forall_eq', ne_eq, forall_eq, not_true_eq_false,
        false_implies, and_true, true_and]
      obtain ⟨_, h2⟩ := upsertLoop_ratesStore today entries rates
        [⟨"SELECT MAX(last_updated)::TEXT AS last_updated FROM exchange_rates", []⟩]
      rcases hloop : upsertLoop ratesStore today entries rates
        [⟨"SELECT MAX(last_updated)::TEXT AS last_updated FROM exchange_rates", []⟩]
        with ⟨thrown, log, s2⟩
      rw [hloop] at h2
      simp only at h2
      simp [h2]

/-- C23. On the rate table, when the stored rates are stale and the provider returns a rate
table (an object: its currencies are pairwise different), and the table has at most one row
per currency: after `updateExchangeRates` every returned currency has exactly one row, holding
the returned rate and `last_updated` = today; the rows of the currencies that were not
returned are the rows stored before; and the table still has at most one row per currency. -/
theorem rates_are_upserted {π : Type} (api : Provider π) (today : String)
    (rates : List Obj) (p : π) (entries : Obj)
    (hstale : maxLastUpdated rates ≠ .str today)
    (hfetch : (api.fetch p).1 = .rates entries)
    (hkeys : (entries.map Prod.fst).Nodup) (hu : onePerCurrency rates) :
    (∀ c r, (c, r) ∈ entries → ∃ row : Obj,
      ((updateExchangeRates ratesStore api today rates p).final.filter fun x =>
          sqlEq (x.get "currency") (.str c)) = [row] ∧
      row.get "rate" = r ∧ row.get "last_updated" = .str today ∧
      row.get "currency" = .str c) ∧
    (∀ k : Val, (∀ c ∈ entries.map Prod.fst, k ≠ .str c) →
      ((updateExchangeRates ratesStore api today rates p).final.filter fun row =>
          sqlEq (row.get "currency") k) =
        rates.filter fun row => sqlEq (row.get "currency") k) ∧
    onePerCurrency (updateExchangeRates ratesStore api today rates p).final := by
  have hfinal := ((updateExchangeRates_ratesStore api today rates p).2 hstale).2.2.1
    entries hfetch
  rw [hfinal]
  obtain ⟨h1, h2, h3⟩ := upsertAll_spec today entries rates hkeys hu
  exact ⟨h3, h2, h1⟩

set_option maxRecDepth 8000 in
/-- C23 at a table holding USD, stale, and a provider returning USD and GBP: USD is
overwritten, GBP is inserted. -/
theorem rates_are_upserted_witness :
    (updateExchangeRates ratesStore
        (fixedProvider [("USD", .composite "1.09"), ("GBP", .composite "0.84")])
        "2025-03-15"
        [[("currency", .str "USD"), ("rate", .composite "1.08"),
          ("last_updated", .str "2025-03-14")]] ()).final =
      [[("currency", .str "USD"), ("rate", .composite "1.09"),
        ("last_updated", .str "2025-03-15")],
       [("currency", .str "GBP"), ("rate", .composite "0.84"),
        ("last_updated", .str "2025-03-15")]] ∧
    onePerCurrency (updateExchangeRates ratesStore
        (fixedProvider [("USD", .composite "1.09"), ("GBP", .composite "0.84")])
        "2025-03-15"
        [[("currency", .str "USD"), ("rate", .composite "1.08"),
          ("last_updated", .str "2025-03-14")]] ()).final :=
  ⟨rfl, (rates_are_upserted
    (fixedProvider [("USD", .composite "1.09"), ("GBP", .composite "0.84")]) "2025-03-15"
    [[("currency", .str "USD"), ("rate", .composite "1.08"),
      ("last_updated", .str "2025-03-14")]] ()
    [("USD", .composite "1.09"), ("GBP", .composite "0.84")]
    (by decide) rfl (by decide)
    (fun k => by
      by_cases hk : sqlEq (.str "USD") k = true <;>
        simp [List.filter_cons, Obj.get, hk])).2.2⟩

theorem laterDate_le (today : String) (acc : Val) (row : Obj)
    (hacc : acc = .null ∨ ∃ m : String, acc = .str m ∧ lexLe m.data today.data = true)
    (hrow : ∀ d : String, row.get "last_updated" = .str d → lexLe d.data today.data = true) :
    laterDate acc row = .null ∨
      ∃ m : String, laterDate acc row = .str m ∧ lexLe m.data today.data = true := by
  unfold laterDate
  cases hd : row.get "last_updated"
  case str d =>
    rcases hacc with h | ⟨m, h, hm⟩
    · subst h
      exact Or.inr ⟨d, rfl, hrow d hd⟩
    · subst h
      by_cases hle : lexLe m.data d.data = true
      · simp only [hle, if_true]
        exact Or.inr ⟨d, rfl, hrow d hd⟩
      · simp only [hle, Bool.false_eq_true, if_false]
        exact Or.inr ⟨m, rfl, hm⟩
  all_goals
    rcases hacc with h | ⟨m, h, hm⟩
    · subst h
      exact Or.inl rfl
    · subst h
      exact Or.inr ⟨m, rfl, hm⟩

theorem laterDate_today (today : String) (acc : Val) (row : Obj)
    (hacc : acc = .null ∨ ∃ m : String, acc = .str m ∧ lexLe m.data today.data = true)
    (hrow : row.get "last_updated" = .str today) :
    laterDate acc row = .str today := by
  unfold laterDate
  rw [hrow]
  rcases hacc with h | ⟨m, h, hm⟩
  · subst h; rfl
  · subst h; simp [hm]

theorem laterDate_keeps_today (today : String) (row : Obj)
    (hrow : ∀ d : String, row.get "last_updated" = .str d → lexLe d.data today.data = true) :
    laterDate (.str today) row = .str today := by
  unfold laterDate
  cases hd : row.get "last_updated" with
  | str d =>
    by_cases hle : lexLe today.data d.data = true
    · have : d = today := String.ext (lexLe_antisymm _ _ (hrow d hd) hle)
      subst this
      simp [hle]
    · simp [hle]
  | undefined => rfl
  | null => rfl
  | bool b => rfl
  | num n => rfl
  | nan => rfl
  | composite t => rfl

theorem foldl_laterDate_keeps_today (today : String) (rows : List Obj)
    (hrows : noLaterThan today rows) :
    rows.foldl laterDate (.str today) = .str today := by
  induction rows with
  | nil => rfl
  | cons r rest ih =>
    rw [List.foldl_cons, laterDate_keeps_today today r (hrows r (by simp))]
    exact ih fun row hrow => hrows row (by simp [hrow])

/-- The last date of a table with a row dated today and no row dated later is today. -/
theorem maxLastUpdated_today (today : String) (rows : List Obj)
    (hrows : noLaterThan today rows)
    (hsome : ∃ row ∈ rows, row.get "last_updated" = .str today) :
    maxLastUpdated rows = .str today := by
  unfold maxLastUpdated
  suffices h : ∀ acc : Val,
      (acc = .null ∨ ∃ m : String, acc = .str m ∧ lexLe m.data today.data = true) →
      rows.foldl laterDate acc = .str today from h .null (Or.inl rfl)
  induction rows with
  | nil =>
    obtain ⟨row, hrow, _⟩ := hsome
    simp at hrow
  | cons r rest ih =>
    intro acc hacc
    rw [List.foldl_cons]
    have hrest : noLaterThan today rest := fun row hrow => hrows row (by simp [hrow])
    by_cases hr : r.get "last_updated" = .str today
    · rw [laterDate_today today acc r hacc hr]
      exact foldl_laterDate_keeps_today today rest hrest
    · obtain ⟨row, hrow, hdate⟩ := hsome
      have hin : row ∈ rest := by
        rcases List.mem_cons.mp hrow with h | h
        · subst h; exact absurd hdate hr
        · exact h
      exact ih hrest ⟨row, hin, hdate⟩ _ (laterDate_le today acc r hacc (hrows r (by simp)))

theorem last_updated_after_set (row : Obj) (r d : Val) :
    ((row.set "rate" r).set "last_updated" d).get "last_updated" = d := by
  rw [Obj.get_set, if_pos rfl]

theorem mem_upsertRate (rates : List Obj) (c r d : Val) (row : Obj)
    (hrow : row ∈ upsertRate rates c r d) :
    row ∈ rates ∨ row.get "last_updated" = d := by
  unfold upsertRate at hrow
  split at hrow
  · obtain ⟨x, hx, hxr⟩ := List.mem_map.mp hrow
    by_cases hc : sqlEq (x.get "currency") c = true
    · rw [if_pos hc] at hxr
      right
      rw [← hxr, last_updated_after_set]
    · rw [if_neg hc] at hxr
      left
      rw [← hxr]
      exact hx
  · rcases List.mem_append.mp hrow with h | h
    · exact Or.inl h
    · right
      simp only [List.mem_singleton] at h
      subst h
      rfl

theorem upsertRate_noLaterThan (today : String) (rates : List Obj) (c r : Val)
    (h : noLaterThan today rates) : noLaterThan today (upsertRate rates c r (.str today)) := by
  intro row hrow d hd
  rcases mem_upsertRate rates c r (.str today) row hrow with hin | hdate
  · exact h row hin d hd
  · rw [hdate] at hd
    injection hd with hd
    subst hd
    exact lexLe_refl _

theorem upsertRate_has_date (rates : List Obj) (c r d : Val) :
    ∃ row ∈ upsertRate rates c r d, row.get "last_updated" = d := by
  unfold upsertRate
  split
  · rename_i hany
    obtain ⟨x, hx, hxc⟩ := List.any_eq_true.mp hany
    refine ⟨(x.set "rate" r).set "last_updated" d, ?_, last_updated_after_set x r d⟩
    exact List.mem_map.mpr ⟨x, hx, by rw [if_pos hxc]⟩
  · exact ⟨[("currency", c), ("rate", r), ("last_updated", d)], by simp, rfl⟩

theorem upsertRate_keeps_date (rates : List Obj) (c r d : Val)
    (h : ∃ row ∈ rates, row.get "last_updated" = d) :
    ∃ row ∈ upsertRate rates c r d, row.get "last_updated" = d := by
  obtain ⟨x, hx, hxd⟩ := h
  unfold upsertRate
  split
  · by_cases hc : sqlEq (x.get "currency") c = true
    · exact ⟨(x.set "rate" r).set "last_updated" d,
        List.mem_map.mpr ⟨x, hx, by rw [if_pos hc]⟩, last_updated_after_set x r d⟩
    · exact ⟨x, List.mem_map.mpr ⟨x, hx, by rw [if_neg hc]⟩, hxd⟩
  · exact ⟨x, List.mem_append_left _ hx, hxd⟩

theorem upsertAll_dates (today : String) (entries : Obj) (rates : List Obj)
    (h : noLaterThan today rates) :
    noLaterThan today (upsertAll today rates entries) ∧
    ((entries ≠ [] ∨ ∃ row ∈ rates, row.get "last_updated" = .str today) →
      ∃ row ∈ upsertAll today rates entries, row.get "last_updated" = .str today) := by
  induction entries generalizing rates with
  | nil =>
    refine ⟨h, ?_⟩
    intro hh
    rcases hh with hh | hh
    · exact absurd rfl hh
    · exact hh
  | cons entry rest ih =>
    have hstep : upsertAll today rates (entry :: rest) =
        upsertAll today (upsertRate rates (.str entry.1) entry.2 (.str today)) rest := rfl
    rw [hstep]
    obtain ⟨ih1, ih2⟩ := ih _ (upsertRate_noLaterThan today rates _ _ h)
    exact ⟨ih1, fun _ => ih2 (Or.inr (upsertRate_has_date rates _ _ _))⟩

set_option maxRecDepth 8000 in
/-- C21, the claim as stated fails in three ways, all on 2025-03-15. On a rate table last
dated 2025-03-14, two consecutive calls with a provider that answers with a response that is
not OK make one fetch each, two in total; so do two calls with a provider that answers with an
empty rate table. On a table whose only row, GBP, is dated 2025-03-16, later than today, with a
provider that returns USD: the first call fetches and writes USD, the latest stored date is
still 2025-03-16, and the second call fetches again. -/
theorem two_fetches_counterexample :
    (updateExchangeRates ratesStore downProvider "2025-03-15"
        [[("currency", .str "USD"), ("rate", .composite "1.08"),
          ("last_updated", .str "2025-03-14")]] ()).fetches = 1 ∧
    (updateExchangeRates ratesStore downProvider "2025-03-15"
        (updateExchangeRates ratesStore downProvider "2025-03-15"
          [[("currency", .str "USD"), ("rate", .composite "1.08"),
            ("last_updated", .str "2025-03-14")]] ()).final
        (updateExchangeRates ratesStore downProvider "2025-03-15"
          [[("currency", .str "USD"), ("rate", .composite "1.08"),
            ("last_updated", .str "2025-03-14")]] ()).provider).fetches = 1 ∧
    (updateExchangeRates ratesStore (fixedProvider []) "2025-03-15"
        (updateExchangeRates ratesStore (fixedProvider []) "2025-03-15"
          [[("currency", .str "USD"), ("rate", .composite "1.08"),
            ("last_updated", .str "2025-03-14")]] ()).final
        (updateExchangeRates ratesStore (fixedProvider []) "2025-03-15"
          [[("currency", .str "USD"), ("rate", .composite "1.08"),
            ("last_updated", .str "2025-03-14")]] ()).provider).fetches = 1 ∧
    (updateExchangeRates ratesStore (fixedProvider [("USD", .composite "1.09")]) "2025-03-15"
        [[("currency", .str "GBP"), ("rate", .composite "0.84"),
          ("last_updated", .str "2025-03-16")]] ()).final =
      [[("currency", .str "GBP"), ("rate", .composite "0.84"),
        ("last_updated", .str "2025-03-16")],
       [("currency", .str "USD"), ("rate", .composite "1.09"),
        ("last_updated", .str "2025-03-15")]] ∧
    (updateExchangeRates ratesStore (fixedProvider [("USD", .composite "1.09")]) "2025-03-15"
        (updateExchangeRates ratesStore (fixedProvider [("USD", .composite "1.09")])
          "2025-03-15"
          [[("currency", .str "GBP"), ("rate", .composite "0.84"),
            ("last_updated", .str "2025-03-16")]] ()).final
        (updateExchangeRates ratesStore (fixedProvider [("USD", .composite "1.09")])
          "2025-03-15"
          [[("currency", .str "GBP"), ("rate", .composite "0.84"),
            ("last_updated", .str "2025-03-16")]] ()).provider).fetches = 1 :=
  ⟨rfl, rfl, rfl, rfl, rfl⟩

/-- C21 as amended. On the rate table, with no stored row dated later than today, two
consecutive calls of `updateExchangeRates` on the same day behave in one of two ways. If the
stored rates are already dated today, or the first call fetches and the provider returns a
rate table that is not empty, then the second call makes no fetch, the two make at most one
fetch in total, and the table after the second call is the table after the first, whatever
the provider does on a later call. If the stored rates are stale and the first fetch is
rejected, is answered with a response that is not OK, with a body without rates, or with an
empty rate table, then the first call makes one fetch and leaves the table as it was, and the
second call fetches again: two fetches in total. -/
theorem second_call_does_not_fetch {π : Type} (api : Provider π) (today : String)
    (rates : List Obj) (p : π)
    (hdates : noLaterThan today rates) :
    ((maxLastUpdated rates = .str today ∨
        ∃ entries, (api.fetch p).1 = .rates entries ∧ entries ≠ []) →
      (updateExchangeRates ratesStore api today
          (updateExchangeRates ratesStore api today rates p).final
          (updateExchangeRates ratesStore api today rates p).provider).fetches = 0 ∧
      (updateExchangeRates ratesStore api today rates p).fetches +
        (updateExchangeRates ratesStore api today
          (updateExchangeRates ratesStore api today rates p).final
          (updateExchangeRates ratesStore api today rates p).provider).fetches ≤ 1 ∧
      (updateExchangeRates ratesStore api today
          (updateExchangeRates ratesStore api today rates p).final
          (updateExchangeRates ratesStore api today rates p).provider).final =
        (updateExchangeRates ratesStore api today rates p).final) ∧
    (maxLastUpdated rates ≠ .str today →
      ((api.fetch p).1 = .rejected ∨ (api.fetch p).1 = .notOk ∨
        (api.fetch p).1 = .noRates ∨ (api.fetch p).1 = .rates []) →
      (updateExchangeRates ratesStore api today rates p).fetches = 1 ∧
      (updateExchangeRates ratesStore api today rates p).final = rates ∧
      (updateExchangeRates ratesStore api today
          (updateExchangeRates ratesStore api today rates p).final
          (updateExchangeRates ratesStore api today rates p).provider).fetches = 1 ∧
      (updateExchangeRates ratesStore api today rates p).fetches +
        (updateExchangeRates ratesStore api today
          (updateExchangeRates ratesStore api today rates p).final
          (updateExchangeRates ratesStore api today rates p).provider).fetches = 2) := by
  constructor
  · intro hfirst
    have hfresh : maxLastUpdated (updateExchangeRates ratesStore api today rates p).final =
        .str today := by
      by_cases h0 : maxLastUpdated rates = .str today
      · rw [((updateExchangeRates_ratesStore api today rates p).1 h0).2.1]
        exact h0
      · rcases hfirst with h | ⟨entries, hfetch, hne⟩
        · exact absurd h h0
        · rw [((updateExchangeRates_ratesStore api today rates p).2 h0).2.2.1 entries hfetch]
          obtain ⟨h1, h2⟩ := upsertAll_dates today entries rates hdates
          exact maxLastUpdated_today today _ h1 (h2 (Or.inl hne))
    obtain ⟨hf2, hfin2, _⟩ := (updateExchangeRates_ratesStore api today
      (updateExchangeRates ratesStore api today rates p).final
      (updateExchangeRates ratesStore api today rates p).provider).1 hfresh
    refine ⟨hf2, ?_, hfin2⟩
    rw [hf2]
    by_cases h0 : maxLastUpdated rates = .str today
    · rw [((updateExchangeRates_ratesStore api today rates p).1 h0).1]
      decide
    · rw [((updateExchangeRates_ratesStore api today rates p).2 h0).1]
  · intro hstale hfail
    obtain ⟨hf1, _, hrates, hother⟩ := (updateExchangeRates_ratesStore api today rates p).2 hstale
    have hfinal : (updateExchangeRates ratesStore api today rates p).final = rates := by
      rcases hfail with h | h | h | h
      · exact hother fun entries he => by rw [h] at he; cases he
      · exact hother fun entries he => by rw [h] at he; cases he
      · exact hother fun entries he => by rw [h] at he; cases he
      · exact hrates [] h
    have hstale2 : maxLastUpdated (updateExchangeRates ratesStore api today rates p).final ≠
        .str today := by
      rw [hfinal]
      exact hstale
    have hf2 := ((updateExchangeRates_ratesStore api today
      (updateExchangeRates ratesStore api today rates p).final
      (updateExchangeRates ratesStore api today rates p).provider).2 hstale2).1
    exact ⟨hf1, hfinal, hf2, by rw [hf1, hf2]⟩

set_option maxRecDepth 8000 in
/-- C21 as amended, at a table last dated 2025-03-14, on 2025-03-15: with a provider that
returns one rate the second call of the day makes no fetch; with a provider that is down the
second call fetches again. -/
theorem second_call_does_not_fetch_witness :
    noLaterThan "2025-03-15"
        [[("currency", .str "USD"), ("rate", .composite "1.08"),
          ("last_updated", .str "2025-03-14")]] ∧
    (updateExchangeRates ratesStore (fixedProvider [("USD", .composite "1.09")]) "2025-03-15"
        [[("currency", .str "USD"), ("rate", .composite "1.08"),
          ("last_updated", .str "2025-03-14")]] ()).fetches = 1 ∧
    (updateExchangeRates ratesStore (fixedProvider [("USD", .composite "1.09")]) "2025-03-15"
        (updateExchangeRates ratesStore (fixedProvider [("USD", .composite "1.09")])
          "2025-03-15"
          [[("currency", .str "USD"), ("rate", .composite "1.08"),
            ("last_updated", .str "2025-03-14")]] ()).final
        (updateExchangeRates ratesStore (fixedProvider [("USD", .composite "1.09")])
          "2025-03-15"
          [[("currency", .str "USD"), ("rate", .composite "1.08"),
            ("last_updated", .str "2025-03-14")]] ()).provider).fetches = 0 ∧
    (updateExchangeRates ratesStore downProvider "2025-03-15"
        (updateExchangeRates ratesStore downProvider "2025-03-15"
          [[("currency", .str "USD"), ("rate", .composite "1.08"),
            ("last_updated", .str "2025-03-14")]] ()).final
        (updateExchangeRates ratesStore downProvider "2025-03-15"
          [[("currency", .str "USD"), ("rate", .composite "1.08"),
            ("last_updated", .str "2025-03-14")]] ()).provider).fetches = 1 :=
  have hdates : noLaterThan "2025-03-15"
      [[("currency", .str "USD"), ("rate", .composite "1.08"),
        ("last_updated", .str "2025-03-14")]] := by
    intro row hrow d hd
    simp only [List.mem_singleton] at hrow
    subst hrow
    have hd2 : Val.str "2025-03-14" = Val.str d := hd
    injection hd2 with hd2
    subst hd2
    rfl
  ⟨hdates, rfl,
    ((second_call_does_not_fetch (fixedProvider [("USD", .composite "1.09")]) "2025-03-15"
      [[("currency", .str "USD"), ("rate", .composite "1.08"),
        ("last_updated", .str "2025-03-14")]] () hdates).1
      (Or.inr ⟨[("USD", .composite "1.09")], rfl, by simp⟩)).1,
    ((second_call_does_not_fetch downProvider "2025-03-15"
      [[("currency", .str "USD"), ("rate", .composite "1.08"),
        ("last_updated", .str "2025-03-14")]] () hdates).2
      (by decide) (Or.inr (Or.inl rfl))).2.2.1⟩

/-! ## C24: the delete handlers of the CV entities -/

theorem entityStore_select (idEq : Val → Val → Bool) (rows : List Obj) (id : Val) :
    (entityStore "experience" idEq).query rows ⟨"SELECT * FROM experience WHERE id = $1", [id]⟩ =
      (some (rowsResult (rows.filter fun row => idEq (row.get "id") id)), rows) ∧
    (entityStore "education" idEq).query rows ⟨"SELECT * FROM education WHERE id = $1", [id]⟩ =
      (some (rowsResult (rows.filter fun row => idEq (row.get "id") id)), rows) :=
  ⟨rfl, rfl⟩

theorem entityStore_delete (idEq : Val → Val → Bool) (rows : List Obj) (id : Val) :
    (entityStore "experience" idEq).query rows ⟨"DELETE FROM experience WHERE id = $1", [id]⟩ =
      (some (countResult (rows.filter fun row => idEq (row.get "id") id).length),
       rows.filter fun row => !idEq (row.get "id") id) ∧
    (entityStore "education" idEq).query rows ⟨"DELETE FROM education WHERE id = $1", [id]⟩ =
      (some (countResult (rows.filter fun row => idEq (row.get "id") id).length),
       rows.filter fun row => !idEq (row.get "id") id) ∧
    (entityStore "skills" idEq).query rows ⟨"DELETE FROM skills WHERE id = $1", [id]⟩ =
      (some (countResult (rows.filter fun row => idEq (row.get "id") id).length),
       rows.filter fun row => !idEq (row.get "id") id) ∧
    (entityStore "projects" idEq).query rows
        ⟨"DELETE FROM projects WHERE id = $1 RETURNING *", [id]⟩ =
      (some (rowsResult (rows.filter fun row => idEq (row.get "id") id)),
       rows.filter fun row => !idEq (row.get "id") id) :=
  ⟨rfl, rfl, rfl, rfl⟩

theorem filter_none_of_missing (idEq : Val → Val → Bool) (rows : List Obj) (id : Val)
    (h : ∀ row ∈ rows, idEq (row.get "id") id = false) :
    (rows.filter fun row => idEq (row.get "id") id) = [] ∧
    (rows.filter fun row => !idEq (row.get "id") id) = rows := by
  constructor
  · rw [List.filter_eq_nil_iff]
    intro row hrow
    rw [h row hrow]
    decide
  · rw [List.filter_eq_self]
    intro row hrow
    rw [h row hrow]
    rfl

/-- The delete handlers on an id that has a row: the handlers of experience, education and
projects reply 200, and the table afterwards is the table without the rows of that id, the
other rows unchanged and in order. -/
theorem delete_existing_id (idEq : Val → Val → Bool) (rows : List Obj) (idParam : String)
    (hexists : ∃ row ∈ rows, idEq (row.get "id") (.str idParam) = true) :
    (deleteExperience (entityStore "experience" idEq) idParam rows).reply.status = 200 ∧
    (deleteExperience (entityStore "experience" idEq) idParam rows).final =
      (rows.filter fun row => !idEq (row.get "id") (.str idParam)) ∧
    (deleteEducation (entityStore "education" idEq) idParam rows).reply.status = 200 ∧
    (deleteEducation (entityStore "education" idEq) idParam rows).final =
      (rows.filter fun row => !idEq (row.get "id") (.str idParam)) ∧
    (deleteProjects (entityStore "projects" idEq) idParam rows).reply.status = 200 ∧
    (deleteProjects (entityStore "projects" idEq) idParam rows).final =
      (rows.filter fun row => !idEq (row.get "id") (.str idParam)) := by
  obtain ⟨row, hrow, hid⟩ := hexists
  have hne : (rows.filter fun row => idEq (row.get "id") (.str idParam)) ≠ [] := by
    intro h
    rw [List.filter_eq_nil_iff] at h
    exact h row hrow hid
  have hlen : ((rows.filter fun row => idEq (row.get "id") (.str idParam)).length == 0) =
      false := by
    cases hf : (rows.filter fun row => idEq (row.get "id") (.str idParam)) with
    | nil => exact absurd hf hne
    | cons a as => rfl
  unfold deleteExperience deleteEducation deleteProjects
  simp only
  rw [awaitQuery_of_some _ _ _ _ _ _ _ _ (entityStore_select idEq rows (.str idParam)).1,
    awaitQuery_of_some _ _ _ _ _ _ _ _ (entityStore_select idEq rows (.str idParam)).2,
    awaitQuery_of_some _ _ _ _ _ _ _ _ (entityStore_delete idEq rows (.str idParam)).2.2.2]
  simp only [rowsResult, hlen]
  rw [awaitQuery_of_some _ _ _ _ _ _ _ _ (entityStore_delete idEq rows (.str idParam)).1,
    awaitQuery_of_some _ _ _ _ _ _ _ _ (entityStore_delete idEq rows (.str idParam)).2.1]
  simp

/-- C24, what the code does on an id that has no row: the handlers of experience, education
and projects reply 404 and leave the table as it was; the handler of skills sends its DELETE
without looking for the row and replies 200 with the message that the skill was removed. -/
theorem skills_delete_has_no_existence_check (js : Builtins) (idEq : Val → Val → Bool)
    (rows : List Obj) (idParam : String)
    (hmissing : ∀ row ∈ rows, idEq (row.get "id") (.str idParam) = false)
    (hmissingInt : ∀ row ∈ rows, idEq (row.get "id") (js.parseInt idParam) = false) :
    ((deleteExperience (entityStore "experience" idEq) idParam rows).reply =
        errorReply 404 ("❌ No se encontró la experiencia con ID " ++ idParam ++ ".") ∧
      (deleteExperience (entityStore "experience" idEq) idParam rows).final = rows) ∧
    ((deleteEducation (entityStore "education" idEq) idParam rows).reply =
        errorReply 404 ("❌ No se encontró la educación con ID " ++ idParam ++ ".") ∧
      (deleteEducation (entityStore "education" idEq) idParam rows).final = rows) ∧
    ((deleteProjects (entityStore "projects" idEq) idParam rows).reply =
        errorReply 404 "❌ Proyecto no encontrado." ∧
      (deleteProjects (entityStore "projects" idEq) idParam rows).final = rows) ∧
    ((deleteSkills js (entityStore "skills" idEq) idParam rows).reply =
        ⟨200, [("message", .text ("✅ Habilidad con ID " ++ (js.parseInt idParam).toJsString ++
          " eliminada."))]⟩ ∧
      (deleteSkills js (entityStore "skills" idEq) idParam rows).issued =
        [⟨"DELETE FROM skills WHERE id = $1", [js.parseInt idParam]⟩] ∧
      (deleteSkills js (entityStore "skills" idEq) idParam rows).final = rows) := by
  obtain ⟨hnil, hsame⟩ := filter_none_of_missing idEq rows (.str idParam) hmissing
  obtain ⟨_, hsameInt⟩ := filter_none_of_missing idEq rows (js.parseInt idParam) hmissingInt
  unfold deleteExperience deleteEducation deleteProjects deleteSkills
  simp only
  rw [awaitQuery_of_some _ _ _ _ _ _ _ _ (entityStore_select idEq rows (.str idParam)).1,
    awaitQuery_of_some _ _ _ _ _ _ _ _ (entityStore_select idEq rows (.str idParam)).2,
    awaitQuery_of_some _ _ _ _ _ _ _ _ (entityStore_delete idEq rows (.str idParam)).2.2.2,
    awaitQuery_of_some _ _ _ _ _ _ _ _ (entityStore_delete idEq rows (js.parseInt idParam)).2.2.1]
  simp only [rowsResult, hnil, hsame, hsameInt]
  simp [Val.toJsString]

/-- C24 at a skills table that holds the skill 1 only: `DELETE /cv/skills/999` replies 200
and says the skill 999 was removed, where the three other handlers reply 404. -/
theorem skills_delete_has_no_existence_check_witness :
    (deleteSkills refBuiltins (entityStore "skills" idEqText) "999"
        [[("id", .num 1), ("name", .str "Lean")]]).reply =
      ⟨200, [("message", .text "✅ Habilidad con ID 999 eliminada.")]⟩ ∧
    (deleteExperience (entityStore "experience" idEqText) "999"
        [[("id", .num 1), ("name", .str "Lean")]]).reply.status = 404 :=
  have h := skills_delete_has_no_existence_check refBuiltins idEqText
    [[("id", .num 1), ("name", .str "Lean")]] "999" (by decide) (by decide)
  ⟨h.2.2.2.1, by rw [h.1.1]; rfl⟩

/-! ## C25: the body of an error response -/

theorem getCv_failure_body {σ : Type} (db : Store σ) (queryLang : Val)
    (currentMonthYear : String) (s : σ)
    (h : (getCv db queryLang currentMonthYear s).reply.status = 500) :
    (getCv db queryLang currentMonthYear s).reply = getCvFailed := by
  revert h
  simp only [getCv, awaitQuery]
  repeat' split
  all_goals simp

theorem deleteIncome_missing_body {σ : Type} (js : Builtins) (db : Store σ)
    (month year : String) (s : σ)
    (h : (deleteIncome js db month year s).reply.status = 404) :
    (deleteIncome js db month year s).reply =
      ⟨404, [("message", .text "❌ No hay datos de ingreso para este mes y año.")]⟩ := by
  revert h
  simp only [deleteIncome, awaitQuery]
  repeat' split
  all_goals simp [errorReply]

/-- C25, two error responses without an `error` field. Whenever `GET /cv` replies 500, and
whenever the income delete replies 404, the body is the one field `message` that carries the
text, and it has no field `error`. -/
theorem cv_and_income_errors_carry_message {σ τ : Type} (js : Builtins) (cv : Store σ)
    (fin : Store τ) (queryLang : Val) (currentMonthYear month year : String) (s : σ) (t : τ)
    (hcv : (getCv cv queryLang currentMonthYear s).reply.status = 500)
    (hincome : (deleteIncome js fin month year t).reply.status = 404) :
    (getCv cv queryLang currentMonthYear s).reply.body =
      [("message", .text "❌ Error al obtener los datos del CV.")] ∧
    (getCv cv queryLang currentMonthYear s).reply.body.lookup "error" = none ∧
    (deleteIncome js fin month year t).reply.body =
      [("message", .text "❌ No hay datos de ingreso para este mes y año.")] ∧
    (deleteIncome js fin month year t).reply.body.lookup "error" = none := by
  rw [getCv_failure_body cv queryLang currentMonthYear s hcv,
    deleteIncome_missing_body js fin month year t hincome]
  exact ⟨rfl, rfl, rfl, rfl⟩

set_option maxRecDepth 8000 in
/-- C25 at `GET /cv?lang=fr` on a store that rejects the unknown column `company_fr`, and at
`DELETE /finance/3/2025/income` on an empty income table. -/
theorem cv_and_income_errors_carry_message_witness :
    (getCv (parsingStore ["\n            SELECT id, \n                   company_fr AS company, \n                   role_fr AS role, \n                   duration_fr AS duration, \n                   description_fr AS description\n            FROM experience\n        "])
        (.str "fr") "2025-03" ()).reply =
      ⟨500, [("message", .text "❌ Error al obtener los datos del CV.")]⟩ ∧
    (deleteIncome refBuiltins (sqlStore refEngine) "3" "2025" ⟨[], []⟩).reply =
      ⟨404, [("message", .text "❌ No hay datos de ingreso para este mes y año.")]⟩ ∧
    (getCv (parsingStore ["\n            SELECT id, \n                   company_fr AS company, \n                   role_fr AS role, \n                   duration_fr AS duration, \n                   description_fr AS description\n            FROM experience\n        "])
        (.str "fr") "2025-03" ()).reply.body.lookup "error" = none :=
  ⟨rfl, rfl,
    (cv_and_income_errors_carry_message refBuiltins
      (parsingStore ["\n            SELECT id, \n                   company_fr AS company, \n                   role_fr AS role, \n                   duration_fr AS duration, \n                   description_fr AS description\n            FROM experience\n        "])
      (sqlStore refEngine) (.str "fr") "2025-03" "3" "2025" () ⟨[], []⟩ rfl rfl).2.1⟩

/-! ## C26: the creation of an experience -/

theorem checkRequired_filled (js : Builtins) (body : Obj) (field : String)
    (rest : List String)
    (h : isTextOrFalsy (body.get field) = true ∧ isBlank js (body.get field) = false) :
    checkRequired js body (field :: rest) = checkRequired js body rest := by
  obtain ⟨htext, hblank⟩ := h
  rw [checkRequired]
  cases hv : body.get field <;>
    simp_all [isTextOrFalsy, isBlank, Val.truthy]

theorem checkRequired_prefix (js : Builtins) (body : Obj) (before rest : List String)
    (h : ∀ g ∈ before, isTextOrFalsy (body.get g) = true ∧ isBlank js (body.get g) = false) :
    checkRequired js body (before ++ rest) = checkRequired js body rest := by
  induction before with
  | nil => rfl
  | cons g gs ih =>
    rw [List.cons_append, checkRequired_filled js body g _ (h g (List.mem_cons_self _ _))]
    exact ih fun x hx => h x (List.mem_cons_of_mem _ hx)

theorem checkRequired_blank (js : Builtins) (body : Obj) (field : String)
    (rest : List String) (h : isBlank js (body.get field) = true) :
    checkRequired js body (field :: rest) = .refused field := by
  rw [checkRequired]
  cases hv : body.get field
  case str t =>
    rw [hv] at h
    by_cases ht : t = ""
    · simp [Val.truthy, ht]
    · have htrim : js.trim t = "" := by simpa [isBlank, Val.truthy, ht] using h
      simp [Val.truthy, ht, htrim]
  all_goals simp_all [isBlank, Val.truthy]

theorem checkRequired_not_text (js : Builtins) (body : Obj) (field : String)
    (rest : List String) (h : isTextOrFalsy (body.get field) = false) :
    checkRequired js body (field :: rest) = .typeError field := by
  rw [checkRequired]
  cases hv : body.get field <;>
    simp_all [isTextOrFalsy, Val.truthy]

/-- The creation of an experience on a body whose twelve fields are all strings that do not
trim to nothing: the handler sends one statement, the INSERT bound to the twelve body values
in the order of the columns, and replies 200, or 500 when the store rejects the INSERT. -/
theorem experience_create_inserts {σ : Type} (js : Builtins) (db : Store σ) (body : Obj)
    (s : σ)
    (hfilled : ∀ g ∈ requiredFields,
      isTextOrFalsy (body.get g) = true ∧ isBlank js (body.get g) = false) :
    ∃ o, postExperience js db body s = some o ∧
      o.issued = [⟨"\n            INSERT INTO experience (\n                company_en, company_es, company_it,\n                role_en, role_es, role_it,\n                duration_en, duration_es, duration_it,\n                description_en, description_es, description_it\n            ) VALUES ($1, $2, $3, $4, $5, $6, $7, $8, $9, $10, $11, $12)\n            RETURNING *;\n        ",
        requiredFields.map body.get⟩] ∧
      (o.reply.status = 200 ∨ o.reply.status = 500) := by
  have hpassed : checkRequired js body requiredFields = .passed := by
    have h := checkRequired_prefix js body requiredFields [] hfilled
    rw [List.append_nil] at h
    rw [h]
    rfl
  unfold postExperience
  simp only [hpassed]
  exact ⟨_, rfl, awaitQuery_issued_last _ _ _ _ _ _, awaitQuery_status_last _ _ _ _ _ _⟩

/-- C26, what the code does at the first required field that is not a string that trims to
something, the fields before it being such strings. If the value is falsy (missing, `null`,
`false`, `0`, the empty string) or a string that trims to nothing, the reply is 400 naming the
field and nothing is sent to the store. If the value is truthy and not a string, the test
`newExperience[field].trim()` throws outside the `try` block: the handler ends without a
reply of its own, neither the 400 nor an insertion. -/
theorem experience_create_throws_on_non_text {σ : Type} (js : Builtins) (db : Store σ)
    (body : Obj) (s : σ) (before after : List String) (field : String)
    (hsplit : requiredFields = before ++ field :: after)
    (hbefore : ∀ g ∈ before,
      isTextOrFalsy (body.get g) = true ∧ isBlank js (body.get g) = false) :
    (isBlank js (body.get field) = true →
      postExperience js db body s =
        some ⟨errorReply 400 ("❌ El campo '" ++ field ++ "' es obligatorio."), [], s⟩) ∧
    (isTextOrFalsy (body.get field) = false →
      postExperience js db body s = none) := by
  constructor
  · intro hblank
    unfold postExperience
    simp only [hsplit, checkRequired_prefix js body before _ hbefore,
      checkRequired_blank js body field after hblank]
  · intro hnot
    unfold postExperience
    simp only [hsplit, checkRequired_prefix js body before _ hbefore,
      checkRequired_not_text js body field after hnot]

/-- C26 at a body whose `company_en` is the number 5, the eleven other fields being names:
no reply and no insertion. With `company_en` made of two blanks the reply is 400 naming it. -/
theorem experience_create_throws_on_non_text_witness :
    postExperience refBuiltins presentStore
        [("company_en", .num 5), ("company_es", .str "a"), ("company_it", .str "a"),
         ("role_en", .str "a"), ("role_es", .str "a"), ("role_it", .str "a"),
         ("duration_en", .str "a"), ("duration_es", .str "a"), ("duration_it", .str "a"),
         ("description_en", .str "a"), ("description_es", .str "a"),
         ("description_it", .str "a")] () = none ∧
    postExperience refBuiltins presentStore
        [("company_en", .str "  "), ("company_es", .str "a"), ("company_it", .str "a"),
         ("role_en", .str "a"), ("role_es", .str "a"), ("role_it", .str "a"),
         ("duration_en", .str "a"), ("duration_es", .str "a"), ("duration_it", .str "a"),
         ("description_en", .str "a"), ("description_es", .str "a"),
         ("description_it", .str "a")] () =
      some ⟨errorReply 400 "❌ El campo 'company_en' es obligatorio.", [], ()⟩ :=
  ⟨(experience_create_throws_on_non_text refBuiltins presentStore
      [("company_en", .num 5), ("company_es", .str "a"), ("company_it", .str "a"),
       ("role_en", .str "a"), ("role_es", .str "a"), ("role_it", .str "a"),
       ("duration_en", .str "a"), ("duration_es", .str "a"), ("duration_it", .str "a"),
       ("description_en", .str "a"), ("description_es", .str "a"),
       ("description_it", .str "a")] () [] _ "company_en" rfl
      (fun _ h => absurd h (List.not_mem_nil _))).2 rfl,
    (experience_create_throws_on_non_text refBuiltins presentStore
      [("company_en", .str "  "), ("company_es", .str "a"), ("company_it", .str "a"),
       ("role_en", .str "a"), ("role_es", .str "a"), ("role_it", .str "a"),
       ("duration_en", .str "a"), ("duration_es", .str "a"), ("duration_it", .str "a"),
       ("description_en", .str "a"), ("description_es", .str "a"),
       ("description_it", .str "a")] () [] _ "company_en" rfl
      (fun _ h => absurd h (List.not_mem_nil _))).1 (by decide)⟩

/-! ## C27: the key of a month in the finance handlers -/

theorem monthKey_ne (year a b : String) (h : a ≠ b) :
    Val.str (year ++ "-" ++ a) ≠ Val.str (year ++ "-" ++ b) := by
  intro heq
  injection heq with heq
  have hdata := congrArg String.data heq
  simp only [String.data_append, List.append_cancel_left_eq] at hdata
  exact h (String.ext hdata)

theorem sqlEq_false_of_ne (row : Obj) (k1 k2 : Val) (hrow : row.get "month_year" = k1)
    (hne : k1 ≠ k2) : sqlEq (row.get "month_year") k2 = false := by
  cases hs : sqlEq (row.get "month_year") k2 with
  | false => rfl
  | true => exact absurd (hrow.symm.trans (sqlEq_eq _ _ hs)) hne

theorem sqlStore_select_expenses (e : SqlEngine) (t : Tables) (key : Val) :
    (sqlStore e).query t ⟨"SELECT * FROM expenses WHERE month_year = $1", [key]⟩ =
      (some (rowsResult (t.expenses.filter fun row => sqlEq (row.get "month_year") key)), t) :=
  rfl

theorem sqlStore_delete_income (e : SqlEngine) (t : Tables) (key : Val) :
    (sqlStore e).query t ⟨"DELETE FROM income WHERE month_year = $1", [key]⟩ =
      (some (countResult (t.income.filter fun row =>
          sqlEq (row.get "month_year") key).length),
       ⟨t.expenses, t.income.filter fun row => !sqlEq (row.get "month_year") key⟩) :=
  rfl

set_option maxRecDepth 8000 in
theorem sqlStore_create_expense (e : SqlEngine) (t : Tables)
    (key name category amount currency status : Val) :
    (sqlStore e).query t
        ⟨"INSERT INTO expenses (month_year, name, category, amount, currency, status, date_added) \n            VALUES ($1, $2, $3, $4, $5, $6, CURRENT_DATE) \n            RETURNING *",
         [key, name, category, amount, currency, status]⟩ =
      (some (rowsResult
        [[("month_year", key), ("name", name), ("category", category), ("amount", amount),
          ("currency", currency), ("status", status), ("date_added", .str e.currentDate)]]),
       ⟨t.expenses ++
          [[("month_year", key), ("name", name), ("category", category),
            ("amount", amount), ("currency", currency), ("status", status),
            ("date_added", .str e.currentDate)]], t.income⟩) := rfl

/-- The income delete on a table with no row under its key: 404, and the table is untouched. -/
theorem deleteIncome_not_found (js : Builtins) (e : SqlEngine) (month year : String)
    (t : Tables)
    (h : ∀ row ∈ t.income,
      sqlEq (row.get "month_year") (.str (year ++ "-" ++ js.toLowerCase month)) = false) :
    (deleteIncome js (sqlStore e) month year t).reply =
      ⟨404, [("message", .text "❌ No hay datos de ingreso para este mes y año.")]⟩ ∧
    (deleteIncome js (sqlStore e) month year t).final = t := by
  have hnil : (t.income.filter fun row =>
      sqlEq (row.get "month_year") (.str (year ++ "-" ++ js.toLowerCase month))) = [] := by
    rw [List.filter_eq_nil_iff]
    intro row hrow
    rw [h row hrow]
    decide
  unfold deleteIncome
  simp only
  rw [awaitQuery_of_some _ _ _ _ _ _ _ _ (sqlStore_select_income e _ _)]
  simp only [rowsResult, hnil]
  exact ⟨rfl, rfl⟩

/-- The rows of the income table after the upsert: a row of the table before, its month
unchanged, or the new row of the written key; and there is a row of the written key, holding
the amount of the body. -/
theorem putIncome_rows (e : SqlEngine) (month year : String) (body : Obj) (t : Tables) :
    (∀ row ∈ (putIncome (sqlStore e) month year body t).final.income,
      (∃ old ∈ t.income, row.get "month_year" = old.get "month_year") ∨
      row.get "month_year" = .str (year ++ "-" ++ padStart2 month)) ∧
    (∃ row ∈ (putIncome (sqlStore e) month year body t).final.income,
      row.get "month_year" = .str (year ++ "-" ++ padStart2 month) ∧
      row.get "amount" = body.get "amount") := by
  rw [putIncome_sqlStore]
  cases hf : t.income.filter fun row =>
      sqlEq (row.get "month_year") (.str (year ++ "-" ++ padStart2 month)) with
  | nil =>
    rw [if_pos rfl]
    constructor
    · intro row hrow
      rcases List.mem_append.mp hrow with h | h
      · exact Or.inl ⟨row, h, rfl⟩
      · right
        simp only [List.mem_singleton] at h
        subst h
        rfl
    · exact ⟨_, List.mem_append_right _ (List.mem_singleton_self _), rfl, rfl⟩
  | cons r rest =>
    rw [if_neg (by simp)]
    have hr : r ∈ t.income.filter fun row =>
        sqlEq (row.get "month_year") (.str (year ++ "-" ++ padStart2 month)) := by
      rw [hf]
      exact List.mem_cons_self _ _
    obtain ⟨hrin, hrkey⟩ := List.mem_filter.mp hr
    constructor
    · intro row hrow
      obtain ⟨old, hold, hrowEq⟩ := List.mem_map.mp hrow
      left
      refine ⟨old, hold, ?_⟩
      rw [← hrowEq]
      split
      · exact month_year_after_set old _ _
      · rfl
    · refine ⟨(r.set "amount" (body.get "amount")).set "currency" (body.get "currency"),
        List.mem_map.mpr ⟨r, hrin, by rw [if_pos hrkey]⟩, ?_, ?_⟩
      · rw [month_year_after_set]
        exact sqlEq_eq _ _ hrkey
      · rw [Obj.get_set, if_neg (by decide), Obj.get_set, if_pos rfl]

/-- C27, what the code does when the month of the path is not what both derivations leave
alone. `GET /finance` and the income upsert write the key as the year, a dash and the month
padded to two characters; the income delete and the expense handlers write the year, a dash
and the lower-cased month. When the two differ for a month (as for `3` and for `MARCH`), on
tables holding nothing under the other key: the income delete at the same path parameters as
the upsert replies 404 and leaves the upserted row in the table, and `GET /finance` at the
same path parameters as the expense creation lists no expense, the created row being stored
under the other key. -/
theorem finance_handlers_disagree_on_the_key (js : Builtins) (e : SqlEngine)
    (month year : String) (body expense : Obj) (t : Tables)
    (hkey : padStart2 month ≠ js.toLowerCase month)
    (hincome : ∀ row ∈ t.income,
      sqlEq (row.get "month_year") (.str (year ++ "-" ++ js.toLowerCase month)) = false)
    (hexpenses : ∀ row ∈ t.expenses,
      sqlEq (row.get "month_year") (.str (year ++ "-" ++ padStart2 month)) = false)
    (hfields : hasRequiredFields expense = true) :
    ((deleteIncome js (sqlStore e) month year
        (putIncome (sqlStore e) month year body t).final).reply =
        ⟨404, [("message", .text "❌ No hay datos de ingreso para este mes y año.")]⟩ ∧
      (deleteIncome js (sqlStore e) month year
        (putIncome (sqlStore e) month year body t).final).final =
        (putIncome (sqlStore e) month year body t).final ∧
      ∃ row ∈ (putIncome (sqlStore e) month year body t).final.income,
        row.get "month_year" = .str (year ++ "-" ++ padStart2 month) ∧
        row.get "amount" = body.get "amount") ∧
    ((postExpense js (sqlStore e) month year expense t).final.expenses =
        t.expenses ++
          [[("month_year", .str (year ++ "-" ++ js.toLowerCase month)),
            ("name", expense.get "name"), ("category", expense.get "category"),
            ("amount", js.parseFloat (expense.get "amount")),
            ("currency", expense.get "currency"),
            ("status", (expense.get "status").or (.str "pending")),
            ("date_added", .str e.currentDate)]] ∧
      (getFinance (sqlStore e) month year
        (postExpense js (sqlStore e) month year expense t).final).reply.status = 200 ∧
      (getFinance (sqlStore e) month year
        (postExpense js (sqlStore e) month year expense t).final).reply.body.lookup
          "expenses" = some (.rows [])) := by
  constructor
  · obtain ⟨hrows, hnew⟩ := putIncome_rows e month year body t
    have hnone : ∀ row ∈ (putIncome (sqlStore e) month year body t).final.income,
        sqlEq (row.get "month_year") (.str (year ++ "-" ++ js.toLowerCase month)) = false := by
      intro row hrow
      rcases hrows row hrow with ⟨old, hold, hsame⟩ | hwritten
      · rw [hsame]
        exact hincome old hold
      · exact sqlEq_false_of_ne row _ _ hwritten (monthKey_ne year _ _ hkey)
    obtain ⟨h404, hfinal⟩ := deleteIncome_not_found js e month year _ hnone
    exact ⟨h404, hfinal, hnew⟩
  · rw [postExpense_accepted js (sqlStore e) month year expense t hfields,
      awaitQuery_of_some _ _ _ _ _ _ _ _ (sqlStore_create_expense e t _ _ _ _ _ _)]
    have hnil : ((t.expenses ++
        [[("month_year", .str (year ++ "-" ++ js.toLowerCase month)),
          ("name", expense.get "name"), ("category", expense.get "category"),
          ("amount", js.parseFloat (expense.get "amount")),
          ("currency", expense.get "currency"),
          ("status", (expense.get "status").or (.str "pending")),
          ("date_added", .str e.currentDate)]]).filter fun row =>
        sqlEq (row.get "month_year") (.str (year ++ "-" ++ padStart2 month))) = [] := by
      rw [List.filter_eq_nil_iff]
      intro row hrow
      rcases List.mem_append.mp hrow with h | h
      · rw [hexpenses row h]
        decide
      · simp only [List.mem_singleton] at h
        subst h
        have hrow : sqlEq (Obj.get [("month_year", .str (year ++ "-" ++ js.toLowerCase month)),
            ("name", expense.get "name"), ("category", expense.get "category"),
            ("amount", js.parseFloat (expense.get "amount")),
            ("currency", expense.get "currency"),
            ("status", (expense.get "status").or (.str "pending")),
            ("date_added", .str e.currentDate)] "month_year")
            (.str (year ++ "-" ++ padStart2 month)) = false :=
          sqlEq_false_of_ne _ (.str (year ++ "-" ++ js.toLowerCase month)) _ rfl
            (monthKey_ne year _ _ (Ne.symm hkey))
        rw [hrow]
        decide
    refine ⟨rfl, ?_⟩
    unfold getFinance
    simp only
    rw [awaitQuery_of_some _ _ _ _ _ _ _ _ (sqlStore_select_income e _ _),
      awaitQuery_of_some _ _ _ _ _ _ _ _ (sqlStore_select_expenses e _ _)]
    dsimp only [rowsResult]
    rw [hnil]
    exact ⟨rfl, rfl⟩

set_option maxRecDepth 8000 in
/-- C27 at the two examples of the claim, on empty tables. An income upserted with
`PUT /finance/3/2025/income` is stored under `2025-03`; `DELETE /finance/3/2025/income` looks
under `2025-3`, replies 404, and the row stays. An expense created with
`POST /finance/MARCH/2025/expenses` is stored under `2025-march`; `GET /finance/MARCH/2025`
looks under `2025-MARCH` and lists no expense. -/
theorem finance_handlers_disagree_on_the_key_witness :
    (deleteIncome refBuiltins (sqlStore refEngine) "3" "2025"
        (putIncome (sqlStore refEngine) "3" "2025"
          [("amount", .num 1000), ("currency", .str "EUR")] ⟨[], []⟩).final).reply =
      ⟨404, [("message", .text "❌ No hay datos de ingreso para este mes y año.")]⟩ ∧
    (deleteIncome refBuiltins (sqlStore refEngine) "3" "2025"
        (putIncome (sqlStore refEngine) "3" "2025"
          [("amount", .num 1000), ("currency", .str "EUR")] ⟨[], []⟩).final).final.income =
      [[("month_year", .str "2025-03"), ("amount", .num 1000), ("currency", .str "EUR")]] ∧
    (postExpense refBuiltins (sqlStore refEngine) "MARCH" "2025"
        [("name", .str "rent"), ("category", .str "home"), ("amount", .num 700),
         ("currency", .str "EUR")] ⟨[], []⟩).final.expenses =
      [[("month_year", .str "2025-march"), ("name", .str "rent"), ("category", .str "home"),
        ("amount", .num 700), ("currency", .str "EUR"), ("status", .str "pending"),
        ("date_added", .str "2025-03-15")]] ∧
    (getFinance (sqlStore refEngine) "MARCH" "2025"
        (postExpense refBuiltins (sqlStore refEngine) "MARCH" "2025"
          [("name", .str "rent"), ("category", .str "home"), ("amount", .num 700),
           ("currency", .str "EUR")] ⟨[], []⟩).final).reply.body.lookup "expenses" =
      some (.rows []) :=
  ⟨(finance_handlers_disagree_on_the_key refBuiltins refEngine "3" "2025"
      [("amount", .num 1000), ("currency", .str "EUR")]
      [("name", .str "rent"), ("category", .str "home"), ("amount", .num 700),
       ("currency", .str "EUR")] ⟨[], []⟩ (by decide)
      (fun _ h => absurd h (List.not_mem_nil _))
      (fun _ h => absurd h (List.not_mem_nil _)) rfl).1.1,
    rfl, rfl,
    (finance_handlers_disagree_on_the_key refBuiltins refEngine "MARCH" "2025"
      [("amount", .num 1000), ("currency", .str "EUR")]
      [("name", .str "rent"), ("category", .str "home"), ("amount", .num 700),
       ("currency", .str "EUR")] ⟨[], []⟩ (by decide)
      (fun _ h => absurd h (List.not_mem_nil _))
      (fun _ h => absurd h (List.not_mem_nil _)) rfl).2.2.2⟩

end CvBackend
